import Mathlib

/-!
# SceneManager (CS-330 portfolio): texture table, material list and shader state

A shallow embedding of `Source/SceneManager.cpp`.  The manager's fields become a
record, every call that leaves the class (image decoder, graphics API, shader
manager, console) is appended to an event trace, and undefined behaviour of the
C++ code (indexing outside the 16-entry texture table, calling through a NULL
shader manager) is an explicit `Abort` result.

Scalars of type `float` are represented by rationals.  Most functions of this
part only store and copy them; `SetTransformations` multiplies matrices of the
external library GLM, whose arithmetic is taken as exact.  The second part of the
file, on `Source/ViewManager.cpp`, writes out every rounding of its source.
-/

set_option autoImplicit false

/-! ## Data model -/

/-- A `glm::vec2` value. -/
structure vec2 where
  x : ℚ
  y : ℚ
deriving DecidableEq, Repr

/-- A `glm::vec3` value. -/
structure vec3 where
  x : ℚ
  y : ℚ
  z : ℚ
deriving DecidableEq, Repr

/-- A `glm::vec4` value, with the colour component names the source uses. -/
structure vec4 where
  r : ℚ
  g : ℚ
  b : ℚ
  a : ℚ
deriving DecidableEq, Repr

/-- Modelled from the spec: the `TEXTURE_INFO` record is declared in `SceneManager.h`, which is
not among the sources.  The spec gives a texture slot a string tag and a GPU handle; the handle is
a `GLuint` (its address is passed to `glGenTextures`), kept here as a natural number below
`2^32`. -/
structure TEXTURE_INFO where
  tag : String
  ID : Nat
deriving DecidableEq, Repr

/-- Modelled from the spec: the `OBJECT_MATERIAL` record is declared in `SceneManager.h`, which is
not among the sources.  Its six fields are the ones the spec lists and the source assigns. -/
structure OBJECT_MATERIAL where
  ambientColor : vec3
  ambientStrength : ℚ
  diffuseColor : vec3
  specularColor : vec3
  shininess : ℚ
  tag : String
deriving DecidableEq, Repr

/-- The symbolic constants of the graphics API that `CreateGLTexture` passes. -/
inductive GLenum where
  | GL_TEXTURE_2D
  | GL_TEXTURE_WRAP_S
  | GL_TEXTURE_WRAP_T
  | GL_REPEAT
  | GL_TEXTURE_MIN_FILTER
  | GL_TEXTURE_MAG_FILTER
  | GL_LINEAR
  | GL_RGB8
  | GL_RGB
  | GL_RGBA8
  | GL_RGBA
  | GL_UNSIGNED_BYTE
deriving DecidableEq, Repr

/-- One call that leaves the class: to the image decoder (`stbi_*`), to the console, to the
graphics API (`gl*`), to the shader manager (`set*Value`) or to the mesh collection
`m_basicMeshes` (`Draw*Mesh`).  `glGenTextures` carries the texture name the API handed
back. -/
inductive Effect where
  | stbi_set_flip_vertically_on_load (flag : Bool)
  | stbi_load (filename : String)
  | stbi_image_free
  | cout (text : String)
  | glGenTextures (name : Nat)
  | glBindTexture (target : GLenum) (texture : Nat)
  | glTexParameteri (target : GLenum) (pname : GLenum) (param : GLenum)
  | glTexImage2D (target : GLenum) (level : Int) (internalformat : GLenum) (width : Int)
      (height : Int) (border : Int) (format : GLenum) (type : GLenum)
  | glGenerateMipmap (target : GLenum)
  | setIntValue (name : String) (value : Int)
  | setSampler2DValue (name : String) (value : Int)
  | setFloatValue (name : String) (value : ℚ)
  | setVec3Value (name : String) (value : vec3)
  | setVec4Value (name : String) (value : vec4)
  | glActiveTexture (unit : Nat)
  | setMat4Value (name : String) (value : Matrix (Fin 4) (Fin 4) ℚ)
  | setVec2Value (name : String) (value : vec2)
  | DrawBoxMesh
  | DrawPlaneMesh
  | DrawCylinderMesh
  | DrawConeMesh
deriving DecidableEq, Repr

/-- The ways a call can fail to return: the two kinds of undefined behaviour the embedded code
can reach, and the exhaustion of a loop budget (the theorems below show that the budgets the
lookups start with are enough). -/
inductive Abort where
  | outOfBounds (index : Nat)
  | nullDereference
  | fuelExhausted
deriving DecidableEq, Repr

/-- What `stbi_load` reports for an image it could decode. -/
structure StbImage where
  width : Int
  height : Int
  colorChannels : Int
deriving DecidableEq, Repr

/-- Modelled from the spec: the class is declared in `SceneManager.h`, which is not among the
sources.  These are the fields the embedded functions read or write, with the table
`m_textureIDs` at the 16 slots the spec gives it (the constructor initialises exactly the
indices `0..15`), and the trace of the calls made so far.  `m_pShaderManager` is `true` when the
pointer is not NULL. -/
structure SceneManager where
  m_pShaderManager : Bool
  m_textureIDs : Fin 16 → TEXTURE_INFO
  m_loadedTextures : Nat
  m_objectMaterials : List OBJECT_MATERIAL
  trace : List Effect

namespace SceneManager

/-- The shader uniform names declared at the top of the source file. -/
def g_ColorValueName : String := "objectColor"

/-- The name of the texture-slot uniform. -/
def g_TextureValueName : String := "objectTexture"

/-- The name of the use-texture flag. -/
def g_UseTextureName : String := "bUseTexture"

/-- The value the constructor stores in `ID`: `-1` converted to `GLuint`. -/
def unsetID : Nat := ((-1 : Int) % 2 ^ 32).toNat

/-- The constructor `SceneManager::SceneManager`: every slot gets the tag `"/0"` and the ID `-1`, the count is
zero and the material vector is empty. -/
def new (pShaderManager : Bool) : SceneManager :=
  { m_pShaderManager := pShaderManager
    m_textureIDs := fun _ => { tag := "/0", ID := unsetID }
    m_loadedTextures := 0
    m_objectMaterials := []
    trace := [] }

/-- Append the events of one statement to the trace. -/
def emit (s : SceneManager) (es : List Effect) : SceneManager :=
  { s with trace := s.trace ++ es }

/-- The two assignments `m_textureIDs[index].ID = textureID; m_textureIDs[index].tag = tag;`.
An index outside the table is undefined behaviour. -/
def writeSlot (s : SceneManager) (index : Nat) (textureID : Nat) (tag : String) :
    Except Abort SceneManager :=
  if h : index < 16 then
    .ok { s with m_textureIDs := Function.update s.m_textureIDs ⟨index, h⟩
                                   { tag := tag, ID := textureID } }
  else
    .error (.outOfBounds index)

/-- The read `m_textureIDs[index]`. -/
def readSlot (s : SceneManager) (index : Nat) : Except Abort TEXTURE_INFO :=
  if h : index < 16 then .ok (s.m_textureIDs ⟨index, h⟩) else .error (.outOfBounds index)

/-- The tail of `CreateGLTexture` after the pixel upload: mipmaps, release of the decode
buffer, unbinding, then the registration of the texture in slot `m_loadedTextures` and the
increment of the count. -/
def CreateGLTexture.register (s : SceneManager) (tag : String) (textureID : Nat) :
    Except Abort (Bool × SceneManager) :=
  let s := s.emit [.glGenerateMipmap .GL_TEXTURE_2D, .stbi_image_free,
                   .glBindTexture .GL_TEXTURE_2D 0]
  match s.writeSlot s.m_loadedTextures textureID tag with
  | .ok s => .ok (true, { s with m_loadedTextures := s.m_loadedTextures + 1 })
  | .error e => .error e

/-- The method `SceneManager::CreateGLTexture`.  `image` is what `stbi_load` returned (`none` for a NULL
pointer) and `newTextureID` the name `glGenTextures` wrote into `textureID`. -/
def CreateGLTexture (s : SceneManager) (filename : String) (tag : String)
    (image : Option StbImage) (newTextureID : Nat) : Except Abort (Bool × SceneManager) :=
  let s := s.emit [.stbi_set_flip_vertically_on_load true, .stbi_load filename]
  match image with
  | some img =>
    let s := s.emit [.cout ("Successfully loaded image:" ++ filename
      ++ ", width:" ++ toString img.width ++ ", height:" ++ toString img.height
      ++ ", channels:" ++ toString img.colorChannels)]
    let textureID := newTextureID
    let s := s.emit [.glGenTextures textureID, .glBindTexture .GL_TEXTURE_2D textureID]
    let s := s.emit [.glTexParameteri .GL_TEXTURE_2D .GL_TEXTURE_WRAP_S .GL_REPEAT,
                     .glTexParameteri .GL_TEXTURE_2D .GL_TEXTURE_WRAP_T .GL_REPEAT]
    let s := s.emit [.glTexParameteri .GL_TEXTURE_2D .GL_TEXTURE_MIN_FILTER .GL_LINEAR,
                     .glTexParameteri .GL_TEXTURE_2D .GL_TEXTURE_MAG_FILTER .GL_LINEAR]
    if img.colorChannels = 3 then
      CreateGLTexture.register
        (s.emit [.glTexImage2D .GL_TEXTURE_2D 0 .GL_RGB8 img.width img.height 0 .GL_RGB
          .GL_UNSIGNED_BYTE]) tag textureID
    else if img.colorChannels = 4 then
      CreateGLTexture.register
        (s.emit [.glTexImage2D .GL_TEXTURE_2D 0 .GL_RGBA8 img.width img.height 0 .GL_RGBA
          .GL_UNSIGNED_BYTE]) tag textureID
    else
      .ok (false, s.emit [.cout ("Not implemented to handle image with "
        ++ toString img.colorChannels ++ " channels")])
  | none =>
    .ok (false, s.emit [.cout ("Could not load image:" ++ filename)])

/-- The loop of `FindTextureSlot` with its three local variables; `fuel` bounds the number of
times the loop condition is evaluated. -/
def FindTextureSlot.loop (s : SceneManager) (tag : String) :
    Nat → Int → Nat → Bool → Except Abort Int
  | 0, _, _, _ => .error .fuelExhausted
  | fuel + 1, textureSlot, index, bFound =>
    if index < s.m_loadedTextures ∧ bFound = false then
      match s.readSlot index with
      | .ok slot =>
        if slot.tag = tag then
          FindTextureSlot.loop s tag fuel (index : Int) index true
        else
          FindTextureSlot.loop s tag fuel textureSlot (index + 1) bFound
      | .error e => .error e
    else
      .ok textureSlot

/-- The method `SceneManager::FindTextureSlot`.  The condition is evaluated at most
`m_loadedTextures + 1` times. -/
def FindTextureSlot (s : SceneManager) (tag : String) : Except Abort Int :=
  FindTextureSlot.loop s tag (s.m_loadedTextures + 1) (-1) 0 false

/-- The loop of `FindMaterial`; `fuel` bounds the number of times the loop condition is
evaluated.  A hit copies five fields into the caller's record and leaves its tag alone. -/
def FindMaterial.loop (s : SceneManager) (tag : String) :
    Nat → Nat → Bool → OBJECT_MATERIAL → Except Abort OBJECT_MATERIAL
  | 0, _, _, _ => .error .fuelExhausted
  | fuel + 1, index, bFound, material =>
    if h : index < s.m_objectMaterials.length ∧ bFound = false then
      let entry := s.m_objectMaterials.get ⟨index, h.1⟩
      if entry.tag = tag then
        FindMaterial.loop s tag fuel index true
          { material with
            ambientColor := entry.ambientColor
            ambientStrength := entry.ambientStrength
            diffuseColor := entry.diffuseColor
            specularColor := entry.specularColor
            shininess := entry.shininess }
      else
        FindMaterial.loop s tag fuel (index + 1) bFound material
    else
      .ok material

/-- The method `SceneManager::FindMaterial`.  `material` is the caller's record passed by reference; the
result pairs the returned flag with the record as the call leaves it. -/
def FindMaterial (s : SceneManager) (tag : String) (material : OBJECT_MATERIAL) :
    Except Abort (Bool × OBJECT_MATERIAL) :=
  if s.m_objectMaterials.length = 0 then
    .ok (false, material)
  else
    match FindMaterial.loop s tag (s.m_objectMaterials.length + 1) 0 false material with
    | .ok material => .ok (true, material)
    | .error e => .error e

/-- The method `SceneManager::SetShaderColor`. -/
def SetShaderColor (s : SceneManager) (redColorValue greenColorValue blueColorValue
    alphaValue : ℚ) : SceneManager :=
  let currentColor : vec4 :=
    { r := redColorValue, g := greenColorValue, b := blueColorValue, a := alphaValue }
  if s.m_pShaderManager then
    s.emit [.setIntValue g_UseTextureName 0, .setVec4Value g_ColorValueName currentColor]
  else
    s

/-- The method `SceneManager::SetShaderTexture`. -/
def SetShaderTexture (s : SceneManager) (textureTag : String) : Except Abort SceneManager :=
  if s.m_pShaderManager then
    let s := s.emit [.setIntValue g_UseTextureName 1]
    match s.FindTextureSlot textureTag with
    | .ok textureID => .ok (s.emit [.setSampler2DValue g_TextureValueName textureID])
    | .error e => .error e
  else
    .ok s

/-- The five uniform writes of `SetShaderMaterial`. -/
def materialWrites (material : OBJECT_MATERIAL) : List Effect :=
  [.setVec3Value "material.ambientColor" material.ambientColor,
   .setFloatValue "material.ambientStrength" material.ambientStrength,
   .setVec3Value "material.diffuseColor" material.diffuseColor,
   .setVec3Value "material.specularColor" material.specularColor,
   .setFloatValue "material.shininess" material.shininess]

/-- The method `SceneManager::SetShaderMaterial`.  `material` is the content of the local record
`OBJECT_MATERIAL material;` before `FindMaterial` fills it, which the source leaves
indeterminate.  The writes go through `m_pShaderManager` without a NULL test. -/
def SetShaderMaterial (s : SceneManager) (materialTag : String) (material : OBJECT_MATERIAL) :
    Except Abort SceneManager :=
  if s.m_objectMaterials.length > 0 then
    match s.FindMaterial materialTag material with
    | .ok (bReturn, material) =>
      if bReturn = true then
        if s.m_pShaderManager then
          .ok (s.emit (materialWrites material))
        else
          .error .nullDereference
      else
        .ok s
    | .error e => .error e
  else
    .ok s

/-- The method `SceneManager::DefineObjectMaterials`: nine records, each fully assigned and then appended
with `push_back`, in source order. -/
def DefineObjectMaterials (s : SceneManager) : SceneManager :=
  let goldMaterial : OBJECT_MATERIAL :=
    { ambientColor := ⟨0.2, 0.2, 0.2⟩, ambientStrength := 0.3, diffuseColor := ⟨0.2, 0.2, 0.2⟩
      specularColor := ⟨0.5, 0.5, 0.5⟩, shininess := 35.0, tag := "metal" }
  let s := { s with m_objectMaterials := s.m_objectMaterials ++ [goldMaterial] }
  let woodMaterial : OBJECT_MATERIAL :=
    { ambientColor := ⟨0.1, 0.1, 0.1⟩, ambientStrength := 0.2, diffuseColor := ⟨0.3, 0.3, 0.3⟩
      specularColor := ⟨0.1, 0.1, 0.1⟩, shininess := 100.0, tag := "wood" }
  let s := { s with m_objectMaterials := s.m_objectMaterials ++ [woodMaterial] }
  let glassMaterial : OBJECT_MATERIAL :=
    { ambientColor := ⟨0.4, 0.4, 0.4⟩, ambientStrength := 0.3, diffuseColor := ⟨0.3, 0.3, 0.3⟩
      specularColor := ⟨0.6, 0.6, 0.6⟩, shininess := 85.0, tag := "glass" }
  let s := { s with m_objectMaterials := s.m_objectMaterials ++ [glassMaterial] }
  let cheeseMaterial : OBJECT_MATERIAL :=
    { ambientColor := ⟨0.1, 0.1, 0.1⟩, ambientStrength := 0.2, diffuseColor := ⟨0.5, 0.5, 0.5⟩
      specularColor := ⟨0.1, 0.1, 0.1⟩, shininess := 0.3, tag := "cover" }
  let s := { s with m_objectMaterials := s.m_objectMaterials ++ [cheeseMaterial] }
  let breadMaterial : OBJECT_MATERIAL :=
    { ambientColor := ⟨0.2, 0.2, 0.2⟩, ambientStrength := 0.3, diffuseColor := ⟨0.5, 0.5, 0.5⟩
      specularColor := ⟨0.3, 0.3, 0.3⟩, shininess := 0.5, tag := "bread" }
  let s := { s with m_objectMaterials := s.m_objectMaterials ++ [breadMaterial] }
  let darkBreadMaterial : OBJECT_MATERIAL :=
    { ambientColor := ⟨0.2, 0.2, 0.2⟩, ambientStrength := 0.2, diffuseColor := ⟨0.1, 0.1, 0.1⟩
      specularColor := ⟨0.0, 0.0, 0.0⟩, shininess := 0.0, tag := "darkbread" }
  let s := { s with m_objectMaterials := s.m_objectMaterials ++ [darkBreadMaterial] }
  let backdropMaterial : OBJECT_MATERIAL :=
    { ambientColor := ⟨0.1, 0.1, 0.1⟩, ambientStrength := 0.6, diffuseColor := ⟨0.2, 0.2, 0.2⟩
      specularColor := ⟨0.95, 0.85, 0.8⟩, shininess := 2.0, tag := "backdrop" }
  let s := { s with m_objectMaterials := s.m_objectMaterials ++ [backdropMaterial] }
  let grapeMaterial : OBJECT_MATERIAL :=
    { ambientColor := ⟨0.1, 0.1, 0.1⟩, ambientStrength := 0.1, diffuseColor := ⟨0.2, 0.2, 0.2⟩
      specularColor := ⟨0.95, 0.85, 0.8⟩, shininess := 0.5, tag := "grape" }
  let s := { s with m_objectMaterials := s.m_objectMaterials ++ [grapeMaterial] }
  let lizardMaterial : OBJECT_MATERIAL :=
    { ambientColor := ⟨0.1, 0.1, 0.1⟩, ambientStrength := 0.2, diffuseColor := ⟨0.95, 0.85, 0.8⟩
      specularColor := ⟨0.95, 0.85, 0.8⟩, shininess := 0.3, tag := "plastic" }
  { s with m_objectMaterials := s.m_objectMaterials ++ [lizardMaterial] }

/-- The loop of `BindGLTextures`; `fuel` bounds the number of times the loop condition is
evaluated.  The event `glActiveTexture i` stands for the call with `GL_TEXTURE0 + i`. -/
def BindGLTextures.loop : Nat → SceneManager → Nat → Except Abort SceneManager
  | 0, _, _ => .error .fuelExhausted
  | fuel + 1, s, i =>
    if i < s.m_loadedTextures then
      match s.readSlot i with
      | .ok slot =>
        BindGLTextures.loop fuel
          (s.emit [.glActiveTexture i, .glBindTexture .GL_TEXTURE_2D slot.ID]) (i + 1)
      | .error e => .error e
    else
      .ok s

/-- The method `SceneManager::BindGLTextures`.  The condition is evaluated at most
`m_loadedTextures + 1` times. -/
def BindGLTextures (s : SceneManager) : Except Abort SceneManager :=
  BindGLTextures.loop (s.m_loadedTextures + 1) s 0

/-- The loop of `DestroyGLTextures`; `fuel` bounds the number of times the loop condition is
evaluated.  The body is the single call `glGenTextures(1, &m_textureIDs[i].ID)`, which hands
back a fresh texture name and stores it in the `ID` of slot `i`; `newTextureIDs i` is the name
handed back by the call for slot `i`.  Taking the address of a slot outside the table is
undefined behaviour. -/
def DestroyGLTextures.loop (newTextureIDs : Nat → Nat) :
    Nat → SceneManager → Nat → Except Abort SceneManager
  | 0, _, _ => .error .fuelExhausted
  | fuel + 1, s, i =>
    if i < s.m_loadedTextures then
      match s.readSlot i with
      | .ok slot =>
        match (s.emit [.glGenTextures (newTextureIDs i)]).writeSlot i (newTextureIDs i)
            slot.tag with
        | .ok s => DestroyGLTextures.loop newTextureIDs fuel s (i + 1)
        | .error e => .error e
      | .error e => .error e
    else
      .ok s

/-- The method `SceneManager::DestroyGLTextures`.  The condition is evaluated at most
`m_loadedTextures + 1` times. -/
def DestroyGLTextures (s : SceneManager) (newTextureIDs : Nat → Nat) :
    Except Abort SceneManager :=
  DestroyGLTextures.loop newTextureIDs (s.m_loadedTextures + 1) s 0

/-! ### Transformations

GLM is an external library.  Its three matrix builders are modelled by the matrices its
documentation and sources give, with exact rational arithmetic; cosine and sine are not rational
functions, so they are taken as parameters. -/

/-- The cosine and sine that `glm::rotate` evaluates. -/
structure Trig where
  cos : ℚ → ℚ
  sin : ℚ → ℚ

/-- Model of `glm::radians`: multiplication by the library's constant for `π / 180`. -/
def glm_radians (degrees : ℚ) : ℚ := degrees * 0.01745329251994329576923690768489

/-- Model of `glm::scale(v)`: the diagonal matrix of `v`. -/
def glm_scale (v : vec3) : Matrix (Fin 4) (Fin 4) ℚ :=
  !![v.x, 0, 0, 0;
     0, v.y, 0, 0;
     0, 0, v.z, 0;
     0, 0, 0, 1]

/-- Model of `glm::translate(v)`: the identity with `v` in the last column. -/
def glm_translate (v : vec3) : Matrix (Fin 4) (Fin 4) ℚ :=
  !![1, 0, 0, v.x;
     0, 1, 0, v.y;
     0, 0, 1, v.z;
     0, 0, 0, 1]

/-- Model of `glm::rotate(angle, axis)` for an axis of length one (the library normalises the
axis first, which leaves the three coordinate axes passed by the source as they are): with
`c = cos angle`, `s = sin angle` and `temp = (1 - c) * axis`, the entries the library assigns,
written here by row and column. -/
def glm_rotate (T : Trig) (angle : ℚ) (axis : vec3) : Matrix (Fin 4) (Fin 4) ℚ :=
  let c := T.cos angle
  let s := T.sin angle
  let temp : vec3 := ⟨(1 - c) * axis.x, (1 - c) * axis.y, (1 - c) * axis.z⟩
  !![c + temp.x * axis.x, temp.y * axis.x - s * axis.z, temp.z * axis.x + s * axis.y, 0;
     temp.x * axis.y + s * axis.z, c + temp.y * axis.y, temp.z * axis.y - s * axis.x, 0;
     temp.x * axis.z - s * axis.y, temp.y * axis.z + s * axis.x, c + temp.z * axis.z, 0;
     0, 0, 0, 1]

/-- The name of the model-matrix uniform. -/
def g_ModelName : String := "model"

/-- The matrix `modelView` that `SetTransformations` composes. -/
def SetTransformations.modelView (T : Trig) (scaleXYZ : vec3)
    (XrotationDegrees YrotationDegrees ZrotationDegrees : ℚ) (positionXYZ : vec3) :
    Matrix (Fin 4) (Fin 4) ℚ :=
  let scale := glm_scale scaleXYZ
  let rotationX := glm_rotate T (glm_radians XrotationDegrees) ⟨1, 0, 0⟩
  let rotationY := glm_rotate T (glm_radians YrotationDegrees) ⟨0, 1, 0⟩
  let rotationZ := glm_rotate T (glm_radians ZrotationDegrees) ⟨0, 0, 1⟩
  let translation := glm_translate positionXYZ
  translation * rotationX * rotationY * rotationZ * scale

/-- The method `SceneManager::SetTransformations`. -/
def SetTransformations (T : Trig) (s : SceneManager) (scaleXYZ : vec3)
    (XrotationDegrees YrotationDegrees ZrotationDegrees : ℚ) (positionXYZ : vec3) :
    SceneManager :=
  let modelView := SetTransformations.modelView T scaleXYZ XrotationDegrees YrotationDegrees
    ZrotationDegrees positionXYZ
  if s.m_pShaderManager then
    s.emit [.setMat4Value g_ModelName modelView]
  else
    s

/-- The method `SceneManager::SetTextureUVScale`. -/
def SetTextureUVScale (s : SceneManager) (u v : ℚ) : SceneManager :=
  if s.m_pShaderManager then
    s.emit [.setVec2Value "UVscale" ⟨u, v⟩]
  else
    s

/-! ## Call sequences -/

/-- One `CreateGLTexture` call together with what the decoder and the graphics API answer. -/
structure LoadCall where
  filename : String
  tag : String
  image : Option StbImage
  newTextureID : Nat
deriving DecidableEq, Repr

/-- A sequence of `CreateGLTexture` calls, the return values kept in call order.  Like
`LoadSceneTextures`, the caller goes on after a call that returns `false`. -/
def runLoads : SceneManager → List LoadCall → Except Abort (List Bool × SceneManager)
  | s, [] => .ok ([], s)
  | s, c :: cs =>
    match s.CreateGLTexture c.filename c.tag c.image c.newTextureID with
    | .ok (bReturn, s) =>
      match runLoads s cs with
      | .ok (rest, s) => .ok (bReturn :: rest, s)
      | .error e => .error e
    | .error e => .error e

/-- The tags of the calls that returned `true`, in call order. -/
def successTags : List LoadCall → List Bool → List String
  | c :: cs, true :: bs => c.tag :: successTags cs bs
  | _ :: cs, false :: bs => successTags cs bs
  | _, _ => []

/-- A call to one of the two setters of the use-texture flag. -/
inductive ShadeCall where
  | SetShaderColor (redColorValue greenColorValue blueColorValue alphaValue : ℚ)
  | SetShaderTexture (textureTag : String)
deriving DecidableEq, Repr

/-- A sequence of `SetShaderColor` and `SetShaderTexture` calls. -/
def runShade : SceneManager → List ShadeCall → Except Abort SceneManager
  | s, [] => .ok s
  | s, .SetShaderColor r g b a :: cs => runShade (s.SetShaderColor r g b a) cs
  | s, .SetShaderTexture textureTag :: cs =>
    match s.SetShaderTexture textureTag with
    | .ok s => runShade s cs
    | .error e => .error e

/-- One step of reading a trace for the integer uniform `name`: a write to it replaces the
value seen so far, any other event keeps it. -/
def noteIntValue (name : String) (seen : Option Int) : Effect → Option Int
  | .setIntValue n v => if n = name then some v else seen
  | _ => seen

/-- The value most recently written to the integer uniform `name`, if any. -/
def lastIntValue (name : String) (trace : List Effect) : Option Int :=
  trace.foldl (noteIntValue name) none

/-- The texture name in slot `i` of the table, and `0` for an index outside the table. -/
def slotID (s : SceneManager) (i : Nat) : Nat :=
  if h : i < 16 then (s.m_textureIDs ⟨i, h⟩).ID else 0

/-- The events of binding the slots `i, i + 1, ..., i + n - 1` to the texture units of the same
numbers, in increasing order. -/
def bindingEvents (s : SceneManager) (i n : Nat) : List Effect :=
  (List.range' i n).flatMap fun j =>
    [.glActiveTexture j, .glBindTexture .GL_TEXTURE_2D (s.slotID j)]

/-! ## The fixed scene -/

/-- The sixteen `CreateGLTexture` calls of `LoadSceneTextures`, in source order.  `image k` is
what `stbi_load` returns in call `k` and `newTextureID k` the name `glGenTextures` hands back
there. -/
def LoadSceneTextures.calls (image : Nat → Option StbImage) (newTextureID : Nat → Nat) :
    List LoadCall :=
  [ { filename := "textures/floor.png", tag := "floor", image := image 0,
      newTextureID := newTextureID 0 },
    { filename := "textures/metal.jpg", tag := "metal", image := image 1,
      newTextureID := newTextureID 1 },
    { filename := "textures/wood.jpg", tag := "wood", image := image 2,
      newTextureID := newTextureID 2 },
    { filename := "textures/wall.jpg", tag := "wall", image := image 3,
      newTextureID := newTextureID 3 },
    { filename := "textures/notepad.png", tag := "notepad", image := image 4,
      newTextureID := newTextureID 4 },
    { filename := "textures/cover.jpg", tag := "cover", image := image 5,
      newTextureID := newTextureID 5 },
    { filename := "textures/cover2.jpg", tag := "cover2", image := image 6,
      newTextureID := newTextureID 6 },
    { filename := "textures/notebookspine.png", tag := "notebookspine", image := image 7,
      newTextureID := newTextureID 7 },
    { filename := "textures/pages.png", tag := "pages", image := image 8,
      newTextureID := newTextureID 8 },
    { filename := "textures/plastic.png", tag := "plastic", image := image 9,
      newTextureID := newTextureID 9 },
    { filename := "textures/pencil.png", tag := "pencil", image := image 10,
      newTextureID := newTextureID 10 },
    { filename := "textures/pencil2.png", tag := "pencil2", image := image 11,
      newTextureID := newTextureID 11 },
    { filename := "textures/penciltop.png", tag := "penciltop", image := image 12,
      newTextureID := newTextureID 12 },
    { filename := "textures/penciltop2.png", tag := "penciltop2", image := image 13,
      newTextureID := newTextureID 13 },
    { filename := "textures/clay.jpg", tag := "clay", image := image 14,
      newTextureID := newTextureID 14 },
    { filename := "textures/claytop.png", tag := "claytop", image := image 15,
      newTextureID := newTextureID 15 } ]

/-- The method `SceneManager::LoadSceneTextures`: the sixteen loads, whose return values the
method stores in `bReturn` and never reads, and then `BindGLTextures`. -/
def LoadSceneTextures (s : SceneManager) (image : Nat → Option StbImage)
    (newTextureID : Nat → Nat) : Except Abort SceneManager :=
  match runLoads s (LoadSceneTextures.calls image newTextureID) with
  | .ok (_, s) => s.BindGLTextures
  | .error e => .error e

/-- One statement of `RenderScene`: a call of one of the five setters or of one of the draw
methods of `m_basicMeshes`. -/
inductive SceneCall where
  | SetTransformations (scaleXYZ : vec3)
      (XrotationDegrees YrotationDegrees ZrotationDegrees : ℚ) (positionXYZ : vec3)
  | SetShaderColor (redColorValue greenColorValue blueColorValue alphaValue : ℚ)
  | SetShaderTexture (textureTag : String)
  | SetTextureUVScale (u v : ℚ)
  | SetShaderMaterial (materialTag : String)
  | DrawBoxMesh
  | DrawPlaneMesh
  | DrawCylinderMesh
  | DrawConeMesh
deriving DecidableEq, Repr

/-- The body of `RenderScene` is straight-line code: its calls, in source order.  Each
assignment `scaleXYZ = glm::vec3(...)` is written into the `SetTransformations` call that
follows it and reads the variable; the locals `XrotationDegrees`, `YrotationDegrees`,
`ZrotationDegrees` and `positionXYZ` are never read.  Every draw is marked with its source
line. -/
def RenderScene.calls : List SceneCall :=
  [
    SceneCall.SetTransformations ⟨9.0, 0.5, 4.91⟩ 0.0 0.0 0.0 ⟨-2.0, 0.0, -0.5⟩,
    SceneCall.SetShaderTexture "wood",
    SceneCall.SetTextureUVScale 3.0 1.5,
    SceneCall.SetShaderMaterial "wood",
    SceneCall.DrawBoxMesh,  -- line 671
    SceneCall.SetTransformations ⟨0.3, 4.0, 0.3⟩ 0.0 0.0 0.0 ⟨-6.3, -2.0, -2.8⟩,
    SceneCall.SetShaderColor 0.4 0.2 0.1 1.0,
    SceneCall.SetShaderMaterial "wood",
    SceneCall.DrawBoxMesh,  -- line 688
    SceneCall.SetTransformations ⟨0.3, 4.0, 0.3⟩ 0.0 0.0 0.0 ⟨2.3, -2.0, -2.8⟩,
    SceneCall.SetShaderColor 0.4 0.2 0.1 1.0,
    SceneCall.SetShaderMaterial "wood",
    SceneCall.DrawBoxMesh,  -- line 700
    SceneCall.SetTransformations ⟨0.3, 4.0, 0.3⟩ 0.0 0.0 0.0 ⟨-6.3, -2.0, 1.8⟩,
    SceneCall.SetShaderColor 0.4 0.2 0.1 1.0,
    SceneCall.SetShaderMaterial "wood",
    SceneCall.DrawBoxMesh,  -- line 712
    SceneCall.SetTransformations ⟨0.3, 4.0, 0.3⟩ 0.0 0.0 0.0 ⟨2.3, -2.0, 1.8⟩,
    SceneCall.SetShaderColor 0.4 0.2 0.1 1.0,
    SceneCall.SetShaderMaterial "wood",
    SceneCall.DrawBoxMesh,  -- line 724
    SceneCall.SetShaderColor 0.6 0.6 0.6 1.0,
    SceneCall.SetTransformations ⟨20.0, 1.0, 10.0⟩ 90.0 0.0 0.0 ⟨0.0, 2.0, -3.0⟩,
    SceneCall.SetShaderTexture "wall",
    SceneCall.SetTextureUVScale 3.0 3.0,
    SceneCall.SetShaderMaterial "wood",
    SceneCall.DrawPlaneMesh,  -- line 746
    SceneCall.SetTransformations ⟨20.0, 1.0, 10.0⟩ 0.0 0.0 0.0 ⟨0.0, -4.0, 4.0⟩,
    SceneCall.SetShaderTexture "floor",
    SceneCall.SetTextureUVScale 3.0 3.0,
    SceneCall.SetShaderMaterial "grape",
    SceneCall.DrawPlaneMesh,  -- line 765
    SceneCall.SetTransformations ⟨3.0, 3.5, 0.05⟩ (-7.0) 180.0 0.0 ⟨-1.9, 1.9, -2.75⟩,
    SceneCall.SetShaderTexture "notepad",
    SceneCall.SetTextureUVScale 1.0 1.0,
    SceneCall.SetShaderMaterial "backdrop",
    SceneCall.DrawBoxMesh,  -- line 782
    SceneCall.SetShaderColor 0.8 0.6 0.5 1.0,
    SceneCall.SetTransformations ⟨0.4, 0.05, 0.3⟩ 0.0 0.0 0.0 ⟨1.3, 1.161, 1.0⟩,
    SceneCall.SetShaderTexture "claytop",
    SceneCall.SetTextureUVScale 1.0 1.0,
    SceneCall.SetShaderMaterial "wood",
    SceneCall.DrawCylinderMesh,  -- line 796
    SceneCall.SetShaderColor 0.8 0.6 0.5 1.0,
    SceneCall.SetTransformations ⟨0.41, 1.21, 0.31⟩ 0.0 0.0 0.0 ⟨1.3, 0.0, 1.0⟩,
    SceneCall.SetShaderTexture "clay",
    SceneCall.SetTextureUVScale 1.0 1.0,
    SceneCall.SetShaderMaterial "wood",
    SceneCall.DrawCylinderMesh,  -- line 808
    SceneCall.SetTransformations ⟨1.0, 0.4, 0.7⟩ 0.0 0.0 0.0 ⟨0.0, 0.25, 0.0⟩,
    SceneCall.SetShaderTexture "plastic",
    SceneCall.SetTextureUVScale 1.0 1.0,
    SceneCall.SetShaderMaterial "wood",
    SceneCall.DrawCylinderMesh,  -- line 820
    SceneCall.SetTransformations ⟨0.1, 4.0, 0.1⟩ 0.0 0.0 0.0 ⟨0.6, 0.35, 0.0⟩,
    SceneCall.SetShaderTexture "metal",
    SceneCall.SetTextureUVScale 1.0 1.0,
    SceneCall.SetShaderMaterial "metal",
    SceneCall.DrawCylinderMesh,  -- line 832
    SceneCall.SetShaderColor 0.95 0.85 0.8 1.0,
    SceneCall.SetTransformations ⟨0.6, 1.0, 0.6⟩ (-45.0) 0.0 (-20.0) ⟨-0.2, 3.65, 0.6⟩,
    SceneCall.SetShaderTexture "plastic",
    SceneCall.SetTextureUVScale 1.0 1.0,
    SceneCall.SetShaderMaterial "wood",
    SceneCall.DrawConeMesh,  -- line 844
    SceneCall.SetShaderColor 0.95 0.85 0.8 1.0,
    SceneCall.SetTransformations ⟨0.16, 0.7, 0.16⟩ 0.0 0.0 90.0 ⟨0.9, 4.25, 0.0⟩,
    SceneCall.SetShaderTexture "plastic",
    SceneCall.SetTextureUVScale 1.0 1.0,
    SceneCall.SetShaderMaterial "wood",
    SceneCall.DrawCylinderMesh,  -- line 856
    SceneCall.SetShaderColor 0.95 0.85 0.8 1.0,
    SceneCall.SetTransformations ⟨0.2, 0.8, 0.2⟩ (-45.0) 0.0 (-20.0) ⟨0.0, 3.95, 0.3⟩,
    SceneCall.SetShaderTexture "plastic",
    SceneCall.SetTextureUVScale 1.0 1.0,
    SceneCall.SetShaderMaterial "wood",
    SceneCall.DrawCylinderMesh,  -- line 867
    SceneCall.SetTransformations ⟨2.0, 0.15, 1.5⟩ 0.0 0.0 0.0 ⟨-4.0, 0.329, -1.5⟩,
    SceneCall.SetShaderTexture "cover2",
    SceneCall.SetTextureUVScale 1.0 1.0,
    SceneCall.SetShaderMaterial "cover",
    SceneCall.DrawBoxMesh,  -- line 886
    SceneCall.SetTransformations ⟨1.98, 0.12, 1.501⟩ 0.0 0.0 0.0 ⟨-3.985, 0.329, -1.5⟩,
    SceneCall.SetShaderTexture "pages",
    SceneCall.SetTextureUVScale 1.0 1.0,
    SceneCall.SetShaderMaterial "wood",
    SceneCall.DrawBoxMesh,  -- line 903
    SceneCall.SetTransformations ⟨2.0, 0.25, 1.5⟩ 0.0 0.0 0.0 ⟨-3.99, 0.53, -1.5⟩,
    SceneCall.SetShaderTexture "cover2",
    SceneCall.SetTextureUVScale 1.0 1.0,
    SceneCall.SetShaderMaterial "cover",
    SceneCall.DrawBoxMesh,  -- line 922
    SceneCall.SetTransformations ⟨1.97, 0.23, 1.501⟩ 0.0 0.0 0.0 ⟨-3.97, 0.53, -1.5⟩,
    SceneCall.SetShaderTexture "pages",
    SceneCall.SetTextureUVScale 1.0 0.5,
    SceneCall.SetShaderMaterial "wood",
    SceneCall.DrawBoxMesh,  -- line 940
    SceneCall.SetShaderColor 0.6 0.2 0.2 1.0,
    SceneCall.SetTransformations ⟨2.0, 0.45, 1.5⟩ 0.0 0.0 0.0 ⟨-4.01, 0.88, -1.5⟩,
    SceneCall.SetShaderTexture "cover2",
    SceneCall.SetTextureUVScale 1.0 1.0,
    SceneCall.SetShaderMaterial "cover",
    SceneCall.DrawBoxMesh,  -- line 958
    SceneCall.SetTransformations ⟨1.955, 0.40, 1.501⟩ 0.0 0.0 0.0 ⟨-3.98, 0.88, -1.5⟩,
    SceneCall.SetShaderTexture "pages",
    SceneCall.SetTextureUVScale 1.0 1.0,
    SceneCall.SetShaderMaterial "wood",
    SceneCall.DrawBoxMesh,  -- line 976
    SceneCall.SetShaderColor 0.8 0.6 0.5 1.0,
    SceneCall.SetTransformations ⟨0.5, 0.05, 0.3⟩ 0.0 0.0 0.0 ⟨-3.8, 1.451, -1.3⟩,
    SceneCall.SetShaderTexture "claytop",
    SceneCall.SetTextureUVScale 1.0 1.0,
    SceneCall.SetShaderMaterial "cover",
    SceneCall.DrawCylinderMesh,  -- line 989
    SceneCall.SetShaderColor 0.8 0.6 0.5 1.0,
    SceneCall.SetTransformations ⟨0.51, 0.6, 0.31⟩ 0.0 0.0 0.0 ⟨-3.8, 0.9, -1.3⟩,
    SceneCall.SetShaderTexture "clay",
    SceneCall.SetTextureUVScale 1.0 1.0,
    SceneCall.SetShaderMaterial "cover",
    SceneCall.DrawCylinderMesh,  -- line 1001
    SceneCall.SetShaderColor 0.8 0.3 0.1 1.0,
    SceneCall.SetTransformations ⟨1.0, 0.04, 1.2⟩ 0.0 0.0 0.0 ⟨-2.1, 0.2751, 1.0⟩,
    SceneCall.SetShaderTexture "cover",
    SceneCall.SetTextureUVScale 1.0 1.0,
    SceneCall.SetShaderMaterial "backdrop",
    SceneCall.DrawBoxMesh,  -- line 1019
    SceneCall.SetShaderColor 0.8 0.3 0.1 1.0,
    SceneCall.SetTransformations ⟨1.0, 0.04, 1.2⟩ 0.0 0.0 0.0 ⟨-2.11, 0.275, 1.0⟩,
    SceneCall.SetShaderTexture "notebookspine",
    SceneCall.SetTextureUVScale 1.0 1.0,
    SceneCall.SetShaderMaterial "backdrop",
    SceneCall.DrawBoxMesh,  -- line 1037
    SceneCall.SetShaderColor 0.8 0.3 0.1 1.0,
    SceneCall.SetTransformations ⟨1.0, 0.039, 1.201⟩ 0.0 0.0 0.0 ⟨-2.099, 0.2751, 1.0⟩,
    SceneCall.SetShaderTexture "pages",
    SceneCall.SetTextureUVScale 1.0 1.0,
    SceneCall.SetShaderMaterial "wood",
    SceneCall.DrawBoxMesh,  -- line 1055
    SceneCall.SetShaderColor 0.3 0.7 0.4 1.0,
    SceneCall.SetTransformations ⟨1.1, 0.07, 1.3⟩ 0.0 0.0 0.0 ⟨-1.8, 0.33, 0.5⟩,
    SceneCall.SetShaderTexture "cover2",
    SceneCall.SetTextureUVScale 1.0 1.0,
    SceneCall.SetShaderMaterial "backdrop",
    SceneCall.DrawBoxMesh,  -- line 1073
    SceneCall.SetShaderColor 0.3 0.7 0.4 1.0,
    SceneCall.SetTransformations ⟨1.08, 0.05, 1.301⟩ 0.0 0.0 0.0 ⟨-1.789, 0.33, 0.5⟩,
    SceneCall.SetShaderTexture "pages",
    SceneCall.SetTextureUVScale 1.0 1.0,
    SceneCall.SetShaderMaterial "wood",
    SceneCall.DrawBoxMesh,  -- line 1091
    SceneCall.SetShaderColor 1.0 0.85 0.6 1.0,
    SceneCall.SetTransformations ⟨0.03, 1.0, 0.03⟩ 0.0 (-15.0) (-15.0) ⟨1.53, 0.9, 1.0⟩,
    SceneCall.SetShaderTexture "pencil",
    SceneCall.SetTextureUVScale 1.0 1.0,
    SceneCall.SetShaderMaterial "cover",
    SceneCall.DrawCylinderMesh,  -- line 1103
    SceneCall.SetTransformations ⟨0.0299, 1.0001, 0.0299⟩ 0.0 (-15.0) (-15.0) ⟨1.53, 0.9, 1.0⟩,
    SceneCall.SetShaderTexture "penciltop",
    SceneCall.SetTextureUVScale 1.0 1.0,
    SceneCall.SetShaderMaterial "cover",
    SceneCall.DrawCylinderMesh,  -- line 1113
    SceneCall.SetShaderColor 1.0 0.85 0.6 1.0,
    SceneCall.SetTransformations ⟨0.0301, 1.0, 0.03⟩ 0.0 (-15.0) (-25.0) ⟨1.4, 0.9, 1.1⟩,
    SceneCall.SetShaderTexture "pencil",
    SceneCall.SetTextureUVScale 1.0 1.0,
    SceneCall.SetShaderMaterial "cover",
    SceneCall.DrawCylinderMesh,  -- line 1126
    SceneCall.SetTransformations ⟨0.0299, 1.002, 0.0299⟩ 0.0 (-15.0) (-25.0) ⟨1.4, 0.9, 1.1⟩,
    SceneCall.SetShaderTexture "penciltop",
    SceneCall.SetTextureUVScale 1.0 1.0,
    SceneCall.SetShaderMaterial "cover",
    SceneCall.DrawCylinderMesh,  -- line 1136
    SceneCall.SetShaderColor 1.0 0.85 0.6 1.0,
    SceneCall.SetTransformations ⟨0.03, 1.0, 0.03⟩ 0.0 (-15.0) (-15.0) ⟨1.3, 0.9, 1.0⟩,
    SceneCall.SetShaderTexture "pencil",
    SceneCall.SetTextureUVScale 1.0 1.0,
    SceneCall.SetShaderMaterial "cover",
    SceneCall.DrawCylinderMesh,  -- line 1148
    SceneCall.SetTransformations ⟨0.0299, 1.001, 0.0299⟩ 0.0 (-15.0) (-15.0) ⟨1.3, 0.9, 1.0⟩,
    SceneCall.SetShaderTexture "penciltop",
    SceneCall.SetTextureUVScale 1.0 1.0,
    SceneCall.SetShaderMaterial "cover",
    SceneCall.DrawCylinderMesh,  -- line 1158
    SceneCall.SetShaderColor 1.0 0.85 0.6 1.0,
    SceneCall.SetTransformations ⟨0.03, 1.0, 0.03⟩ 15.0 0.0 (-15.0) ⟨1.35, 0.9, 1.11⟩,
    SceneCall.SetShaderTexture "pencil2",
    SceneCall.SetTextureUVScale 1.0 1.0,
    SceneCall.SetShaderMaterial "cover",
    SceneCall.DrawCylinderMesh,  -- line 1170
    SceneCall.SetTransformations ⟨0.0299, 1.001, 0.0299⟩ 15.0 0.0 (-15.0) ⟨1.35, 0.9, 1.11⟩,
    SceneCall.SetShaderTexture "penciltop2",
    SceneCall.SetTextureUVScale 1.0 1.0,
    SceneCall.SetShaderMaterial "cover",
    SceneCall.DrawCylinderMesh,  -- line 1180
    SceneCall.SetShaderColor 1.0 0.85 0.6 1.0,
    SceneCall.SetTransformations ⟨0.03, 1.0, 0.03⟩ 10.0 (-15.0) (-5.0) ⟨1.2, 0.9, 1.13⟩,
    SceneCall.SetShaderTexture "pencil2",
    SceneCall.SetTextureUVScale 1.0 1.0,
    SceneCall.SetShaderMaterial "cover",
    SceneCall.DrawCylinderMesh,  -- line 1192
    SceneCall.SetTransformations ⟨0.0299, 1.001, 0.0299⟩ 10.0 (-15.0) (-5.0) ⟨1.2, 0.9, 1.13⟩,
    SceneCall.SetShaderTexture "penciltop2",
    SceneCall.SetTextureUVScale 1.0 1.0,
    SceneCall.SetShaderMaterial "cover",
    SceneCall.DrawCylinderMesh ]  -- line 1202

/-- The execution of one statement of `RenderScene`.  `material` is the indeterminate content
of the local record of `SetShaderMaterial`, should the statement be such a call. -/
def RenderScene.step (T : Trig) (material : OBJECT_MATERIAL) (s : SceneManager) :
    SceneCall → Except Abort SceneManager
  | .SetTransformations scaleXYZ XrotationDegrees YrotationDegrees ZrotationDegrees
      positionXYZ =>
    .ok (s.SetTransformations T scaleXYZ XrotationDegrees YrotationDegrees ZrotationDegrees
      positionXYZ)
  | .SetShaderColor redColorValue greenColorValue blueColorValue alphaValue =>
    .ok (s.SetShaderColor redColorValue greenColorValue blueColorValue alphaValue)
  | .SetShaderTexture textureTag => s.SetShaderTexture textureTag
  | .SetTextureUVScale u v => .ok (s.SetTextureUVScale u v)
  | .SetShaderMaterial materialTag => s.SetShaderMaterial materialTag material
  | .DrawBoxMesh => .ok (s.emit [.DrawBoxMesh])
  | .DrawPlaneMesh => .ok (s.emit [.DrawPlaneMesh])
  | .DrawCylinderMesh => .ok (s.emit [.DrawCylinderMesh])
  | .DrawConeMesh => .ok (s.emit [.DrawConeMesh])

/-- The statements `calls` executed in order, the first of them being statement number `k` of
the body; `material k` is the indeterminate content of the local record at statement `k`. -/
def RenderScene.run (T : Trig) (material : Nat → OBJECT_MATERIAL) :
    Nat → SceneManager → List SceneCall → Except Abort SceneManager
  | _, s, [] => .ok s
  | k, s, c :: cs =>
    match RenderScene.step T (material k) s c with
    | .ok s => RenderScene.run T material (k + 1) s cs
    | .error e => .error e

/-- The method `SceneManager::RenderScene`. -/
def RenderScene (T : Trig) (s : SceneManager) (material : Nat → OBJECT_MATERIAL) :
    Except Abort SceneManager :=
  RenderScene.run T material 0 s RenderScene.calls

/-! ## Reading the scene and its trace -/

/-- The tags `LoadSceneTextures` passes to `CreateGLTexture`, in source order. -/
def LoadSceneTextures.tags : List String :=
  (LoadSceneTextures.calls (fun _ => none) (fun _ => 0)).map fun c => c.tag

/-- The tags `RenderScene` passes to `SetShaderTexture`, in source order. -/
def RenderScene.textureTags : List String :=
  RenderScene.calls.filterMap fun
    | .SetShaderTexture textureTag => some textureTag
    | _ => none

/-- The tags `RenderScene` passes to `SetShaderMaterial`, in source order. -/
def RenderScene.materialTags : List String :=
  RenderScene.calls.filterMap fun
    | .SetShaderMaterial materialTag => some materialTag
    | _ => none

/-- The value `FindTextureSlot` returns for a tag (and `-1` should the lookup not return). -/
def slotOf (s : SceneManager) (textureTag : String) : Int :=
  match s.FindTextureSlot textureTag with
  | .ok textureID => textureID
  | .error _ => -1

/-- The record `FindMaterial` leaves in the caller's `material` (and `material` itself should
the lookup not return). -/
def materialOf (s : SceneManager) (materialTag : String) (material : OBJECT_MATERIAL) :
    OBJECT_MATERIAL :=
  match s.FindMaterial materialTag material with
  | .ok (_, found) => found
  | .error _ => material

/-- The events of one statement of `RenderScene` when a shader manager is present and at least
one material is defined: `slot` gives the sampler value of a texture tag and `found` the
record written for a material tag. -/
def RenderScene.events (T : Trig) (slot : String → Int) (found : String → OBJECT_MATERIAL) :
    SceneCall → List Effect
  | .SetTransformations scaleXYZ XrotationDegrees YrotationDegrees ZrotationDegrees
      positionXYZ =>
    [.setMat4Value g_ModelName (SetTransformations.modelView T scaleXYZ XrotationDegrees
      YrotationDegrees ZrotationDegrees positionXYZ)]
  | .SetShaderColor redColorValue greenColorValue blueColorValue alphaValue =>
    [.setIntValue g_UseTextureName 0,
     .setVec4Value g_ColorValueName
       { r := redColorValue, g := greenColorValue, b := blueColorValue, a := alphaValue }]
  | .SetShaderTexture textureTag =>
    [.setIntValue g_UseTextureName 1, .setSampler2DValue g_TextureValueName (slot textureTag)]
  | .SetTextureUVScale u v => [.setVec2Value "UVscale" ⟨u, v⟩]
  | .SetShaderMaterial materialTag => materialWrites (found materialTag)
  | .DrawBoxMesh => [.DrawBoxMesh]
  | .DrawPlaneMesh => [.DrawPlaneMesh]
  | .DrawCylinderMesh => [.DrawCylinderMesh]
  | .DrawConeMesh => [.DrawConeMesh]

/-- The events of the statements `calls`, in order, the first of them being statement number
`k`. -/
def RenderScene.trace (T : Trig) (slot : String → Int)
    (found : Nat → String → OBJECT_MATERIAL) : Nat → List SceneCall → List Effect
  | _, [] => []
  | k, c :: cs =>
    RenderScene.events T slot (found k) c ++ RenderScene.trace T slot found (k + 1) cs

/-- The event is a mesh draw. -/
def isDraw : Effect → Bool
  | .DrawBoxMesh => true
  | .DrawPlaneMesh => true
  | .DrawCylinderMesh => true
  | .DrawConeMesh => true
  | _ => false

/-- The event is a write of the shader uniform `uniform`. -/
def writes (uniform : String) : Effect → Bool
  | .setIntValue name _ => decide (name = uniform)
  | .setSampler2DValue name _ => decide (name = uniform)
  | .setFloatValue name _ => decide (name = uniform)
  | .setVec2Value name _ => decide (name = uniform)
  | .setVec3Value name _ => decide (name = uniform)
  | .setVec4Value name _ => decide (name = uniform)
  | .setMat4Value name _ => decide (name = uniform)
  | _ => false

/-- A trace cut at its draws: each draw paired with the events between it and the draw before
(or the start), and the events after the last draw. -/
def drawGroups : List Effect → List (List Effect × Effect) × List Effect
  | [] => ([], [])
  | e :: es =>
    if isDraw e then
      (([], e) :: (drawGroups es).1, (drawGroups es).2)
    else
      match (drawGroups es).1 with
      | [] => ([], e :: (drawGroups es).2)
      | (before, draw) :: groups => ((e :: before, draw) :: groups, (drawGroups es).2)

/-- The events before a draw carry the state of one object: no draw, one write of the model
matrix, at least one write of the use-texture flag, and one write of each of the five material
uniforms. -/
def objectStateSet (before : List Effect) : Bool :=
  before.all (fun e => !isDraw e) &&
  decide (before.countP (writes g_ModelName) = 1) &&
  decide (1 ≤ before.countP (writes g_UseTextureName)) &&
  decide (before.countP (writes "material.ambientColor") = 1) &&
  decide (before.countP (writes "material.ambientStrength") = 1) &&
  decide (before.countP (writes "material.diffuseColor") = 1) &&
  decide (before.countP (writes "material.specularColor") = 1) &&
  decide (before.countP (writes "material.shininess") = 1)

/-- A stand-in for cosine and sine that is exact at angle zero: the Taylor polynomials of
degree two and one. -/
def sampleTrig : Trig :=
  { cos := fun a => 1 - a ^ 2 / 2, sin := fun a => a }

/-- The table holds exactly the tags `tags`, in order, in its first `m_loadedTextures`
slots. -/
def Registered (s : SceneManager) (tags : List String) : Prop :=
  s.m_loadedTextures = tags.length ∧ tags.length ≤ 16 ∧
    ∀ i x, tags[i]? = some x → ∃ slot, s.readSlot i = .ok slot ∧ slot.tag = x

/-- A sample load sequence: one file that cannot be decoded, one grayscale image, a tag loaded
twice and a tag that differs from another only in case. -/
def sampleLoads : List LoadCall :=
  [ { filename := "textures/floor.png", tag := "floor", image := some ⟨512, 512, 4⟩,
      newTextureID := 1 },
    { filename := "textures/missing.jpg", tag := "metal", image := none, newTextureID := 0 },
    { filename := "textures/gray.png", tag := "gray", image := some ⟨64, 64, 1⟩,
      newTextureID := 2 },
    { filename := "textures/wood.jpg", tag := "wood", image := some ⟨256, 256, 3⟩,
      newTextureID := 3 },
    { filename := "textures/Floor.png", tag := "Floor", image := some ⟨512, 512, 3⟩,
      newTextureID := 4 },
    { filename := "textures/wood2.jpg", tag := "wood", image := some ⟨128, 128, 3⟩,
      newTextureID := 5 } ]

/-- Seventeen loads of distinct, decodable RGB images: one more than the table has slots. -/
def seventeenLoads : List LoadCall :=
  (List.range 17).map fun i =>
    { filename := "textures/image" ++ toString i ++ ".png", tag := "image" ++ toString i,
      image := some ⟨64, 64, 3⟩, newTextureID := i + 1 }

/-- The scene's materials followed by a second, different definition of `"wood"`. -/
def redefinedWood : SceneManager :=
  let s := DefineObjectMaterials (new true)
  { s with
    m_objectMaterials := s.m_objectMaterials ++
      [{ ambientColor := ⟨0.9, 0.9, 0.9⟩, ambientStrength := 0.7, diffuseColor := ⟨0.8, 0.8, 0.8⟩
         specularColor := ⟨0.6, 0.6, 0.6⟩, shininess := 1.0, tag := "wood" }] }

/-- A record with every scalar zero and an empty tag, standing for the local record of
`SetShaderMaterial` before `FindMaterial` fills it. -/
def blankMaterial : OBJECT_MATERIAL :=
  { ambientColor := ⟨0, 0, 0⟩, ambientStrength := 0, diffuseColor := ⟨0, 0, 0⟩
    specularColor := ⟨0, 0, 0⟩, shininess := 0, tag := "" }

/-- The manager after the sample load sequence. -/
def sampleScene : SceneManager :=
  match runLoads (new true) sampleLoads with
  | .ok (_, s) => s
  | .error _ => new true

/-- The manager after `LoadSceneTextures`, with every file decoded as a 64 by 64 RGB image and
the texture names 1 to 16, and `DefineObjectMaterials`. -/
def preparedScene : SceneManager :=
  match (new true).LoadSceneTextures (fun _ => some ⟨64, 64, 3⟩) (fun k => k + 1) with
  | .ok s => DefineObjectMaterials s
  | .error _ => new true

end SceneManager

/-! ## ViewManager: camera, pointer and keyboard input, projection

A shallow embedding of `Source/ViewManager.cpp`.  The globals of the anonymous namespace and
the members of the class form one record.  The source mixes `double` (the pointer coordinates
GLFW delivers, the orthographic scale) and `float` (the remembered pointer position, the
projection bounds), so every conversion and every rounded operation of the source is written
out through a `FloatModel`.  Values are rationals; infinities, NaN and subnormal numbers are
outside the model. -/

/-- The number of binary digits of `n`, found by halving at most `fuel` times. -/
def bitLength : Nat → Nat → Nat
  | 0, _ => 0
  | fuel + 1, n => if n = 0 then 0 else bitLength fuel (n / 2) + 1

/-- The exponent `e` with `2 ^ e ≤ n / d < 2 ^ (e + 1)`, for positive `n` and `d`. -/
def floorLog2 (n d : Nat) : Int :=
  let e0 : Int := (bitLength n n : Int) - (bitLength d d : Int)
  if d * 2 ^ e0.toNat ≤ n * 2 ^ (-e0).toNat then e0 else e0 - 1

/-- Rounding of a rational to the nearest binary floating-point number with a significand of
`p` bits, ties going to the even significand (the IEEE 754 default), with no bound on the
exponent. -/
def roundNearestEven (p : Nat) (q : ℚ) : ℚ :=
  if q.num = 0 then 0 else
    let n := q.num.natAbs
    let d := q.den
    let shift : Int := floorLog2 n d - ((p : Int) - 1)
    let A := n * 2 ^ (-shift).toNat
    let B := d * 2 ^ shift.toNat
    let f := A / B
    let r := A % B
    let N := if 2 * r < B then f else if B < 2 * r then f + 1 else if f % 2 = 0 then f else f + 1
    mkRat ((if q.num < 0 then -1 else 1) * (N : Int) * 2 ^ shift.toNat) (2 ^ (-shift).toNat)

/-- How results are rounded when they are stored in a `float` and in a `double`. -/
structure FloatModel where
  toFloat : ℚ → ℚ
  toDouble : ℚ → ℚ

/-- Arithmetic without rounding. -/
def FloatModel.exact : FloatModel :=
  { toFloat := fun q => q, toDouble := fun q => q }

/-- IEEE 754 binary32 and binary64 with round-to-nearest-even. -/
def FloatModel.ieee : FloatModel :=
  { toFloat := roundNearestEven 24, toDouble := roundNearestEven 53 }

/-- Modelled from the spec: the `Camera` class is declared in `camera.h`, which is not among
the sources.  The fields are the ones the spec lists for the camera state. -/
structure Camera where
  Position : vec3
  Front : vec3
  Up : vec3
  Zoom : ℚ
  Yaw : ℚ
  Pitch : ℚ
deriving DecidableEq, Repr

/-- The directions `ProcessKeyboardEvents` passes to the camera. -/
inductive Camera_Movement where
  | FORWARD
  | BACKWARD
  | LEFT
  | RIGHT
  | UP
  | DOWN
deriving DecidableEq, Repr

/-- Modelled from the spec: the methods of `Camera` are defined in `camera.h`, which is not
among the sources.  What each does to the camera is a parameter of the embedding. -/
structure CameraMethods where
  ProcessKeyboard : Camera → Camera_Movement → ℚ → Camera
  ProcessMouseMovement : Camera → ℚ → ℚ → Camera
  ProcessMouseScroll : Camera → ℚ → Camera

/-- The answers of `glfwGetKey(m_pWindow, key) == GLFW_PRESS` during one poll. -/
structure KeyState where
  GLFW_KEY_ESCAPE : Bool
  GLFW_KEY_W : Bool
  GLFW_KEY_S : Bool
  GLFW_KEY_A : Bool
  GLFW_KEY_D : Bool
  GLFW_KEY_Q : Bool
  GLFW_KEY_E : Bool
  GLFW_KEY_O : Bool
  GLFW_KEY_P : Bool
deriving DecidableEq, Repr

/-- The matrices `PrepareSceneView` hands to the shader, kept as the library call that builds
them: the camera's `GetViewMatrix()`, `glm::perspective(fovy, aspect, zNear, zFar)` and
`glm::ortho(left, right, bottom, top, zNear, zFar)`. -/
inductive Mat4Expr where
  | GetViewMatrix (camera : Camera)
  | perspective (fovy aspect zNear zFar : ℚ)
  | ortho (left right bottom top zNear zFar : ℚ)
deriving DecidableEq, Repr

/-- One call that leaves `ViewManager.cpp`: to the window system, to the camera or to the
shader manager. -/
inductive ViewEffect where
  | glfwSetWindowShouldClose (value : Bool)
  | ProcessKeyboard (direction : Camera_Movement) (deltaTime : ℚ)
  | ProcessMouseMovement (xOffset yOffset : ℚ)
  | ProcessMouseScroll (yOffset : ℚ)
  | setMat4Value (name : String) (value : Mat4Expr)
  | setVec3Value (name : String) (value : vec3)
deriving DecidableEq, Repr

/-- The globals of `ViewManager.cpp`, the member `m_pShaderManager` (`true` when it is not
NULL) and the trace of the calls made so far.  `g_pCamera` is `none` for a null pointer. -/
structure ViewManager where
  m_pShaderManager : Bool
  g_pCamera : Option Camera
  gLastX : ℚ
  gLastY : ℚ
  gFirstMouse : Bool
  gDeltaTime : ℚ
  gLastFrame : ℚ
  bOrthographicProjection : Bool
  trace : List ViewEffect
deriving DecidableEq, Repr

namespace ViewManager

/-- The constant `WINDOW_WIDTH`. -/
def WINDOW_WIDTH : Int := 1000

/-- The constant `WINDOW_HEIGHT`. -/
def WINDOW_HEIGHT : Int := 800

/-- The globals as initialised at program start and the constructor `ViewManager::ViewManager`
run on them.  `defaultCamera` is what `new Camera()` yields.  The literal `-0.15f` is kept as
the decimal written in the source; no claim settled here reads it. -/
def new (pShaderManager : Bool) (defaultCamera : Camera) : ViewManager :=
  { m_pShaderManager := pShaderManager
    g_pCamera := some
      { defaultCamera with
        Position := ⟨0.0, 2.0, 12.0⟩
        Front := ⟨0.0, -0.15, -4.0⟩
        Up := ⟨0.0, 1.0, 0.0⟩
        Zoom := 50 }
    gLastX := (WINDOW_WIDTH : ℚ) / 2.0
    gLastY := (WINDOW_HEIGHT : ℚ) / 2.0
    gFirstMouse := true
    gDeltaTime := 0.0
    gLastFrame := 0.0
    bOrthographicProjection := false
    trace := [] }

/-- Append the events of one statement to the trace. -/
def emit (s : ViewManager) (es : List ViewEffect) : ViewManager :=
  { s with trace := s.trace ++ es }

/-- A call of a camera method through `g_pCamera`, which the caller has tested or assumes to be
non-null: the camera is replaced by what the method makes of it and the call is recorded. -/
def callCamera (s : ViewManager) (method : Camera → Camera) (event : ViewEffect) :
    Except Abort ViewManager :=
  match s.g_pCamera with
  | some camera => .ok ({ s with g_pCamera := some (method camera) }.emit [event])
  | none => .error .nullDereference

/-- The method `ViewManager::Mouse_Position_Callback`.  The coordinates arrive as `double`;
the two assignments to `gLastX` and `gLastY` convert to `float`, and each offset is a `double`
difference converted to `float`. -/
def Mouse_Position_Callback (F : FloatModel) (cam : CameraMethods) (s : ViewManager)
    (xMousePos yMousePos : ℚ) : Except Abort ViewManager :=
  if s.bOrthographicProjection then
    .ok s
  else
    let s :=
      if s.gFirstMouse then
        { s with
          gLastX := F.toFloat xMousePos
          gLastY := F.toFloat yMousePos
          gFirstMouse := false }
      else s
    let xOffset := F.toFloat (F.toDouble (xMousePos - s.gLastX))
    let yOffset := F.toFloat (F.toDouble (s.gLastY - yMousePos))
    let s := { s with gLastX := F.toFloat xMousePos, gLastY := F.toFloat yMousePos }
    s.callCamera (fun camera => cam.ProcessMouseMovement camera xOffset yOffset)
      (.ProcessMouseMovement xOffset yOffset)

/-- One movement key of `ProcessKeyboardEvents`, reached only with a camera. -/
def ProcessKeyboardEvents.move (cam : CameraMethods) (pressed : Bool)
    (direction : Camera_Movement) (s : ViewManager) : ViewManager :=
  if pressed then
    { s with
      g_pCamera := s.g_pCamera.map fun camera => cam.ProcessKeyboard camera direction s.gDeltaTime
      trace := s.trace ++ [.ProcessKeyboard direction s.gDeltaTime] }
  else s

/-- The `GLFW_KEY_O` block of `ProcessKeyboardEvents`, reached only with a camera. -/
def ProcessKeyboardEvents.orthographic (pressed : Bool) (s : ViewManager) : ViewManager :=
  if pressed then
    { s with
      bOrthographicProjection := true
      g_pCamera := s.g_pCamera.map fun camera =>
        { camera with
          Position := ⟨-2.0, 2.0, 10.0⟩
          Up := ⟨0.0, 1.0, 0.0⟩
          Front := ⟨0.0, 0.0, -2.0⟩
          Zoom := 100.0 } }
  else s

/-- The `GLFW_KEY_P` block of `ProcessKeyboardEvents`, reached only with a camera. -/
def ProcessKeyboardEvents.perspective (pressed : Bool) (s : ViewManager) : ViewManager :=
  if pressed then
    { s with
      bOrthographicProjection := false
      g_pCamera := s.g_pCamera.map fun camera =>
        { camera with
          Position := ⟨-1.5, 3.5, 8.0⟩
          Front := ⟨0.0, -0.5, -2.0⟩
          Up := ⟨0.0, 1.0, 0.0⟩
          Zoom := 80.0 } }
  else s

/-- The method `ViewManager::ProcessKeyboardEvents`. -/
def ProcessKeyboardEvents (cam : CameraMethods) (keys : KeyState) (s : ViewManager) :
    ViewManager :=
  let s := if keys.GLFW_KEY_ESCAPE then s.emit [.glfwSetWindowShouldClose true] else s
  match s.g_pCamera with
  | none => s
  | some _ =>
    let s := ProcessKeyboardEvents.move cam keys.GLFW_KEY_W .FORWARD s
    let s := ProcessKeyboardEvents.move cam keys.GLFW_KEY_S .BACKWARD s
    let s := ProcessKeyboardEvents.move cam keys.GLFW_KEY_A .LEFT s
    let s := ProcessKeyboardEvents.move cam keys.GLFW_KEY_D .RIGHT s
    let s := ProcessKeyboardEvents.move cam keys.GLFW_KEY_Q .UP s
    let s := ProcessKeyboardEvents.move cam keys.GLFW_KEY_E .DOWN s
    let s := ProcessKeyboardEvents.orthographic keys.GLFW_KEY_O s
    ProcessKeyboardEvents.perspective keys.GLFW_KEY_P s

/-- The method `ViewManager::Scroll_Callback`. -/
def Scroll_Callback (F : FloatModel) (cam : CameraMethods) (s : ViewManager)
    (yOffset : ℚ) : Except Abort ViewManager :=
  s.callCamera (fun camera => cam.ProcessMouseScroll camera (F.toFloat yOffset))
    (.ProcessMouseScroll (F.toFloat yOffset))

/-- A sequence of pointer-move events, each a pair of coordinates. -/
def runMoves (F : FloatModel) (cam : CameraMethods) :
    ViewManager → List (ℚ × ℚ) → Except Abort ViewManager
  | s, [] => .ok s
  | s, (x, y) :: moves =>
    match s.Mouse_Position_Callback F cam x y with
    | .ok s => runMoves F cam s moves
    | .error e => .error e

/-- The state `t` differs from `s` at most in the trace and in the camera, and has a camera
exactly when `s` has one. -/
def Untouched (s t : ViewManager) : Prop :=
  t.m_pShaderManager = s.m_pShaderManager ∧ t.gLastX = s.gLastX ∧ t.gLastY = s.gLastY ∧
    t.gFirstMouse = s.gFirstMouse ∧ t.gDeltaTime = s.gDeltaTime ∧
    t.gLastFrame = s.gLastFrame ∧ t.bOrthographicProjection = s.bOrthographicProjection ∧
    t.g_pCamera.isSome = s.g_pCamera.isSome

/-- A poll with no key down. -/
def noKeys : KeyState :=
  { GLFW_KEY_ESCAPE := false, GLFW_KEY_W := false, GLFW_KEY_S := false, GLFW_KEY_A := false
    GLFW_KEY_D := false, GLFW_KEY_Q := false, GLFW_KEY_E := false, GLFW_KEY_O := false
    GLFW_KEY_P := false }

/-- A poll with only the O key down. -/
def onlyO : KeyState := { noKeys with GLFW_KEY_O := true }

/-- A poll with only the P key down. -/
def onlyP : KeyState := { noKeys with GLFW_KEY_P := true }

/-- A camera with every scalar zero, standing for what `new Camera()` yields. -/
def restingCamera : Camera :=
  { Position := ⟨0, 0, 0⟩, Front := ⟨0, 0, 0⟩, Up := ⟨0, 0, 0⟩, Zoom := 0, Yaw := 0, Pitch := 0 }

/-- Camera methods that add the forwarded offsets to yaw and pitch, add the scroll offset to
the zoom, and do not move: a stand-in for the methods of `camera.h`. -/
def sampleMethods : CameraMethods :=
  { ProcessKeyboard := fun camera _ _ => camera
    ProcessMouseMovement := fun camera xOffset yOffset =>
      { camera with Yaw := camera.Yaw + xOffset, Pitch := camera.Pitch + yOffset }
    ProcessMouseScroll := fun camera yOffset => { camera with Zoom := camera.Zoom - yOffset } }

/-- The manager right after construction, with a shader manager. -/
def sampleView : ViewManager := new true restingCamera

end ViewManager

/-! ## Basic facts about the table primitives -/

namespace SceneManager

theorem readSlot_eq_of_lt (s : SceneManager) (i : Nat) (h : i < 16) :
    s.readSlot i = .ok (s.m_textureIDs ⟨i, h⟩) := by
  simp [readSlot, h]

theorem readSlot_congr (s t : SceneManager) (h : t.m_textureIDs = s.m_textureIDs) (i : Nat) :
    t.readSlot i = s.readSlot i := by
  simp [readSlot, h]

/-- The registration step succeeds below capacity and is an out-of-bounds write at or above. -/
theorem register_eq (s : SceneManager) (tag : String) (textureID : Nat) :
    CreateGLTexture.register s tag textureID =
      if h : s.m_loadedTextures < 16 then
        .ok (true,
          { s with
            m_textureIDs := Function.update s.m_textureIDs ⟨s.m_loadedTextures, h⟩
              { tag := tag, ID := textureID }
            m_loadedTextures := s.m_loadedTextures + 1
            trace := s.trace ++ [.glGenerateMipmap .GL_TEXTURE_2D, .stbi_image_free,
              .glBindTexture .GL_TEXTURE_2D 0] })
      else .error (.outOfBounds s.m_loadedTextures) := by
  unfold CreateGLTexture.register writeSlot emit
  by_cases h : s.m_loadedTextures < 16 <;> simp [h]

/-- A call that returns `false` changes nothing but the trace. -/
theorem createGLTexture_false (s s' : SceneManager) (filename tag : String)
    (image : Option StbImage) (newTextureID : Nat)
    (h : s.CreateGLTexture filename tag image newTextureID = .ok (false, s')) :
    (image = none ∨ ∃ img, image = some img ∧ img.colorChannels ≠ 3 ∧ img.colorChannels ≠ 4) ∧
    s'.m_textureIDs = s.m_textureIDs ∧ s'.m_loadedTextures = s.m_loadedTextures ∧
    s'.m_objectMaterials = s.m_objectMaterials ∧ s'.m_pShaderManager = s.m_pShaderManager := by
  unfold CreateGLTexture at h
  cases image with
  | none =>
    simp only [Except.ok.injEq, Prod.mk.injEq, true_and] at h
    subst h
    simp [emit]
  | some img =>
    simp only at h
    by_cases h3 : img.colorChannels = 3
    · rw [if_pos h3, register_eq] at h
      split at h <;> simp at h
    · rw [if_neg h3] at h
      by_cases h4 : img.colorChannels = 4
      · rw [if_pos h4, register_eq] at h
        split at h <;> simp at h
      · rw [if_neg h4] at h
        simp only [Except.ok.injEq, Prod.mk.injEq, true_and] at h
        subst h
        simp [emit, h3, h4]

/-- A call with an undecodable file or an unsupported channel count returns `false`. -/
theorem createGLTexture_unsupported (s : SceneManager) (filename tag : String)
    (image : Option StbImage) (newTextureID : Nat)
    (h : image = none ∨ ∃ img, image = some img ∧ img.colorChannels ≠ 3 ∧ img.colorChannels ≠ 4) :
    ∃ s', s.CreateGLTexture filename tag image newTextureID = .ok (false, s') := by
  unfold CreateGLTexture
  rcases h with h | ⟨img, h, h3, h4⟩
  · subst h
    exact ⟨_, rfl⟩
  · subst h
    simp only [if_neg h3, if_neg h4]
    exact ⟨_, rfl⟩

/-- A call with a 3- or 4-channel image registers the texture in slot `m_loadedTextures` when
that index is inside the table. -/
theorem createGLTexture_supported (s : SceneManager) (filename tag : String) (img : StbImage)
    (newTextureID : Nat) (hc : img.colorChannels = 3 ∨ img.colorChannels = 4)
    (hn : s.m_loadedTextures < 16) :
    ∃ s', s.CreateGLTexture filename tag (some img) newTextureID = .ok (true, s') ∧
      s'.m_textureIDs = Function.update s.m_textureIDs ⟨s.m_loadedTextures, hn⟩
        { tag := tag, ID := newTextureID } ∧
      s'.m_loadedTextures = s.m_loadedTextures + 1 ∧
      s'.m_objectMaterials = s.m_objectMaterials ∧
      s'.m_pShaderManager = s.m_pShaderManager := by
  unfold CreateGLTexture
  rcases hc with hc | hc
  · simp only [if_pos hc, register_eq]
    simp [emit, hn]
  · have h3 : img.colorChannels ≠ 3 := by omega
    simp only [if_neg h3, if_pos hc, register_eq]
    simp [emit, hn]

/-- At or above capacity a decodable, supported image makes the call write outside the table. -/
theorem createGLTexture_overflow (s : SceneManager) (filename tag : String) (img : StbImage)
    (newTextureID : Nat) (hc : img.colorChannels = 3 ∨ img.colorChannels = 4)
    (hn : 16 ≤ s.m_loadedTextures) :
    s.CreateGLTexture filename tag (some img) newTextureID =
      .error (.outOfBounds s.m_loadedTextures) := by
  have hn' : ¬ s.m_loadedTextures < 16 := by omega
  unfold CreateGLTexture
  rcases hc with hc | hc
  · simp only [if_pos hc, register_eq]
    simp [emit, hn']
  · have h3 : img.colorChannels ≠ 3 := by omega
    simp only [if_neg h3, if_pos hc, register_eq]
    simp [emit, hn']

end SceneManager

/-! ## The lookup loop of `FindTextureSlot` -/

namespace SceneManager

theorem findTextureSlot_loop_found_flag (s : SceneManager) (tag : String) (fuel : Nat)
    (textureSlot : Int) (index : Nat) :
    FindTextureSlot.loop s tag (fuel + 1) textureSlot index true = .ok textureSlot := by
  simp [FindTextureSlot.loop]

/-- From any start index at or before the first matching slot, the loop returns that slot. -/
theorem findTextureSlot_loop_hit (s : SceneManager) (tag : String) (k : Nat)
    (hk : k < s.m_loadedTextures) (h16 : s.m_loadedTextures ≤ 16)
    (hhit : ∀ slot, s.readSlot k = .ok slot → slot.tag = tag)
    (hmiss : ∀ j, j < k → ∀ slot, s.readSlot j = .ok slot → slot.tag ≠ tag) :
    ∀ (fuel : Nat) (textureSlot : Int) (index : Nat), index ≤ k →
      s.m_loadedTextures - index < fuel →
      FindTextureSlot.loop s tag fuel textureSlot index false = .ok (k : Int) := by
  intro fuel
  induction fuel with
  | zero => intro _ _ _ h; omega
  | succ fuel ih =>
    intro textureSlot index hik hfuel
    have hlt : index < s.m_loadedTextures := by omega
    have h16i : index < 16 := by omega
    unfold FindTextureSlot.loop
    rw [if_pos ⟨hlt, rfl⟩, readSlot_eq_of_lt s index h16i]
    simp only
    by_cases hik' : index = k
    · subst hik'
      have := hhit _ (readSlot_eq_of_lt s index h16i)
      rw [if_pos this]
      obtain ⟨fuel', rfl⟩ : ∃ f, fuel = f + 1 := ⟨fuel - 1, by omega⟩
      exact findTextureSlot_loop_found_flag s tag fuel' _ _
    · have hne := hmiss index (by omega) _ (readSlot_eq_of_lt s index h16i)
      rw [if_neg hne]
      exact ih textureSlot (index + 1) (by omega) (by omega)

/-- When no loaded slot from the start index on holds the tag, the loop returns the value
`textureSlot` had on entry. -/
theorem findTextureSlot_loop_miss (s : SceneManager) (tag : String)
    (h16 : s.m_loadedTextures ≤ 16)
    (hmiss : ∀ j, j < s.m_loadedTextures → ∀ slot, s.readSlot j = .ok slot → slot.tag ≠ tag) :
    ∀ (fuel : Nat) (textureSlot : Int) (index : Nat), index ≤ s.m_loadedTextures →
      s.m_loadedTextures - index < fuel →
      FindTextureSlot.loop s tag fuel textureSlot index false = .ok textureSlot := by
  intro fuel
  induction fuel with
  | zero => intro _ _ _ h; omega
  | succ fuel ih =>
    intro textureSlot index hik hfuel
    unfold FindTextureSlot.loop
    by_cases hlt : index < s.m_loadedTextures
    · have h16i : index < 16 := by omega
      rw [if_pos ⟨hlt, rfl⟩, readSlot_eq_of_lt s index h16i]
      simp only
      rw [if_neg (hmiss index hlt _ (readSlot_eq_of_lt s index h16i))]
      exact ih textureSlot (index + 1) (by omega) (by omega)
    · rw [if_neg (by simp [hlt])]

/-- The lookup `FindTextureSlot` returns the first loaded slot that holds the tag. -/
theorem findTextureSlot_hit (s : SceneManager) (tag : String) (k : Nat)
    (hk : k < s.m_loadedTextures) (h16 : s.m_loadedTextures ≤ 16)
    (hhit : ∀ slot, s.readSlot k = .ok slot → slot.tag = tag)
    (hmiss : ∀ j, j < k → ∀ slot, s.readSlot j = .ok slot → slot.tag ≠ tag) :
    s.FindTextureSlot tag = .ok (k : Int) :=
  findTextureSlot_loop_hit s tag k hk h16 hhit hmiss _ _ 0 (Nat.zero_le _) (by omega)

/-- The lookup `FindTextureSlot` returns `-1` when no loaded slot holds the tag. -/
theorem findTextureSlot_miss (s : SceneManager) (tag : String)
    (h16 : s.m_loadedTextures ≤ 16)
    (hmiss : ∀ j, j < s.m_loadedTextures → ∀ slot, s.readSlot j = .ok slot → slot.tag ≠ tag) :
    s.FindTextureSlot tag = .ok (-1) :=
  findTextureSlot_loop_miss s tag h16 hmiss _ _ 0 (Nat.zero_le _) (by omega)

/-- Either some loaded slot holds the tag, and then there is a first one, or none does. -/
theorem first_slot_or_none (s : SceneManager) (tag : String) :
    (∃ k, k < s.m_loadedTextures ∧ (∀ slot, s.readSlot k = .ok slot → slot.tag = tag) ∧
      (∃ slot, s.readSlot k = .ok slot) ∧
      ∀ j, j < k → ∀ slot, s.readSlot j = .ok slot → slot.tag ≠ tag) ∨
    (∀ j, j < s.m_loadedTextures → ∀ slot, s.readSlot j = .ok slot → slot.tag ≠ tag) := by
  classical
  by_cases h : ∃ k, k < s.m_loadedTextures ∧ ∃ slot, s.readSlot k = .ok slot ∧ slot.tag = tag
  · left
    refine ⟨Nat.find h, (Nat.find_spec h).1, ?_, ?_, ?_⟩
    · intro slot hs
      obtain ⟨slot', hs', ht⟩ := (Nat.find_spec h).2
      rw [hs] at hs'
      cases hs'
      exact ht
    · obtain ⟨slot', hs', _⟩ := (Nat.find_spec h).2
      exact ⟨slot', hs'⟩
    · intro j hj slot hs ht
      exact Nat.find_min h hj ⟨lt_trans hj (Nat.find_spec h).1, slot, hs, ht⟩
  · right
    intro j hj slot hs ht
    exact h ⟨j, hj, slot, hs, ht⟩

end SceneManager

/-! ## Sequences of loads -/

namespace SceneManager

theorem registered_new (pShaderManager : Bool) : Registered (new pShaderManager) [] := by
  refine ⟨rfl, by simp, ?_⟩
  intro i x h
  simp at h

/-- A failed call keeps the registered tags. -/
theorem registered_of_unchanged (s s' : SceneManager) (tags : List String)
    (h : Registered s tags) (ht : s'.m_textureIDs = s.m_textureIDs)
    (hn : s'.m_loadedTextures = s.m_loadedTextures) : Registered s' tags := by
  refine ⟨hn.trans h.1, h.2.1, ?_⟩
  intro i x hx
  rw [readSlot_congr s s' ht]
  exact h.2.2 i x hx

/-- A successful call appends its tag to the registered tags. -/
theorem registered_of_update (s s' : SceneManager) (tags : List String) (tag : String)
    (textureID : Nat) (h : Registered s tags) (hlt : s.m_loadedTextures < 16)
    (ht : s'.m_textureIDs = Function.update s.m_textureIDs ⟨s.m_loadedTextures, hlt⟩
      { tag := tag, ID := textureID })
    (hn : s'.m_loadedTextures = s.m_loadedTextures + 1) : Registered s' (tags ++ [tag]) := by
  obtain ⟨hlen, _, hslots⟩ := h
  refine ⟨by simp [hn, hlen], by simp; omega, ?_⟩
  intro i x hx
  by_cases hi : i < tags.length
  · rw [List.getElem?_append_left hi] at hx
    obtain ⟨slot, hs, hsx⟩ := hslots i x hx
    have hi16 : i < 16 := by omega
    refine ⟨slot, ?_, hsx⟩
    rw [readSlot_eq_of_lt s i hi16] at hs
    rw [readSlot_eq_of_lt s' i hi16, ht, Function.update_noteq]
    · exact hs
    · intro hEq
      have := congrArg Fin.val hEq
      simp at this
      omega
  · have hi' : i = tags.length := by
      have hlt2 := (List.getElem?_eq_some.mp hx).1
      simp at hlt2
      omega
    subst hi'
    rw [List.getElem?_concat_length] at hx
    cases hx
    have hi16 : tags.length < 16 := by omega
    refine ⟨{ tag := tag, ID := textureID }, ?_, rfl⟩
    rw [readSlot_eq_of_lt s' _ hi16, ht]
    have : (⟨tags.length, hi16⟩ : Fin 16) = ⟨s.m_loadedTextures, hlt⟩ := by
      apply Fin.ext
      simp [hlen]
    rw [this, Function.update_same]

/-- Running a sequence of loads that fits the table never aborts, and the table then holds
the tags of the calls that returned `true`, in call order, after the ones it held before. -/
theorem runLoads_registered (calls : List LoadCall) :
    ∀ (s : SceneManager) (tags : List String), Registered s tags →
      tags.length + calls.length ≤ 16 →
      ∃ results s', runLoads s calls = .ok (results, s') ∧ results.length = calls.length ∧
        Registered s' (tags ++ successTags calls results) ∧
        s'.m_pShaderManager = s.m_pShaderManager ∧
        s'.m_objectMaterials = s.m_objectMaterials := by
  induction calls with
  | nil =>
    intro s tags h _
    exact ⟨[], s, rfl, rfl, by simpa [successTags] using h, rfl, rfl⟩
  | cons c cs ih =>
    intro s tags h hlen
    simp only [List.length_cons] at hlen
    have hlt : s.m_loadedTextures < 16 := by rw [h.1]; omega
    by_cases hsup : ∃ img, c.image = some img ∧ (img.colorChannels = 3 ∨ img.colorChannels = 4)
    · obtain ⟨img, himg, hc⟩ := hsup
      obtain ⟨s1, h1, ht, hn, hm, hp⟩ :=
        createGLTexture_supported s c.filename c.tag img c.newTextureID hc hlt
      have hreg := registered_of_update s s1 tags c.tag c.newTextureID h hlt ht hn
      obtain ⟨results, s2, h2, hl2, hreg2, hp2, hm2⟩ :=
        ih s1 (tags ++ [c.tag]) hreg (by simp; omega)
      refine ⟨true :: results, s2, ?_, by simp [hl2], ?_, hp2.trans hp, hm2.trans hm⟩
      · simp only [runLoads, himg, h1, h2]
      · simpa [successTags] using hreg2
    · have hfail : c.image = none ∨
          ∃ img, c.image = some img ∧ img.colorChannels ≠ 3 ∧ img.colorChannels ≠ 4 := by
        cases hi : c.image with
        | none => exact Or.inl rfl
        | some img =>
          right
          refine ⟨img, rfl, ?_, ?_⟩
          · intro h3; exact hsup ⟨img, hi, Or.inl h3⟩
          · intro h4; exact hsup ⟨img, hi, Or.inr h4⟩
      obtain ⟨s1, h1⟩ := createGLTexture_unsupported s c.filename c.tag c.image c.newTextureID hfail
      obtain ⟨_, ht, hn, hm, hp⟩ :=
        createGLTexture_false s s1 c.filename c.tag c.image c.newTextureID h1
      have hreg := registered_of_unchanged s s1 tags h ht hn
      obtain ⟨results, s2, h2, hl2, hreg2, hp2, hm2⟩ := ih s1 tags hreg (by omega)
      refine ⟨false :: results, s2, ?_, by simp [hl2], ?_, hp2.trans hp, hm2.trans hm⟩
      · simp only [runLoads, h1, h2]
      · simpa [successTags] using hreg2

/-- Running `calls ++ more` is running `calls` and then `more`. -/
theorem runLoads_append (calls more : List LoadCall) :
    ∀ (s s1 s2 : SceneManager) (r1 r2 : List Bool), runLoads s calls = .ok (r1, s1) →
      runLoads s1 more = .ok (r2, s2) → runLoads s (calls ++ more) = .ok (r1 ++ r2, s2) := by
  induction calls with
  | nil =>
    intro s s1 s2 r1 r2 h1 h2
    simp only [runLoads, Except.ok.injEq, Prod.mk.injEq] at h1
    obtain ⟨rfl, rfl⟩ := h1
    simpa using h2
  | cons c cs ih =>
    intro s s1 s2 r1 r2 h1 h2
    simp only [runLoads] at h1
    rw [List.cons_append]
    cases hc : s.CreateGLTexture c.filename c.tag c.image c.newTextureID with
    | error e => simp [hc] at h1
    | ok p =>
      obtain ⟨b, sa⟩ := p
      rw [hc] at h1
      simp only at h1
      cases hr : runLoads sa cs with
      | error e => simp [hr] at h1
      | ok q =>
        obtain ⟨rest, sb⟩ := q
        rw [hr] at h1
        simp only [Except.ok.injEq, Prod.mk.injEq] at h1
        obtain ⟨rfl, rfl⟩ := h1
        simp only [runLoads, hc, ih sa sb s2 rest r2 hr h2, List.cons_append]

/-- The successful tags of a concatenation, split at the first part. -/
theorem successTags_append (calls more : List LoadCall) :
    ∀ (r1 r2 : List Bool), r1.length = calls.length →
      successTags (calls ++ more) (r1 ++ r2) = successTags calls r1 ++ successTags more r2 := by
  induction calls with
  | nil =>
    intro r1 r2 h
    cases r1 with
    | nil => cases more <;> simp [successTags]
    | cons _ _ => simp at h
  | cons c cs ih =>
    intro r1 r2 h
    cases r1 with
    | nil => simp at h
    | cons b bs =>
      simp only [List.length_cons, Nat.add_right_cancel_iff] at h
      cases b <;> simp [successTags, ih bs r2 h]

/-- No more tags are registered than calls were made. -/
theorem successTags_length_le (calls : List LoadCall) :
    ∀ results : List Bool, (successTags calls results).length ≤ calls.length := by
  induction calls with
  | nil => intro results; cases results <;> simp [successTags]
  | cons c cs ih =>
    intro results
    cases results with
    | nil => simp [successTags]
    | cons b bs =>
      have := ih bs
      cases b <;> simp only [successTags, List.length_cons] <;> omega

/-- A member of a list has a first position. -/
theorem first_position_of_mem (tags : List String) (t : String) (h : t ∈ tags) :
    ∃ k : Nat, tags[k]? = some t ∧ ∀ j : Nat, j < k → tags[j]? ≠ some t := by
  classical
  have hex : ∃ n, tags[n]? = some t := List.mem_iff_getElem?.mp h
  refine ⟨Nat.find hex, Nat.find_spec hex, ?_⟩
  intro j hj hj'
  exact Nat.find_min hex hj hj'

/-- With the tags `tags` registered, the lookup of a tag returns its first position. -/
theorem findTextureSlot_of_registered_first (s : SceneManager) (tags : List String)
    (t : String) (k : Nat) (h : Registered s tags) (hk : tags[k]? = some t)
    (hfirst : ∀ j, j < k → tags[j]? ≠ some t) : s.FindTextureSlot t = .ok (k : Int) := by
  obtain ⟨hlen, h16, hslots⟩ := h
  have hklt : k < tags.length := (List.getElem?_eq_some.mp hk).1
  apply findTextureSlot_hit s t k (by omega) (by omega)
  · intro slot hs
    obtain ⟨slot', hs', ht⟩ := hslots k t hk
    rw [hs] at hs'
    cases hs'
    exact ht
  · intro j hj slot hs ht
    have hjlt : j < tags.length := by omega
    obtain ⟨slot', hs', ht'⟩ := hslots j (tags[j]) (List.getElem?_eq_getElem hjlt)
    rw [hs] at hs'
    cases hs'
    apply hfirst j hj
    rw [List.getElem?_eq_getElem hjlt, ← ht', ht]

/-- With the tags `tags` registered, the lookup of any other tag returns `-1`. -/
theorem findTextureSlot_of_registered_absent (s : SceneManager) (tags : List String)
    (t : String) (h : Registered s tags) (hnot : t ∉ tags) : s.FindTextureSlot t = .ok (-1) := by
  obtain ⟨hlen, h16, hslots⟩ := h
  apply findTextureSlot_miss s t (by omega)
  intro j hj slot hs ht
  have hjlt : j < tags.length := by omega
  obtain ⟨slot', hs', ht'⟩ := hslots j (tags[j]) (List.getElem?_eq_getElem hjlt)
  rw [hs] at hs'
  cases hs'
  apply hnot
  rw [← ht, ht']
  exact List.getElem_mem _

end SceneManager

/-! ## Lookup after a sequence of loads -/

namespace SceneManager

/-- C1: after at most 16 `CreateGLTexture` calls on a fresh manager, `FindTextureSlot t`, for a
tag `t` of some call that returned `true`, is the 0-based position of the first such call among
the calls that returned `true` (tags compared by exact string equality), and loading more
textures afterwards, with the same tag or any other, does not change that result. -/
theorem findTextureSlot_first_successful_load (pShaderManager : Bool) (calls : List LoadCall)
    (t : String) (hlen : calls.length ≤ 16) :
    ∃ results s, runLoads (new pShaderManager) calls = .ok (results, s) ∧
      (t ∈ successTags calls results →
        ∃ k : Nat, s.FindTextureSlot t = .ok (k : Int) ∧
          (successTags calls results)[k]? = some t ∧
          (∀ j : Nat, j < k → (successTags calls results)[j]? ≠ some t) ∧
          ∀ more : List LoadCall, (calls ++ more).length ≤ 16 →
            ∃ results2 s2,
              runLoads (new pShaderManager) (calls ++ more) = .ok (results ++ results2, s2) ∧
              s2.FindTextureSlot t = .ok (k : Int)) := by
  obtain ⟨results, s, hrun, hrl, hreg, _, _⟩ :=
    runLoads_registered calls (new pShaderManager) [] (registered_new pShaderManager)
      (by simpa using hlen)
  rw [List.nil_append] at hreg
  refine ⟨results, s, hrun, ?_⟩
  intro hmem
  obtain ⟨k, hk, hfirst⟩ := first_position_of_mem _ t hmem
  refine ⟨k, findTextureSlot_of_registered_first s _ t k hreg hk hfirst, hk, hfirst, ?_⟩
  intro more hmore
  have hklt : k < (successTags calls results).length := (List.getElem?_eq_some.mp hk).1
  obtain ⟨results2, s2, hrun2, hrl2, hreg2, _, _⟩ :=
    runLoads_registered more s (successTags calls results) hreg (by
      have := hreg.1
      have h1 := successTags_length_le calls results
      simp only [List.length_append] at hmore
      omega)
  refine ⟨results2, s2, runLoads_append calls more _ s s2 results results2 hrun hrun2, ?_⟩
  apply findTextureSlot_of_registered_first s2 _ t k hreg2
  · rw [List.getElem?_append_left hklt]
    exact hk
  · intro j hj
    rw [List.getElem?_append_left (by omega)]
    exact hfirst j hj

/-- C1, on the sample sequence: the two failed loads take no slot, `"wood"` resolves to the slot
of its first load, and `"Floor"` is not `"floor"`. -/
theorem findTextureSlot_first_successful_load_witness :
    sampleLoads.length ≤ 16 ∧
    (∃ results s, runLoads (new true) sampleLoads = .ok (results, s) ∧
      ("wood" ∈ successTags sampleLoads results →
        ∃ k : Nat, s.FindTextureSlot "wood" = .ok (k : Int) ∧
          (successTags sampleLoads results)[k]? = some "wood" ∧
          (∀ j : Nat, j < k → (successTags sampleLoads results)[j]? ≠ some "wood") ∧
          ∀ more : List LoadCall, (sampleLoads ++ more).length ≤ 16 →
            ∃ results2 s2,
              runLoads (new true) (sampleLoads ++ more) = .ok (results ++ results2, s2) ∧
              s2.FindTextureSlot "wood" = .ok (k : Int))) ∧
    (∃ s, runLoads (new true) sampleLoads = .ok ([true, false, false, true, true, true], s) ∧
      successTags sampleLoads [true, false, false, true, true, true]
        = ["floor", "wood", "Floor", "wood"] ∧
      s.FindTextureSlot "floor" = .ok 0 ∧ s.FindTextureSlot "wood" = .ok 1 ∧
      s.FindTextureSlot "Floor" = .ok 2) :=
  ⟨by decide, findTextureSlot_first_successful_load true sampleLoads "wood" (by decide),
    ⟨_, rfl, rfl, rfl, rfl, rfl⟩⟩

end SceneManager

namespace SceneManager

/-- C2: after at most 16 `CreateGLTexture` calls on a fresh manager, `FindTextureSlot t` is `-1`
exactly when no call that returned `true` carried the tag `t` (so a tag carried by failed loads
only yields `-1`); on the fresh manager itself every tag yields `-1`, the placeholder tag `"/0"`
of the unused slots included. -/
theorem findTextureSlot_minus_one_iff (pShaderManager : Bool) (calls : List LoadCall)
    (t : String) (hlen : calls.length ≤ 16) :
    (∃ results s, runLoads (new pShaderManager) calls = .ok (results, s) ∧
      ∃ r : Int, s.FindTextureSlot t = .ok r ∧ (r = -1 ↔ t ∉ successTags calls results)) ∧
    (new pShaderManager).FindTextureSlot t = .ok (-1) ∧
    (new pShaderManager).FindTextureSlot "/0" = .ok (-1) := by
  refine ⟨?_, rfl, rfl⟩
  obtain ⟨results, s, hrun, _, hreg, _, _⟩ :=
    runLoads_registered calls (new pShaderManager) [] (registered_new pShaderManager)
      (by simpa using hlen)
  rw [List.nil_append] at hreg
  refine ⟨results, s, hrun, ?_⟩
  by_cases hmem : t ∈ successTags calls results
  · obtain ⟨k, hk, hfirst⟩ := first_position_of_mem _ t hmem
    refine ⟨(k : Int), findTextureSlot_of_registered_first s _ t k hreg hk hfirst, ?_⟩
    constructor
    · intro h; omega
    · intro h; exact absurd hmem h
  · exact ⟨-1, findTextureSlot_of_registered_absent s _ t hreg hmem, by simp [hmem]⟩

/-- C2, on the sample sequence: `"metal"` was requested but its file could not be decoded, so
it is not found, while `"floor"` is found in slot 0. -/
theorem findTextureSlot_minus_one_iff_witness :
    sampleLoads.length ≤ 16 ∧
    ((∃ results s, runLoads (new true) sampleLoads = .ok (results, s) ∧
      ∃ r : Int, s.FindTextureSlot "metal" = .ok r ∧
        (r = -1 ↔ "metal" ∉ successTags sampleLoads results)) ∧
      (new true).FindTextureSlot "metal" = .ok (-1) ∧
      (new true).FindTextureSlot "/0" = .ok (-1)) ∧
    (∃ s, runLoads (new true) sampleLoads = .ok ([true, false, false, true, true, true], s) ∧
      s.FindTextureSlot "metal" = .ok (-1) ∧ s.FindTextureSlot "gray" = .ok (-1) ∧
      s.FindTextureSlot "/0" = .ok (-1) ∧ s.FindTextureSlot "floor" = .ok 0) :=
  ⟨by decide, findTextureSlot_minus_one_iff true sampleLoads "metal" (by decide),
    ⟨_, rfl, rfl, rfl, rfl, rfl⟩⟩

/-- C3: `CreateGLTexture` returns `false` exactly when the decoder returned no image or the
image has a channel count other than 3 and 4, and a call that returns `false` leaves the texture
table and the loaded-texture count as they were. -/
theorem createGLTexture_failure_iff (s : SceneManager) (filename tag : String)
    (image : Option StbImage) (newTextureID : Nat) :
    ((∃ s', s.CreateGLTexture filename tag image newTextureID = .ok (false, s')) ↔
      (image = none ∨
        ∃ img, image = some img ∧ img.colorChannels ≠ 3 ∧ img.colorChannels ≠ 4)) ∧
    (∀ s', s.CreateGLTexture filename tag image newTextureID = .ok (false, s') →
      s'.m_textureIDs = s.m_textureIDs ∧ s'.m_loadedTextures = s.m_loadedTextures) := by
  constructor
  · constructor
    · rintro ⟨s', h⟩
      exact (createGLTexture_false s s' filename tag image newTextureID h).1
    · exact createGLTexture_unsupported s filename tag image newTextureID
  · intro s' h
    obtain ⟨_, ht, hn, _, _⟩ := createGLTexture_false s s' filename tag image newTextureID h
    exact ⟨ht, hn⟩

/-- C3, on a 1-channel and a 2-channel image: each call returns `false` and the count stays
at zero. -/
theorem createGLTexture_failure_iff_witness :
    (∃ s', (new true).CreateGLTexture "textures/gray.png" "gray" (some ⟨64, 64, 1⟩) 1
        = .ok (false, s') ∧
      s'.m_textureIDs = (new true).m_textureIDs ∧ s'.m_loadedTextures = 0) ∧
    (∃ s', (new true).CreateGLTexture "textures/gray2.png" "gray2" (some ⟨64, 64, 2⟩) 1
        = .ok (false, s') ∧
      s'.m_textureIDs = (new true).m_textureIDs ∧ s'.m_loadedTextures = 0) := by
  constructor
  · obtain ⟨s', h⟩ :=
      (createGLTexture_failure_iff (new true) "textures/gray.png" "gray"
        (some ⟨64, 64, 1⟩) 1).1.2 (Or.inr ⟨_, rfl, by decide, by decide⟩)
    exact ⟨s', h, (createGLTexture_failure_iff (new true) "textures/gray.png" "gray"
        (some ⟨64, 64, 1⟩) 1).2 s' h⟩
  · obtain ⟨s', h⟩ :=
      (createGLTexture_failure_iff (new true) "textures/gray2.png" "gray2"
        (some ⟨64, 64, 2⟩) 1).1.2 (Or.inr ⟨_, rfl, by decide, by decide⟩)
    exact ⟨s', h, (createGLTexture_failure_iff (new true) "textures/gray2.png" "gray2"
        (some ⟨64, 64, 2⟩) 1).2 s' h⟩

/-- C4: below capacity, a call whose image has 3 or 4 channels returns `true`, stores the
texture name obtained from `glGenTextures` in this call together with the given tag in slot
`m_loadedTextures`, increments the count, and leaves every lower slot as it was. -/
theorem createGLTexture_registers_next_slot (s : SceneManager) (filename tag : String)
    (img : StbImage) (newTextureID : Nat) (hn : s.m_loadedTextures < 16)
    (hc : img.colorChannels = 3 ∨ img.colorChannels = 4) :
    ∃ s', s.CreateGLTexture filename tag (some img) newTextureID = .ok (true, s') ∧
      (∃ events, s'.trace = s.trace ++ events ∧ .glGenTextures newTextureID ∈ events) ∧
      s'.m_textureIDs ⟨s.m_loadedTextures, hn⟩ = { tag := tag, ID := newTextureID } ∧
      s'.m_loadedTextures = s.m_loadedTextures + 1 ∧
      ∀ i : Fin 16, i.val < s.m_loadedTextures → s'.m_textureIDs i = s.m_textureIDs i := by
  have hlow : ∀ i : Fin 16, i.val < s.m_loadedTextures →
      Function.update s.m_textureIDs ⟨s.m_loadedTextures, hn⟩
        { tag := tag, ID := newTextureID } i = s.m_textureIDs i := by
    intro i hi
    apply Function.update_noteq
    intro hEq
    have := congrArg Fin.val hEq
    simp at this
    omega
  unfold CreateGLTexture
  rcases hc with hc | hc
  · simp only [if_pos hc, register_eq, emit, dif_pos hn]
    refine ⟨_, rfl, ?_, ?_, rfl, hlow⟩
    · simp only [List.append_assoc]
      exact ⟨_, rfl, by simp⟩
    · simp
  · have h3 : img.colorChannels ≠ 3 := by omega
    simp only [if_neg h3, if_pos hc, register_eq, emit, dif_pos hn]
    refine ⟨_, rfl, ?_, ?_, rfl, hlow⟩
    · simp only [List.append_assoc]
      exact ⟨_, rfl, by simp⟩
    · simp

/-- C4, on a scene with three textures loaded: the next texture goes to slot 3 and the count
becomes 4. -/
theorem createGLTexture_registers_next_slot_witness :
    ∃ s, runLoads (new true) (sampleLoads.take 5) = .ok ([true, false, false, true, true], s) ∧
      s.m_loadedTextures = 3 ∧
      ∃ s', s.CreateGLTexture "textures/wall.jpg" "wall" (some ⟨32, 32, 4⟩) 9 = .ok (true, s') ∧
        (∃ events, s'.trace = s.trace ++ events ∧ .glGenTextures 9 ∈ events) ∧
        s'.m_textureIDs ⟨3, by decide⟩ = { tag := "wall", ID := 9 } ∧
        s'.m_loadedTextures = 3 + 1 ∧
        ∀ i : Fin 16, i.val < 3 → s'.m_textureIDs i = s.m_textureIDs i :=
  ⟨_, rfl, rfl,
    createGLTexture_registers_next_slot _ "textures/wall.jpg" "wall" ⟨32, 32, 4⟩ 9
      (by decide) (by decide)⟩

end SceneManager

/-! ## Where the code departs from its contract -/

namespace SceneManager

/-- The successful path releases the decode buffer exactly once. -/
theorem createGLTexture_success_frees_once (s : SceneManager) (filename tag : String)
    (width height : Int) (newTextureID : Nat) (hn : s.m_loadedTextures < 16) :
    ∃ events,
      (s.CreateGLTexture filename tag (some ⟨width, height, 3⟩) newTextureID).map
          (fun r => (r.1, r.2.trace)) = .ok (true, s.trace ++ events) ∧
      events.count .stbi_image_free = 1 := by
  refine ⟨
    [.stbi_set_flip_vertically_on_load true, .stbi_load filename,
     .cout ("Successfully loaded image:" ++ filename ++ ", width:" ++ toString width
       ++ ", height:" ++ toString height ++ ", channels:" ++ toString (3 : Int)),
     .glGenTextures newTextureID, .glBindTexture .GL_TEXTURE_2D newTextureID,
     .glTexParameteri .GL_TEXTURE_2D .GL_TEXTURE_WRAP_S .GL_REPEAT,
     .glTexParameteri .GL_TEXTURE_2D .GL_TEXTURE_WRAP_T .GL_REPEAT,
     .glTexParameteri .GL_TEXTURE_2D .GL_TEXTURE_MIN_FILTER .GL_LINEAR,
     .glTexParameteri .GL_TEXTURE_2D .GL_TEXTURE_MAG_FILTER .GL_LINEAR,
     .glTexImage2D .GL_TEXTURE_2D 0 .GL_RGB8 width height 0 .GL_RGB .GL_UNSIGNED_BYTE,
     .glGenerateMipmap .GL_TEXTURE_2D, .stbi_image_free, .glBindTexture .GL_TEXTURE_2D 0],
    ?_, rfl⟩
  unfold CreateGLTexture
  simp only [if_true, register_eq, emit, dif_pos hn]
  simp [Except.map]

/-- C5 (the code departs from the claim): with a 2-channel image `stbi_load` has returned a
pixel buffer, yet the call returns `false` through the early `return` of the unsupported-format
branch, and none of the events of the call is `stbi_image_free`. -/
theorem createGLTexture_unsupported_never_frees (s : SceneManager) (filename tag : String)
    (width height : Int) (newTextureID : Nat) :
    ∃ events, s.CreateGLTexture filename tag (some ⟨width, height, 2⟩) newTextureID
        = .ok (false, { s with trace := s.trace ++ events }) ∧
      Effect.stbi_load filename ∈ events ∧ events.count .stbi_image_free = 0 := by
  refine ⟨
    [.stbi_set_flip_vertically_on_load true, .stbi_load filename,
     .cout ("Successfully loaded image:" ++ filename ++ ", width:" ++ toString width
       ++ ", height:" ++ toString height ++ ", channels:" ++ toString (2 : Int)),
     .glGenTextures newTextureID, .glBindTexture .GL_TEXTURE_2D newTextureID,
     .glTexParameteri .GL_TEXTURE_2D .GL_TEXTURE_WRAP_S .GL_REPEAT,
     .glTexParameteri .GL_TEXTURE_2D .GL_TEXTURE_WRAP_T .GL_REPEAT,
     .glTexParameteri .GL_TEXTURE_2D .GL_TEXTURE_MIN_FILTER .GL_LINEAR,
     .glTexParameteri .GL_TEXTURE_2D .GL_TEXTURE_MAG_FILTER .GL_LINEAR,
     .cout ("Not implemented to handle image with " ++ toString (2 : Int) ++ " channels")],
    ?_, ?_, rfl⟩
  · simp [CreateGLTexture, emit]
  · simp

/-- C6 (the code departs from the claim): sixteen successful loads fill the table, and the
seventeenth call writes `m_textureIDs[16]`, one past the last slot. -/
theorem seventeenth_load_out_of_bounds :
    (∃ s, runLoads (new true) (seventeenLoads.take 16) = .ok (List.replicate 16 true, s) ∧
      s.m_loadedTextures = 16 ∧
      s.CreateGLTexture "textures/image16.png" "image16" (some ⟨64, 64, 3⟩) 17
        = .error (.outOfBounds 16)) ∧
    runLoads (new true) seventeenLoads = .error (.outOfBounds 16) :=
  ⟨⟨_, rfl, rfl, rfl⟩, rfl⟩

/-- C7 (the code departs from the claim): none of the nine materials of the scene has the tag
`"clay"`, yet `FindMaterial` returns `true` for it and leaves the caller's record as it was, so
`SetShaderMaterial` goes on to write that record's five values. -/
theorem findMaterial_miss_returns_true (material : OBJECT_MATERIAL) :
    (∀ m ∈ (DefineObjectMaterials (new true)).m_objectMaterials, m.tag ≠ "clay") ∧
    (DefineObjectMaterials (new true)).FindMaterial "clay" material = .ok (true, material) ∧
    (DefineObjectMaterials (new true)).SetShaderMaterial "clay" material
      = .ok ((DefineObjectMaterials (new true)).emit (materialWrites material)) := by
  refine ⟨by decide, rfl, rfl⟩

end SceneManager

/-! ## Material lookup -/

namespace SceneManager

theorem findMaterial_loop_found_flag (s : SceneManager) (tag : String) (fuel index : Nat)
    (material : OBJECT_MATERIAL) :
    FindMaterial.loop s tag (fuel + 1) index true material = .ok material := by
  simp [FindMaterial.loop]

/-- From any start index at or before the first entry with the tag, the loop copies the five
fields of that entry into the caller's record. -/
theorem findMaterial_loop_hit (s : SceneManager) (tag : String)
    (pre post : List OBJECT_MATERIAL) (m : OBJECT_MATERIAL)
    (hl : s.m_objectMaterials = pre ++ m :: post) (hm : m.tag = tag)
    (hpre : ∀ x ∈ pre, x.tag ≠ tag) :
    ∀ (fuel index : Nat) (material : OBJECT_MATERIAL), index ≤ pre.length →
      s.m_objectMaterials.length - index < fuel →
      FindMaterial.loop s tag fuel index false material =
        .ok { material with
              ambientColor := m.ambientColor
              ambientStrength := m.ambientStrength
              diffuseColor := m.diffuseColor
              specularColor := m.specularColor
              shininess := m.shininess } := by
  obtain ⟨p, table, n, ms, tr⟩ := s
  simp only at hl
  subst hl
  intro fuel
  induction fuel with
  | zero => intro _ _ _ h; omega
  | succ fuel ih =>
    intro index material hik hfuel
    simp only [List.length_append, List.length_cons] at hfuel
    have hlt : index < (pre ++ m :: post).length := by
      simp only [List.length_append, List.length_cons]; omega
    unfold FindMaterial.loop
    rw [dif_pos ⟨hlt, rfl⟩]
    simp only
    have hq : (pre ++ m :: post)[index]? = some ((pre ++ m :: post).get ⟨index, hlt⟩) := by
      simp [List.getElem?_eq_getElem hlt]
    generalize (pre ++ m :: post).get ⟨index, hlt⟩ = entry at hq ⊢
    by_cases hik' : index = pre.length
    · subst hik'
      rw [List.getElem?_append_right (le_refl _)] at hq
      simp only [Nat.sub_self, List.getElem?_cons_zero, Option.some.injEq] at hq
      subst hq
      rw [if_pos hm]
      obtain ⟨fuel', rfl⟩ : ∃ f, fuel = f + 1 := ⟨fuel - 1, by omega⟩
      exact findMaterial_loop_found_flag _ tag fuel' _ _
    · have hlt' : index < pre.length := by omega
      rw [List.getElem?_append_left hlt'] at hq
      have hmem : entry ∈ pre := List.mem_iff_getElem?.mpr ⟨index, hq⟩
      rw [if_neg (hpre entry hmem)]
      exact ih (index + 1) material (by omega)
        (by simp only [List.length_append, List.length_cons]; omega)

/-- The loop of `FindMaterial` always runs to the end within its budget. -/
theorem findMaterial_loop_total (s : SceneManager) (tag : String) :
    ∀ (fuel index : Nat) (bFound : Bool) (material : OBJECT_MATERIAL),
      s.m_objectMaterials.length - index < fuel →
      ∃ result, FindMaterial.loop s tag fuel index bFound material = .ok result := by
  intro fuel
  induction fuel with
  | zero => intro _ _ _ h; omega
  | succ fuel ih =>
    intro index bFound material hfuel
    unfold FindMaterial.loop
    by_cases hc : index < s.m_objectMaterials.length ∧ bFound = false
    · rw [dif_pos hc]
      simp only
      by_cases htag : (s.m_objectMaterials.get ⟨index, hc.1⟩).tag = tag
      · rw [if_pos htag]
        obtain ⟨fuel', rfl⟩ : ∃ f, fuel = f + 1 := ⟨fuel - 1, by omega⟩
        exact ⟨_, findMaterial_loop_found_flag s tag fuel' index _⟩
      · rw [if_neg htag]
        exact ih (index + 1) bFound material (by omega)
    · rw [dif_neg hc]
      exact ⟨material, rfl⟩

/-- On a non-empty material list `FindMaterial` returns `true` for every tag, held or not;
it returns `false` on the empty list only. -/
theorem findMaterial_true_of_nonempty (s : SceneManager) (tag : String)
    (material : OBJECT_MATERIAL) (h : s.m_objectMaterials ≠ []) :
    ∃ result, s.FindMaterial tag material = .ok (true, result) := by
  have hlen : s.m_objectMaterials.length ≠ 0 := by
    intro h0
    exact h (List.length_eq_zero.mp h0)
  obtain ⟨result, hr⟩ := findMaterial_loop_total s tag
    (s.m_objectMaterials.length + 1) 0 false material (by omega)
  refine ⟨result, ?_⟩
  unfold FindMaterial
  rw [if_neg hlen, hr]

/-- C8: when the material list contains an entry with the tag, `SetShaderMaterial` (shader
manager present) writes exactly the five uniforms `material.ambientColor`,
`material.ambientStrength`, `material.diffuseColor`, `material.specularColor` and
`material.shininess`, in that order, with the values of the earliest entry that has the tag;
entries defined later, with the same tag or not, are not read. -/
theorem setShaderMaterial_first_match (s : SceneManager) (materialTag : String)
    (material : OBJECT_MATERIAL) (pre post : List OBJECT_MATERIAL) (m : OBJECT_MATERIAL)
    (hp : s.m_pShaderManager = true) (hl : s.m_objectMaterials = pre ++ m :: post)
    (hm : m.tag = materialTag) (hpre : ∀ x ∈ pre, x.tag ≠ materialTag) :
    s.SetShaderMaterial materialTag material =
      .ok { s with
            trace := s.trace ++
              [.setVec3Value "material.ambientColor" m.ambientColor,
               .setFloatValue "material.ambientStrength" m.ambientStrength,
               .setVec3Value "material.diffuseColor" m.diffuseColor,
               .setVec3Value "material.specularColor" m.specularColor,
               .setFloatValue "material.shininess" m.shininess] } := by
  have hlen : s.m_objectMaterials.length > 0 := by
    rw [hl]; simp
  have hloop := findMaterial_loop_hit s materialTag pre post m hl hm hpre
    (s.m_objectMaterials.length + 1) 0 material (Nat.zero_le _) (by omega)
  unfold SetShaderMaterial FindMaterial
  rw [if_pos hlen, if_neg (by omega), hloop]
  simp [hp, emit, materialWrites]

end SceneManager

namespace SceneManager

/-- C8, on a list where `"wood"` is defined a second time with other values: the values
written are those of the first definition. -/
theorem setShaderMaterial_first_match_witness :
    redefinedWood.m_pShaderManager = true ∧
    redefinedWood.m_objectMaterials.length = 10 ∧
    (redefinedWood.m_objectMaterials.drop 9).map (fun m => (m.tag, m.shininess))
      = [("wood", 1.0)] ∧
    redefinedWood.SetShaderMaterial "wood" blankMaterial =
      .ok { redefinedWood with
            trace := redefinedWood.trace ++
              [.setVec3Value "material.ambientColor" ⟨0.1, 0.1, 0.1⟩,
               .setFloatValue "material.ambientStrength" 0.2,
               .setVec3Value "material.diffuseColor" ⟨0.3, 0.3, 0.3⟩,
               .setVec3Value "material.specularColor" ⟨0.1, 0.1, 0.1⟩,
               .setFloatValue "material.shininess" 100.0] } :=
  ⟨rfl, rfl, rfl,
    setShaderMaterial_first_match redefinedWood "wood" blankMaterial
      (redefinedWood.m_objectMaterials.take 1) (redefinedWood.m_objectMaterials.drop 2)
      { ambientColor := ⟨0.1, 0.1, 0.1⟩, ambientStrength := 0.2, diffuseColor := ⟨0.3, 0.3, 0.3⟩
        specularColor := ⟨0.1, 0.1, 0.1⟩, shininess := 100.0, tag := "wood" }
      rfl rfl rfl (by decide)⟩

end SceneManager

/-! ## The use-texture flag -/

namespace SceneManager

/-- After a flag write followed by one other shader write, the last value of the flag is the
one just written. -/
theorem lastIntValue_after_write (name : String) (v : Int) (l : List Effect) (e : Effect)
    (he : noteIntValue name (some v) e = some v) :
    lastIntValue name (l ++ [.setIntValue name v, e]) = some v := by
  unfold lastIntValue
  rw [List.foldl_append]
  simp only [List.foldl_cons, List.foldl_nil]
  have h1 : ∀ seen, noteIntValue name seen (.setIntValue name v) = some v := by
    intro seen
    simp [noteIntValue]
  rw [h1, he]

/-- The lookup depends on the table and the count only. -/
theorem findTextureSlot_loop_congr (s t : SceneManager) (tag : String)
    (ht : t.m_textureIDs = s.m_textureIDs) (hn : t.m_loadedTextures = s.m_loadedTextures) :
    ∀ (fuel : Nat) (textureSlot : Int) (index : Nat) (bFound : Bool),
      FindTextureSlot.loop t tag fuel textureSlot index bFound =
        FindTextureSlot.loop s tag fuel textureSlot index bFound := by
  intro fuel
  induction fuel with
  | zero => intro _ _ _; rfl
  | succ fuel ih =>
    intro textureSlot index bFound
    unfold FindTextureSlot.loop
    rw [hn, readSlot_congr s t ht]
    by_cases hc : index < s.m_loadedTextures ∧ bFound = false
    · rw [if_pos hc, if_pos hc]
      cases s.readSlot index with
      | error e => rfl
      | ok slot =>
        simp only
        by_cases htag : slot.tag = tag
        · rw [if_pos htag, if_pos htag, ih]
        · rw [if_neg htag, if_neg htag, ih]
    · rw [if_neg hc, if_neg hc]

theorem findTextureSlot_congr (s t : SceneManager) (tag : String)
    (ht : t.m_textureIDs = s.m_textureIDs) (hn : t.m_loadedTextures = s.m_loadedTextures) :
    t.FindTextureSlot tag = s.FindTextureSlot tag := by
  unfold FindTextureSlot
  rw [hn]
  exact findTextureSlot_loop_congr s t tag ht hn _ _ _ _

/-- With the count inside the table, the lookup returns either `-1`, when no loaded slot holds
the tag, or the index of the first loaded slot that holds it. -/
theorem findTextureSlot_total (s : SceneManager) (tag : String)
    (h16 : s.m_loadedTextures ≤ 16) :
    ∃ r : Int, s.FindTextureSlot tag = .ok r ∧
      ((r = -1 ∧ ∀ i : Fin 16, i.val < s.m_loadedTextures → (s.m_textureIDs i).tag ≠ tag) ∨
        (∃ k : Fin 16, r = (k.val : Int) ∧ k.val < s.m_loadedTextures ∧
          (s.m_textureIDs k).tag = tag ∧
          ∀ i : Fin 16, i.val < k.val → (s.m_textureIDs i).tag ≠ tag)) := by
  rcases first_slot_or_none s tag with ⟨k, hk, hhit, ⟨slot, hslot⟩, hmiss⟩ | hmiss
  · have hk16 : k < 16 := by omega
    refine ⟨(k : Int), findTextureSlot_hit s tag k hk h16 hhit hmiss, Or.inr ⟨⟨k, hk16⟩, rfl, hk, ?_, ?_⟩⟩
    · exact hhit _ (readSlot_eq_of_lt s k hk16)
    · intro i hi
      exact hmiss i.val hi _ (readSlot_eq_of_lt s i.val i.isLt)
  · refine ⟨-1, findTextureSlot_miss s tag h16 hmiss, Or.inl ⟨rfl, ?_⟩⟩
    intro i hi
    exact hmiss i.val hi _ (readSlot_eq_of_lt s i.val i.isLt)

/-- The setter `SetShaderTexture` with a shader manager: the flag write, then the sampler write with
whatever the lookup returned. -/
theorem setShaderTexture_eq (s : SceneManager) (textureTag : String) (r : Int)
    (hp : s.m_pShaderManager = true) (hr : s.FindTextureSlot textureTag = .ok r) :
    s.SetShaderTexture textureTag =
      .ok { s with
            trace := s.trace ++
              [.setIntValue "bUseTexture" 1, .setSampler2DValue "objectTexture" r] } := by
  unfold SetShaderTexture
  rw [if_pos hp]
  simp only
  rw [findTextureSlot_congr s (s.emit [.setIntValue g_UseTextureName 1]) textureTag rfl rfl, hr]
  simp [emit, g_UseTextureName, g_TextureValueName]

/-- C10: with a shader manager and the count inside the table, `SetShaderTexture` writes
`bUseTexture = 1` and then `objectTexture = FindTextureSlot(tag)`.  That value is the index
of the first loaded slot holding the tag, or `-1` when no loaded slot holds it; in particular
the value `0` is written only when slot 0 is loaded and holds the tag, so a tag that is not
found is written as `-1`, not as slot 0. -/
theorem setShaderTexture_writes_resolved_slot (s : SceneManager) (textureTag : String)
    (hp : s.m_pShaderManager = true) (h16 : s.m_loadedTextures ≤ 16) :
    ∃ r : Int, s.FindTextureSlot textureTag = .ok r ∧
      s.SetShaderTexture textureTag =
        .ok { s with
              trace := s.trace ++
                [.setIntValue "bUseTexture" 1, .setSampler2DValue "objectTexture" r] } ∧
      ((r = -1 ∧
          ∀ i : Fin 16, i.val < s.m_loadedTextures → (s.m_textureIDs i).tag ≠ textureTag) ∨
        (∃ k : Fin 16, r = (k.val : Int) ∧ k.val < s.m_loadedTextures ∧
          (s.m_textureIDs k).tag = textureTag ∧
          ∀ i : Fin 16, i.val < k.val → (s.m_textureIDs i).tag ≠ textureTag)) ∧
      (r = 0 → 0 < s.m_loadedTextures ∧ (s.m_textureIDs 0).tag = textureTag) := by
  obtain ⟨r, hr, hchar⟩ := findTextureSlot_total s textureTag h16
  refine ⟨r, hr, setShaderTexture_eq s textureTag r hp hr, hchar, ?_⟩
  intro h0
  rcases hchar with ⟨hneg, _⟩ | ⟨k, hk, hlt, htag, _⟩
  · omega
  · have hk0 : k = 0 := by
      apply Fin.ext
      have : (k.val : Int) = 0 := by omega
      simpa using this
    subst hk0
    exact ⟨hlt, htag⟩

/-- C10, on the sample scene: `"clay"` was never loaded and is written as `-1`, `"floor"` sits
in slot 0 and is written as `0`, `"wood"` is written as the slot of its first load. -/
theorem setShaderTexture_writes_resolved_slot_witness :
    sampleScene.m_pShaderManager = true ∧ sampleScene.m_loadedTextures ≤ 16 ∧
    (∃ r : Int, sampleScene.FindTextureSlot "clay" = .ok r ∧
      sampleScene.SetShaderTexture "clay" =
        .ok { sampleScene with
              trace := sampleScene.trace ++
                [.setIntValue "bUseTexture" 1, .setSampler2DValue "objectTexture" r] } ∧
      ((r = -1 ∧
          ∀ i : Fin 16, i.val < sampleScene.m_loadedTextures →
            (sampleScene.m_textureIDs i).tag ≠ "clay") ∨
        (∃ k : Fin 16, r = (k.val : Int) ∧ k.val < sampleScene.m_loadedTextures ∧
          (sampleScene.m_textureIDs k).tag = "clay" ∧
          ∀ i : Fin 16, i.val < k.val → (sampleScene.m_textureIDs i).tag ≠ "clay")) ∧
      (r = 0 → 0 < sampleScene.m_loadedTextures ∧ (sampleScene.m_textureIDs 0).tag = "clay")) ∧
    sampleScene.FindTextureSlot "clay" = .ok (-1) ∧
    sampleScene.FindTextureSlot "floor" = .ok 0 ∧
    sampleScene.FindTextureSlot "wood" = .ok 1 :=
  ⟨rfl, by decide, setShaderTexture_writes_resolved_slot sampleScene "clay" rfl (by decide),
    rfl, rfl, rfl⟩

end SceneManager

namespace SceneManager

/-- Running `calls ++ more` is running `calls` and then `more`. -/
theorem runShade_append (calls more : List ShadeCall) :
    ∀ (s s1 : SceneManager), runShade s calls = .ok s1 →
      runShade s (calls ++ more) = runShade s1 more := by
  induction calls with
  | nil =>
    intro s s1 h
    simp only [runShade, Except.ok.injEq] at h
    subst h
    rfl
  | cons c cs ih =>
    intro s s1 h
    cases c with
    | SetShaderColor r g b a =>
      simp only [runShade] at h
      simp only [List.cons_append, runShade]
      exact ih _ s1 h
    | SetShaderTexture textureTag =>
      simp only [runShade] at h
      simp only [List.cons_append, runShade]
      cases hs : s.SetShaderTexture textureTag with
      | error e => simp [hs] at h
      | ok s2 =>
        rw [hs] at h
        exact ih s2 s1 h

/-- With a shader manager and the count inside the table, a sequence of setter calls runs to
the end, and changes neither the table nor the count nor the shader manager pointer. -/
theorem runShade_ok (calls : List ShadeCall) :
    ∀ (s : SceneManager), s.m_pShaderManager = true → s.m_loadedTextures ≤ 16 →
      ∃ s', runShade s calls = .ok s' ∧ s'.m_pShaderManager = true ∧
        s'.m_textureIDs = s.m_textureIDs ∧ s'.m_loadedTextures = s.m_loadedTextures := by
  induction calls with
  | nil =>
    intro s hp _
    exact ⟨s, rfl, hp, rfl, rfl⟩
  | cons c cs ih =>
    intro s hp h16
    cases c with
    | SetShaderColor r g b a =>
      have hs : s.SetShaderColor r g b a =
          { s with trace := s.trace ++ [.setIntValue g_UseTextureName 0,
              .setVec4Value g_ColorValueName ⟨r, g, b, a⟩] } := by
        simp [SetShaderColor, hp, emit]
      obtain ⟨s', h', hp', ht', hn'⟩ := ih (s.SetShaderColor r g b a)
        (by rw [hs]; exact hp) (by rw [hs]; exact h16)
      refine ⟨s', by simpa [runShade] using h', hp', ?_, ?_⟩
      · rw [ht', hs]
      · rw [hn', hs]
    | SetShaderTexture textureTag =>
      obtain ⟨r, hr, _⟩ := findTextureSlot_total s textureTag h16
      have hs := setShaderTexture_eq s textureTag r hp hr
      obtain ⟨s', h', hp', ht', hn'⟩ := ih _ (show (
        { s with trace := s.trace ++ [.setIntValue "bUseTexture" 1,
            .setSampler2DValue "objectTexture" r] } : SceneManager).m_pShaderManager = true
          from hp) h16
      exact ⟨s', by simp only [runShade, hs]; exact h', hp', ht', hn'⟩

/-- C9: after any finite sequence of `SetShaderColor` and `SetShaderTexture` calls (shader
manager present, count inside the table), the value last written to `bUseTexture` is `1`
(true) when the last call was `SetShaderTexture` and `0` (false) when it was `SetShaderColor`,
whatever the earlier calls were. -/
theorem useTexture_flag_follows_last_call (s : SceneManager) (calls : List ShadeCall)
    (c : ShadeCall) (hp : s.m_pShaderManager = true) (h16 : s.m_loadedTextures ≤ 16) :
    ∃ s', runShade s (calls ++ [c]) = .ok s' ∧
      lastIntValue g_UseTextureName s'.trace =
        some (match c with
              | .SetShaderTexture _ => 1
              | .SetShaderColor _ _ _ _ => 0) := by
  obtain ⟨s1, h1, hp1, ht1, hn1⟩ := runShade_ok calls s hp h16
  rw [runShade_append calls [c] s s1 h1]
  cases c with
  | SetShaderColor r g b a =>
    refine ⟨s1.SetShaderColor r g b a, rfl, ?_⟩
    have hs : (s1.SetShaderColor r g b a).trace =
        s1.trace ++ [.setIntValue g_UseTextureName 0,
          .setVec4Value g_ColorValueName ⟨r, g, b, a⟩] := by
      simp [SetShaderColor, hp1, emit]
    rw [hs]
    exact lastIntValue_after_write _ 0 _ _ rfl
  | SetShaderTexture textureTag =>
    obtain ⟨r, hr, _⟩ := findTextureSlot_total s1 textureTag (by omega)
    have hs := setShaderTexture_eq s1 textureTag r hp1 hr
    refine ⟨{ s1 with trace := s1.trace ++ [.setIntValue "bUseTexture" 1,
      .setSampler2DValue "objectTexture" r] }, by simp only [runShade, hs], ?_⟩
    exact lastIntValue_after_write "bUseTexture" 1 _ _ rfl

/-- C9, on the sample scene: `SetShaderTexture("wood")` followed by
`SetShaderColor(0.4, 0.2, 0.1, 1.0)` ends with the flag at `0`, and the other order ends with
the flag at `1`. -/
theorem useTexture_flag_follows_last_call_witness :
    sampleScene.m_pShaderManager = true ∧ sampleScene.m_loadedTextures ≤ 16 ∧
    (∃ s', runShade sampleScene ([.SetShaderTexture "wood"] ++ [.SetShaderColor 0.4 0.2 0.1 1.0])
        = .ok s' ∧
      lastIntValue g_UseTextureName s'.trace = some 0) ∧
    (runShade sampleScene [.SetShaderTexture "wood", .SetShaderColor 0.4 0.2 0.1 1.0]).map
        (fun s' => lastIntValue "bUseTexture" s'.trace) = .ok (some 0) ∧
    (runShade sampleScene [.SetShaderColor 0.4 0.2 0.1 1.0, .SetShaderTexture "wood"]).map
        (fun s' => lastIntValue "bUseTexture" s'.trace) = .ok (some 1) :=
  ⟨rfl, by decide,
    useTexture_flag_follows_last_call sampleScene [.SetShaderTexture "wood"]
      (.SetShaderColor 0.4 0.2 0.1 1.0) rfl (by decide),
    rfl, rfl⟩

end SceneManager

/-! ## Binding the loaded textures -/

namespace SceneManager

theorem bindingEvents_zero (s : SceneManager) (i : Nat) : s.bindingEvents i 0 = [] := rfl

theorem bindingEvents_succ (s : SceneManager) (i n : Nat) :
    s.bindingEvents i (n + 1) =
      [.glActiveTexture i, .glBindTexture .GL_TEXTURE_2D (s.slotID i)] ++
        s.bindingEvents (i + 1) n := by
  simp [bindingEvents, List.range'_succ]

theorem bindingEvents_congr (s t : SceneManager) (h : t.m_textureIDs = s.m_textureIDs)
    (i n : Nat) : t.bindingEvents i n = s.bindingEvents i n := by
  simp [bindingEvents, slotID, h]

/-- The binding events come in pairs: entry `2 m` selects unit `i + m`, entry `2 m + 1` binds
the texture of slot `i + m`. -/
theorem bindingEvents_spec (s : SceneManager) (n : Nat) :
    ∀ i, (s.bindingEvents i n).length = 2 * n ∧
      ∀ m, m < n →
        (s.bindingEvents i n)[2 * m]? = some (.glActiveTexture (i + m)) ∧
        (s.bindingEvents i n)[2 * m + 1]? =
          some (.glBindTexture .GL_TEXTURE_2D (s.slotID (i + m))) := by
  induction n with
  | zero =>
    intro i
    exact ⟨rfl, fun m hm => absurd hm (Nat.not_lt_zero m)⟩
  | succ n ih =>
    intro i
    obtain ⟨hlen, hget⟩ := ih (i + 1)
    rw [bindingEvents_succ]
    refine ⟨by simp [hlen]; omega, ?_⟩
    intro m hm
    cases m with
    | zero => simp
    | succ m =>
      obtain ⟨h1, h2⟩ := hget m (by omega)
      have e1 : 2 * (m + 1) = (2 * m) + 2 := by omega
      have e2 : 2 * m + 2 + 1 = (2 * m + 1) + 2 := by omega
      have e3 : i + (m + 1) = i + 1 + m := by omega
      rw [e1, e2, e3]
      simp only [List.cons_append, List.nil_append, List.getElem?_cons_succ]
      exact ⟨h1, h2⟩

/-- From index `i` on, the loop of `BindGLTextures` issues the binding events of the remaining
loaded slots and changes nothing but the trace. -/
theorem bindGLTextures_loop_eq :
    ∀ (fuel : Nat) (s : SceneManager) (i : Nat), s.m_loadedTextures ≤ 16 →
      i ≤ s.m_loadedTextures → s.m_loadedTextures - i < fuel →
      BindGLTextures.loop fuel s i =
        .ok { s with trace := s.trace ++ s.bindingEvents i (s.m_loadedTextures - i) } := by
  intro fuel
  induction fuel with
  | zero => intro _ _ _ _ h; omega
  | succ fuel ih =>
    intro s i h16 hi hfuel
    unfold BindGLTextures.loop
    by_cases hlt : i < s.m_loadedTextures
    · have hi16 : i < 16 := by omega
      rw [if_pos hlt, readSlot_eq_of_lt s i hi16]
      simp only
      rw [ih (s.emit [.glActiveTexture i,
        .glBindTexture .GL_TEXTURE_2D (s.m_textureIDs ⟨i, hi16⟩).ID]) (i + 1) h16 hlt
        (by simp only [emit]; omega)]
      obtain ⟨n, hn⟩ : ∃ n, s.m_loadedTextures - i = n + 1 :=
        ⟨s.m_loadedTextures - i - 1, by omega⟩
      have hn' : s.m_loadedTextures - (i + 1) = n := by omega
      simp only [emit, hn, hn', bindingEvents_succ, List.append_assoc]
      have hcongr := bindingEvents_congr s
        { s with trace := s.trace ++ [.glActiveTexture i,
            .glBindTexture .GL_TEXTURE_2D (s.m_textureIDs ⟨i, hi16⟩).ID] } rfl (i + 1) n
      rw [hcongr]
      simp [slotID, hi16]
    · have h0 : s.m_loadedTextures - i = 0 := by omega
      rw [if_neg hlt, h0, bindingEvents_zero, List.append_nil]

/-- A sequence of loads of decodable images with 3 or 4 channels that fits the table returns
`true` every time and raises the count by the number of calls. -/
theorem runLoads_count (calls : List LoadCall) :
    ∀ (s : SceneManager), s.m_loadedTextures + calls.length ≤ 16 →
      (∀ c ∈ calls, ∃ img, c.image = some img ∧
        (img.colorChannels = 3 ∨ img.colorChannels = 4)) →
      ∃ results s', runLoads s calls = .ok (results, s') ∧
        s'.m_loadedTextures = s.m_loadedTextures + calls.length := by
  induction calls with
  | nil =>
    intro s _ _
    exact ⟨[], s, rfl, rfl⟩
  | cons c cs ih =>
    intro s hlen hall
    simp only [List.length_cons] at hlen
    obtain ⟨img, himg, hc⟩ := hall c (List.mem_cons_self _ _)
    obtain ⟨s1, h1, _, hn, _, _⟩ :=
      createGLTexture_supported s c.filename c.tag img c.newTextureID hc (by omega)
    obtain ⟨results, s2, h2, hn2⟩ := ih s1 (by omega)
      (fun c' hc' => hall c' (List.mem_cons_of_mem _ hc'))
    refine ⟨true :: results, s2, ?_, ?_⟩
    · simp only [runLoads, himg, h1, h2]
    · rw [hn2, hn, List.length_cons]
      omega

/-- C19: with the count inside the table, `BindGLTextures` issues exactly `m_loadedTextures`
bindings, in increasing order of the slot index, the binding of slot `i` selecting texture unit
`i` and then binding the texture name stored in slot `i`, and it leaves the table and the
count as they are.  After `N` successful loads followed by `M` more on a fresh manager
(`N + M ≤ 16`) the number of bindings is `N + M`. -/
theorem bindGLTextures_binds_loaded_slots (s : SceneManager) (h16 : s.m_loadedTextures ≤ 16) :
    (∃ events, s.BindGLTextures = .ok { s with trace := s.trace ++ events } ∧
      events.length = 2 * s.m_loadedTextures ∧
      ∀ i : Fin 16, i.val < s.m_loadedTextures →
        events[2 * i.val]? = some (.glActiveTexture i.val) ∧
        events[2 * i.val + 1]? = some (.glBindTexture .GL_TEXTURE_2D (s.m_textureIDs i).ID)) ∧
    (∀ (pShaderManager : Bool) (first more : List LoadCall),
      (first ++ more).length ≤ 16 →
      (∀ c ∈ first ++ more, ∃ img, c.image = some img ∧
        (img.colorChannels = 3 ∨ img.colorChannels = 4)) →
      ∃ results loaded events,
        runLoads (new pShaderManager) (first ++ more) = .ok (results, loaded) ∧
        loaded.BindGLTextures = .ok { loaded with trace := loaded.trace ++ events } ∧
        events.length = 2 * (first.length + more.length) ∧
        ∀ i, i < first.length + more.length →
          events[2 * i]? = some (.glActiveTexture i)) := by
  constructor
  · refine ⟨s.bindingEvents 0 s.m_loadedTextures, ?_, (bindingEvents_spec s _ 0).1, ?_⟩
    · have := bindGLTextures_loop_eq (s.m_loadedTextures + 1) s 0 h16 (Nat.zero_le _) (by omega)
      simpa [BindGLTextures] using this
    · intro i hi
      obtain ⟨h1, h2⟩ := (bindingEvents_spec s _ 0).2 i.val hi
      simp only [Nat.zero_add] at h1 h2
      refine ⟨h1, ?_⟩
      rw [h2]
      simp [slotID]
  · intro pShaderManager first more hlen hall
    obtain ⟨results, loaded, hrun, hn⟩ := runLoads_count (first ++ more) (new pShaderManager)
      (by simpa [new] using hlen) hall
    have hk : loaded.m_loadedTextures = first.length + more.length := by
      rw [hn]
      simp [new]
    have hk16 : loaded.m_loadedTextures ≤ 16 := by
      rw [hk]
      simpa using hlen
    refine ⟨results, loaded, loaded.bindingEvents 0 loaded.m_loadedTextures, hrun, ?_, ?_, ?_⟩
    · have := bindGLTextures_loop_eq (loaded.m_loadedTextures + 1) loaded 0 hk16
        (Nat.zero_le _) (by omega)
      simpa [BindGLTextures] using this
    · rw [(bindingEvents_spec loaded _ 0).1, hk]
    · intro i hi
      have := ((bindingEvents_spec loaded loaded.m_loadedTextures 0).2 i (by omega)).1
      simpa using this

end SceneManager

namespace SceneManager

/-- C19, on the sample scene: four textures are loaded, so four bindings are issued, slot by
slot. -/
theorem bindGLTextures_binds_loaded_slots_witness :
    sampleScene.m_loadedTextures ≤ 16 ∧
    ((∃ events, sampleScene.BindGLTextures =
          .ok { sampleScene with trace := sampleScene.trace ++ events } ∧
        events.length = 2 * sampleScene.m_loadedTextures ∧
        ∀ i : Fin 16, i.val < sampleScene.m_loadedTextures →
          events[2 * i.val]? = some (.glActiveTexture i.val) ∧
          events[2 * i.val + 1]? =
            some (.glBindTexture .GL_TEXTURE_2D (sampleScene.m_textureIDs i).ID)) ∧
      (∀ (pShaderManager : Bool) (first more : List LoadCall),
        (first ++ more).length ≤ 16 →
        (∀ c ∈ first ++ more, ∃ img, c.image = some img ∧
          (img.colorChannels = 3 ∨ img.colorChannels = 4)) →
        ∃ results loaded events,
          runLoads (new pShaderManager) (first ++ more) = .ok (results, loaded) ∧
          loaded.BindGLTextures = .ok { loaded with trace := loaded.trace ++ events } ∧
          events.length = 2 * (first.length + more.length) ∧
          ∀ i, i < first.length + more.length →
            events[2 * i]? = some (.glActiveTexture i))) ∧
    sampleScene.m_loadedTextures = 4 ∧
    sampleScene.BindGLTextures.map (fun s => s.trace.drop sampleScene.trace.length) =
      .ok [.glActiveTexture 0, .glBindTexture .GL_TEXTURE_2D 1,
           .glActiveTexture 1, .glBindTexture .GL_TEXTURE_2D 3,
           .glActiveTexture 2, .glBindTexture .GL_TEXTURE_2D 4,
           .glActiveTexture 3, .glBindTexture .GL_TEXTURE_2D 5] :=
  ⟨by decide, bindGLTextures_binds_loaded_slots sampleScene (by decide), rfl, rfl⟩

end SceneManager

/-! ## The model matrix -/

namespace SceneManager

theorem glm_radians_zero : glm_radians 0 = 0 := by
  simp [glm_radians]

/-- With `cos 0 = 1` and `sin 0 = 0`, the rotation by the angle zero is the identity. -/
theorem glm_rotate_zero (T : Trig) (axis : vec3) (hcos : T.cos 0 = 1) (hsin : T.sin 0 = 0) :
    glm_rotate T 0 axis = 1 := by
  ext i j
  fin_cases i <;> fin_cases j <;>
    simp [glm_rotate, hcos, hsin, Matrix.vecHead, Matrix.vecTail]

/-- A rotation leaves the origin where it is. -/
theorem glm_rotate_origin (T : Trig) (angle : ℚ) (axis : vec3) :
    (glm_rotate T angle axis).mulVec ![0, 0, 0, 1] = ![0, 0, 0, 1] := by
  ext i
  fin_cases i <;> simp [glm_rotate, Matrix.mulVec, Matrix.dotProduct, Fin.sum_univ_four]

theorem glm_scale_mulVec (v : vec3) (x y z w : ℚ) :
    (glm_scale v).mulVec ![x, y, z, w] = ![v.x * x, v.y * y, v.z * z, w] := by
  ext i
  fin_cases i <;> simp [glm_scale, Matrix.mulVec, Matrix.dotProduct, Fin.sum_univ_four]

theorem glm_translate_mulVec (v : vec3) (x y z w : ℚ) :
    (glm_translate v).mulVec ![x, y, z, w] = ![x + v.x * w, y + v.y * w, z + v.z * w, w] := by
  ext i
  fin_cases i <;> simp [glm_translate, Matrix.mulVec, Matrix.dotProduct, Fin.sum_univ_four]

/-- C20: with a shader manager, `SetTransformations` writes to the uniform `model` the product
`translate(position) * rotateX * rotateY * rotateZ * scale`, the angles given in degrees.
Applied to a vertex this scales first, then rotates about Z, then about Y, then about X, then
translates.  The origin is mapped to the position, and with the three angles zero (where the
cosine is 1 and the sine 0) the point `(x, y, z)` is mapped to
`(sx * x + px, sy * y + py, sz * z + pz)`. -/
theorem setTransformations_model_matrix (T : Trig) (s : SceneManager) (scaleXYZ : vec3)
    (XrotationDegrees YrotationDegrees ZrotationDegrees : ℚ) (positionXYZ : vec3)
    (x y z : ℚ) (hp : s.m_pShaderManager = true) :
    s.SetTransformations T scaleXYZ XrotationDegrees YrotationDegrees ZrotationDegrees
        positionXYZ =
      { s with
        trace := s.trace ++
          [.setMat4Value "model"
            (glm_translate positionXYZ *
              glm_rotate T (glm_radians XrotationDegrees) ⟨1, 0, 0⟩ *
              glm_rotate T (glm_radians YrotationDegrees) ⟨0, 1, 0⟩ *
              glm_rotate T (glm_radians ZrotationDegrees) ⟨0, 0, 1⟩ *
              glm_scale scaleXYZ)] } ∧
    (SetTransformations.modelView T scaleXYZ XrotationDegrees YrotationDegrees
        ZrotationDegrees positionXYZ).mulVec ![x, y, z, 1] =
      (glm_translate positionXYZ).mulVec
        ((glm_rotate T (glm_radians XrotationDegrees) ⟨1, 0, 0⟩).mulVec
          ((glm_rotate T (glm_radians YrotationDegrees) ⟨0, 1, 0⟩).mulVec
            ((glm_rotate T (glm_radians ZrotationDegrees) ⟨0, 0, 1⟩).mulVec
              ((glm_scale scaleXYZ).mulVec ![x, y, z, 1])))) ∧
    (SetTransformations.modelView T scaleXYZ XrotationDegrees YrotationDegrees
        ZrotationDegrees positionXYZ).mulVec ![0, 0, 0, 1] =
      ![positionXYZ.x, positionXYZ.y, positionXYZ.z, 1] ∧
    (T.cos 0 = 1 → T.sin 0 = 0 →
      (SetTransformations.modelView T scaleXYZ 0 0 0 positionXYZ).mulVec ![x, y, z, 1] =
        ![scaleXYZ.x * x + positionXYZ.x, scaleXYZ.y * y + positionXYZ.y,
          scaleXYZ.z * z + positionXYZ.z, 1]) := by
  refine ⟨?_, ?_, ?_, ?_⟩
  · simp [SetTransformations, SetTransformations.modelView, hp, emit, g_ModelName]
  · simp only [SetTransformations.modelView, Matrix.mulVec_mulVec, Matrix.mul_assoc]
  · simp only [SetTransformations.modelView, ← Matrix.mulVec_mulVec]
    rw [glm_scale_mulVec, mul_zero, mul_zero, mul_zero, glm_rotate_origin, glm_rotate_origin,
      glm_rotate_origin, glm_translate_mulVec]
    simp
  · intro hcos hsin
    simp only [SetTransformations.modelView, glm_radians_zero, glm_rotate_zero T _ hcos hsin,
      mul_one, ← Matrix.mulVec_mulVec]
    rw [glm_scale_mulVec, glm_translate_mulVec]
    simp

/-- C20, on a sample object: scale `(2, 3, 4)`, no rotation, position `(1, -1, 5)` sends
`(1, 1, 1)` to `(3, 2, 9)`. -/
theorem setTransformations_model_matrix_witness :
    (new true).m_pShaderManager = true ∧ sampleTrig.cos 0 = 1 ∧ sampleTrig.sin 0 = 0 ∧
    (SetTransformations.modelView sampleTrig ⟨2, 3, 4⟩ 0 0 0 ⟨1, -1, 5⟩).mulVec ![1, 1, 1, 1] =
      ![2 * 1 + 1, 3 * 1 + -1, 4 * 1 + 5, 1] ∧
    (SetTransformations.modelView sampleTrig ⟨2, 3, 4⟩ 30 45 60 ⟨1, -1, 5⟩).mulVec ![0, 0, 0, 1] =
      ![1, -1, 5, 1] :=
  ⟨rfl, by simp [sampleTrig], by simp [sampleTrig],
    (setTransformations_model_matrix sampleTrig (new true) ⟨2, 3, 4⟩ 0 0 0 ⟨1, -1, 5⟩ 1 1 1
      rfl).2.2.2 (by simp [sampleTrig]) (by simp [sampleTrig]),
    (setTransformations_model_matrix sampleTrig (new true) ⟨2, 3, 4⟩ 30 45 60 ⟨1, -1, 5⟩ 1 1 1
      rfl).2.2.1⟩

end SceneManager

/-! ## The rounding model on known values -/

/-- The rounding function reproduces the known single- and double-precision values of `0.1`
and `0.8`, leaves small integers and dyadic fractions alone, rounds the tie `2²⁴ + 1` to the
even significand, and maps zero to zero. -/
theorem roundNearestEven_known_values :
    roundNearestEven 24 (1 / 10) = 13421773 / 134217728 ∧
    roundNearestEven 24 (4 / 5) = 13421773 / 16777216 ∧
    roundNearestEven 53 (4 / 5) = 3602879701896397 / 4503599627370496 ∧
    roundNearestEven 24 1000 = 1000 ∧ roundNearestEven 24 (-3 / 2) = -3 / 2 ∧
    roundNearestEven 24 16777217 = 16777216 ∧ roundNearestEven 24 16777219 = 16777220 ∧
    roundNearestEven 24 0 = 0 ∧ roundNearestEven 53 0 = 0 := by
  refine ⟨?_, ?_, ?_, ?_, ?_, ?_, ?_, ?_, ?_⟩ <;> with_unfolding_all rfl

/-! ## Properties of the rounding model -/

namespace ViewManager

theorem untouched_refl (s : ViewManager) : Untouched s s :=
  ⟨rfl, rfl, rfl, rfl, rfl, rfl, rfl, rfl⟩

theorem untouched_trans (s t u : ViewManager) (h1 : Untouched s t) (h2 : Untouched t u) :
    Untouched s u := by
  obtain ⟨a1, a2, a3, a4, a5, a6, a7, a8⟩ := h1
  obtain ⟨b1, b2, b3, b4, b5, b6, b7, b8⟩ := h2
  exact ⟨b1.trans a1, b2.trans a2, b3.trans a3, b4.trans a4, b5.trans a5, b6.trans a6,
    b7.trans a7, b8.trans a8⟩

/-- A movement key changes the camera and the trace only. -/
theorem move_untouched (cam : CameraMethods) (pressed : Bool) (direction : Camera_Movement)
    (s : ViewManager) : Untouched s (ProcessKeyboardEvents.move cam pressed direction s) := by
  unfold ProcessKeyboardEvents.move
  cases pressed
  · exact untouched_refl s
  · refine ⟨rfl, rfl, rfl, rfl, rfl, rfl, rfl, ?_⟩
    simp

/-- With a camera, a poll is the two toggle blocks applied to a state that the escape key and
the movement keys have left untouched but for the camera and the trace. -/
theorem processKeyboardEvents_some (cam : CameraMethods) (keys : KeyState) (s : ViewManager)
    (c : Camera) (hc : s.g_pCamera = some c) :
    ∃ m, Untouched s m ∧
      s.ProcessKeyboardEvents cam keys =
        ProcessKeyboardEvents.perspective keys.GLFW_KEY_P
          (ProcessKeyboardEvents.orthographic keys.GLFW_KEY_O m) := by
  have h0 : ∃ s0, Untouched s s0 ∧ s0.g_pCamera = some c ∧
      s0 = (if keys.GLFW_KEY_ESCAPE then s.emit [.glfwSetWindowShouldClose true] else s) := by
    cases keys.GLFW_KEY_ESCAPE
    · exact ⟨s, untouched_refl s, hc, rfl⟩
    · exact ⟨s.emit [.glfwSetWindowShouldClose true],
        ⟨rfl, rfl, rfl, rfl, rfl, rfl, rfl, rfl⟩, hc, rfl⟩
  obtain ⟨s0, hu0, hc0, hs0⟩ := h0
  unfold ProcessKeyboardEvents
  simp only [← hs0, hc0]
  refine ⟨_, ?_, rfl⟩
  refine untouched_trans _ _ _ hu0 ?_
  refine untouched_trans _ _ _ ?_ (move_untouched cam _ _ _)
  refine untouched_trans _ _ _ ?_ (move_untouched cam _ _ _)
  refine untouched_trans _ _ _ ?_ (move_untouched cam _ _ _)
  refine untouched_trans _ _ _ ?_ (move_untouched cam _ _ _)
  refine untouched_trans _ _ _ ?_ (move_untouched cam _ _ _)
  exact move_untouched cam _ _ _

/-- Without a camera a poll changes at most the trace. -/
theorem processKeyboardEvents_none (cam : CameraMethods) (keys : KeyState) (s : ViewManager)
    (hc : s.g_pCamera = none) : Untouched s (s.ProcessKeyboardEvents cam keys) := by
  unfold ProcessKeyboardEvents
  cases keys.GLFW_KEY_ESCAPE
  · simp only [hc, Bool.false_eq_true, if_false]
    exact untouched_refl s
  · simp only [emit, hc, if_true]
    exact ⟨rfl, rfl, rfl, rfl, rfl, rfl, rfl, by simp [hc]⟩

/-- With a camera, a poll with O down and P up ends in Orthographic mode with the orthographic
preset, whatever the other keys. -/
theorem poll_orthographic_pose (cam : CameraMethods) (keys : KeyState) (s : ViewManager)
    (c : Camera) (hc : s.g_pCamera = some c) (hO : keys.GLFW_KEY_O = true)
    (hP : keys.GLFW_KEY_P = false) :
    (s.ProcessKeyboardEvents cam keys).bOrthographicProjection = true ∧
    ∃ c', (s.ProcessKeyboardEvents cam keys).g_pCamera = some c' ∧
      c'.Position = ⟨-2, 2, 10⟩ ∧ c'.Front = ⟨0, 0, -2⟩ ∧ c'.Up = ⟨0, 1, 0⟩ ∧
      c'.Zoom = 100 := by
  obtain ⟨m, hu, hm⟩ := processKeyboardEvents_some cam keys s c hc
  have hsome : m.g_pCamera.isSome = true := by
    rw [hu.2.2.2.2.2.2.2, hc]
    rfl
  obtain ⟨c1, hc1⟩ := Option.isSome_iff_exists.mp hsome
  rw [hm, hO, hP]
  norm_num [ProcessKeyboardEvents.perspective, ProcessKeyboardEvents.orthographic, hc1]

/-- With a camera, a poll with P down ends in Perspective mode with the perspective preset,
whatever the other keys, O included. -/
theorem poll_perspective_pose (cam : CameraMethods) (keys : KeyState) (s : ViewManager)
    (c : Camera) (hc : s.g_pCamera = some c) (hP : keys.GLFW_KEY_P = true) :
    (s.ProcessKeyboardEvents cam keys).bOrthographicProjection = false ∧
    ∃ c', (s.ProcessKeyboardEvents cam keys).g_pCamera = some c' ∧
      c'.Position = ⟨-1.5, 3.5, 8⟩ ∧ c'.Front = ⟨0, -0.5, -2⟩ ∧ c'.Up = ⟨0, 1, 0⟩ ∧
      c'.Zoom = 80 := by
  obtain ⟨m, hu, hm⟩ := processKeyboardEvents_some cam keys s c hc
  have hsome : m.g_pCamera.isSome = true := by
    rw [hu.2.2.2.2.2.2.2, hc]
    rfl
  obtain ⟨c1, hc1⟩ := Option.isSome_iff_exists.mp hsome
  rw [hm, hP]
  cases keys.GLFW_KEY_O <;>
    norm_num [ProcessKeyboardEvents.perspective, ProcessKeyboardEvents.orthographic, hc1]

/-- C14: with a camera, whatever the state before and whichever movement keys are down in the
same poll, a poll with O down and P up leaves the mode Orthographic and the camera at
position `(-2, 2, 10)`, front `(0, 0, -2)`, up `(0, 1, 0)`, zoom `100`, and a poll with P down
leaves the mode Perspective and the camera at position `(-1.5, 3.5, 8)`, front
`(0, -0.5, -2)`, up `(0, 1, 0)`, zoom `80`. -/
theorem toggle_overwrites_pose (cam : CameraMethods) (keys : KeyState) (s : ViewManager)
    (c : Camera) (hc : s.g_pCamera = some c) :
    (keys.GLFW_KEY_O = true → keys.GLFW_KEY_P = false →
      (s.ProcessKeyboardEvents cam keys).bOrthographicProjection = true ∧
      ∃ c', (s.ProcessKeyboardEvents cam keys).g_pCamera = some c' ∧
        c'.Position = ⟨-2, 2, 10⟩ ∧ c'.Front = ⟨0, 0, -2⟩ ∧ c'.Up = ⟨0, 1, 0⟩ ∧
        c'.Zoom = 100) ∧
    (keys.GLFW_KEY_P = true →
      (s.ProcessKeyboardEvents cam keys).bOrthographicProjection = false ∧
      ∃ c', (s.ProcessKeyboardEvents cam keys).g_pCamera = some c' ∧
        c'.Position = ⟨-1.5, 3.5, 8⟩ ∧ c'.Front = ⟨0, -0.5, -2⟩ ∧ c'.Up = ⟨0, 1, 0⟩ ∧
        c'.Zoom = 80) := by
  constructor
  · intro hO hP
    exact poll_orthographic_pose cam keys s c hc hO hP
  · intro hP
    exact poll_perspective_pose cam keys s c hc hP

end ViewManager

namespace ViewManager

/-- C14, on the freshly constructed manager: W and O down together give the orthographic
preset, and A, O and P down together give the perspective preset. -/
theorem toggle_overwrites_pose_witness :
    sampleView.g_pCamera =
      some { restingCamera with
             Position := ⟨0.0, 2.0, 12.0⟩, Front := ⟨0.0, -0.15, -4.0⟩, Up := ⟨0.0, 1.0, 0.0⟩
             Zoom := 50 } ∧
    ((sampleView.ProcessKeyboardEvents sampleMethods
        { noKeys with GLFW_KEY_W := true, GLFW_KEY_O := true }).bOrthographicProjection = true ∧
      ∃ c', (sampleView.ProcessKeyboardEvents sampleMethods
          { noKeys with GLFW_KEY_W := true, GLFW_KEY_O := true }).g_pCamera = some c' ∧
        c'.Position = ⟨-2, 2, 10⟩ ∧ c'.Front = ⟨0, 0, -2⟩ ∧ c'.Up = ⟨0, 1, 0⟩ ∧
        c'.Zoom = 100) ∧
    ((sampleView.ProcessKeyboardEvents sampleMethods
        { noKeys with GLFW_KEY_A := true, GLFW_KEY_O := true, GLFW_KEY_P := true }
        ).bOrthographicProjection = false ∧
      ∃ c', (sampleView.ProcessKeyboardEvents sampleMethods
          { noKeys with GLFW_KEY_A := true, GLFW_KEY_O := true, GLFW_KEY_P := true }
          ).g_pCamera = some c' ∧
        c'.Position = ⟨-1.5, 3.5, 8⟩ ∧ c'.Front = ⟨0, -0.5, -2⟩ ∧ c'.Up = ⟨0, 1, 0⟩ ∧
        c'.Zoom = 80) :=
  ⟨rfl,
    (toggle_overwrites_pose sampleMethods { noKeys with GLFW_KEY_W := true, GLFW_KEY_O := true }
      sampleView _ rfl).1 rfl rfl,
    (toggle_overwrites_pose sampleMethods
      { noKeys with GLFW_KEY_A := true, GLFW_KEY_O := true, GLFW_KEY_P := true }
      sampleView _ rfl).2 rfl⟩

/-- C18: two consecutive polls with only the O key down leave the same state, and so the same
projection mode, position, front, up and zoom, as a single such poll; likewise for two
consecutive polls with only the P key down. -/
theorem toggle_idempotent (cam : CameraMethods) (s : ViewManager) :
    (s.ProcessKeyboardEvents cam onlyO).ProcessKeyboardEvents cam onlyO =
      s.ProcessKeyboardEvents cam onlyO ∧
    (s.ProcessKeyboardEvents cam onlyP).ProcessKeyboardEvents cam onlyP =
      s.ProcessKeyboardEvents cam onlyP := by
  cases hc : s.g_pCamera with
  | none =>
    simp [ProcessKeyboardEvents, onlyO, onlyP, noKeys, hc]
  | some c =>
    simp [ProcessKeyboardEvents, ProcessKeyboardEvents.move, ProcessKeyboardEvents.orthographic,
      ProcessKeyboardEvents.perspective, onlyO, onlyP, noKeys, hc]

end ViewManager

/-! ## Pointer events -/

namespace ViewManager

/-- In Orthographic mode the pointer callback returns the state it was given. -/
theorem mouse_orthographic_eq (F : FloatModel) (cam : CameraMethods) (s : ViewManager)
    (x y : ℚ) (h : s.bOrthographicProjection = true) :
    s.Mouse_Position_Callback F cam x y = .ok s := by
  unfold Mouse_Position_Callback
  rw [if_pos h]

/-- C15: while the projection mode is Orthographic, `Mouse_Position_Callback` returns at once:
for every `(x, y)` the whole state is unchanged, so the camera receives no call and `gLastX`,
`gLastY` and the first-mouse flag keep their values. -/
theorem mouse_ignored_in_orthographic (F : FloatModel) (cam : CameraMethods) (s : ViewManager)
    (xMousePos yMousePos : ℚ) (h : s.bOrthographicProjection = true) :
    s.Mouse_Position_Callback F cam xMousePos yMousePos = .ok s := by
  simp [Mouse_Position_Callback, h]

/-- C15, on the manager after a poll with only O down. -/
theorem mouse_ignored_in_orthographic_witness :
    (sampleView.ProcessKeyboardEvents sampleMethods onlyO).bOrthographicProjection = true ∧
    (sampleView.ProcessKeyboardEvents sampleMethods onlyO).Mouse_Position_Callback
        FloatModel.ieee sampleMethods 123.5 77.25 =
      .ok (sampleView.ProcessKeyboardEvents sampleMethods onlyO) :=
  ⟨rfl, mouse_ignored_in_orthographic FloatModel.ieee sampleMethods _ 123.5 77.25 rfl⟩

/-- In Perspective mode with a camera, a pointer event stores the coordinates converted to
`float`, clears the first-mouse flag, and forwards the two offsets: each a `double` difference
against the reference (the just-stored one on the first event) converted to `float`. -/
theorem mouse_perspective_eq (F : FloatModel) (cam : CameraMethods) (s : ViewManager)
    (c : Camera) (xMousePos yMousePos : ℚ) (h : s.bOrthographicProjection = false)
    (hc : s.g_pCamera = some c) :
    s.Mouse_Position_Callback F cam xMousePos yMousePos =
      .ok { s with
            gLastX := F.toFloat xMousePos
            gLastY := F.toFloat yMousePos
            gFirstMouse := false
            g_pCamera := some (cam.ProcessMouseMovement c
              (F.toFloat (F.toDouble
                (xMousePos - if s.gFirstMouse then F.toFloat xMousePos else s.gLastX)))
              (F.toFloat (F.toDouble
                ((if s.gFirstMouse then F.toFloat yMousePos else s.gLastY) - yMousePos))))
            trace := s.trace ++
              [.ProcessMouseMovement
                (F.toFloat (F.toDouble
                  (xMousePos - if s.gFirstMouse then F.toFloat xMousePos else s.gLastX)))
                (F.toFloat (F.toDouble
                  ((if s.gFirstMouse then F.toFloat yMousePos else s.gLastY) - yMousePos)))] } := by
  cases hf : s.gFirstMouse <;>
    simp [Mouse_Position_Callback, callCamera, emit, h, hc, hf]

/-- In Orthographic mode a sequence of pointer events changes nothing. -/
theorem runMoves_orthographic (F : FloatModel) (cam : CameraMethods) (s : ViewManager)
    (h : s.bOrthographicProjection = true) (moves : List (ℚ × ℚ)) :
    runMoves F cam s moves = .ok s := by
  induction moves with
  | nil => rfl
  | cons m ms ih =>
    obtain ⟨x, y⟩ := m
    simp only [runMoves, mouse_orthographic_eq F cam s x y h]
    exact ih

/-- With a camera a sequence of pointer events runs to the end and leaves a camera. -/
theorem runMoves_some (F : FloatModel) (cam : CameraMethods) (moves : List (ℚ × ℚ)) :
    ∀ (s : ViewManager) (c : Camera), s.g_pCamera = some c →
      ∃ s' c', runMoves F cam s moves = .ok s' ∧ s'.g_pCamera = some c' := by
  induction moves with
  | nil =>
    intro s c hc
    exact ⟨s, c, rfl, hc⟩
  | cons m ms ih =>
    intro s c hc
    obtain ⟨x, y⟩ := m
    cases h : s.bOrthographicProjection with
    | true =>
      simp only [runMoves, mouse_orthographic_eq F cam s x y h]
      exact ih s c hc
    | false =>
      simp only [runMoves, mouse_perspective_eq F cam s c x y h hc]
      exact ih _ _ rfl

end ViewManager

namespace ViewManager

/-- A poll of a manager with a camera leaves a camera. -/
theorem processKeyboardEvents_camera (cam : CameraMethods) (keys : KeyState) (s : ViewManager)
    (c : Camera) (hc : s.g_pCamera = some c) :
    ∃ c', (s.ProcessKeyboardEvents cam keys).g_pCamera = some c' := by
  obtain ⟨m, hu, hm⟩ := processKeyboardEvents_some cam keys s c hc
  have hsome : m.g_pCamera.isSome = true := by
    rw [hu.2.2.2.2.2.2.2, hc]
    rfl
  obtain ⟨c1, hc1⟩ := Option.isSome_iff_exists.mp hsome
  rw [hm]
  cases keys.GLFW_KEY_O <;> cases keys.GLFW_KEY_P <;>
    simp [ProcessKeyboardEvents.perspective, ProcessKeyboardEvents.orthographic, hc1]

/-- C13: from any state with a camera, a poll with O down, then any finite sequence of
pointer-move events, then a poll with P down ends in Perspective mode with the camera at
position `(-1.5, 3.5, 8.0)` and zoom `80.0`; and when the first poll left the mode
Orthographic, the pointer-move events changed nothing at all, neither the camera nor the
stored pointer position. -/
theorem ortho_then_perspective_restores_preset (F : FloatModel) (cam : CameraMethods)
    (s : ViewManager) (c : Camera) (first : KeyState) (moves : List (ℚ × ℚ))
    (last : KeyState) (hc : s.g_pCamera = some c) (hO : first.GLFW_KEY_O = true)
    (hP : last.GLFW_KEY_P = true) :
    ∃ s2, runMoves F cam (s.ProcessKeyboardEvents cam first) moves = .ok s2 ∧
      (s2.ProcessKeyboardEvents cam last).bOrthographicProjection = false ∧
      (∃ c3, (s2.ProcessKeyboardEvents cam last).g_pCamera = some c3 ∧
        c3.Position = ⟨-1.5, 3.5, 8.0⟩ ∧ c3.Zoom = 80.0) ∧
      (first.GLFW_KEY_P = false →
        (s.ProcessKeyboardEvents cam first).bOrthographicProjection = true ∧
        s2 = s.ProcessKeyboardEvents cam first) := by
  obtain ⟨c1, hc1⟩ := processKeyboardEvents_camera cam first s c hc
  obtain ⟨s2, c2, hrun, hc2⟩ := runMoves_some F cam moves _ c1 hc1
  obtain ⟨hmode, c3, hc3, hpos, _, _, hzoom⟩ := poll_perspective_pose cam last s2 c2 hc2 hP
  refine ⟨s2, hrun, hmode, ⟨c3, hc3, ?_, ?_⟩, ?_⟩
  · rw [hpos]; norm_num
  · rw [hzoom]; norm_num
  · intro hP1
    have hortho := (poll_orthographic_pose cam first s c hc hO hP1).1
    refine ⟨hortho, ?_⟩
    rw [runMoves_orthographic F cam _ hortho moves] at hrun
    exact (Except.ok.inj hrun).symm

/-- C13, on the freshly constructed manager, with three pointer events between the polls. -/
theorem ortho_then_perspective_restores_preset_witness :
    (∃ c, sampleView.g_pCamera = some c) ∧ onlyO.GLFW_KEY_O = true ∧
    onlyP.GLFW_KEY_P = true ∧
    (∃ s2, runMoves FloatModel.ieee sampleMethods
        (sampleView.ProcessKeyboardEvents sampleMethods onlyO)
        [(510, 390), (640.5, 200.25), (10, 700)] = .ok s2 ∧
      (s2.ProcessKeyboardEvents sampleMethods onlyP).bOrthographicProjection = false ∧
      (∃ c3, (s2.ProcessKeyboardEvents sampleMethods onlyP).g_pCamera = some c3 ∧
        c3.Position = ⟨-1.5, 3.5, 8.0⟩ ∧ c3.Zoom = 80.0) ∧
      (onlyO.GLFW_KEY_P = false →
        (sampleView.ProcessKeyboardEvents sampleMethods onlyO).bOrthographicProjection = true ∧
        s2 = sampleView.ProcessKeyboardEvents sampleMethods onlyO)) :=
  ⟨⟨_, rfl⟩, rfl, rfl,
    ortho_then_perspective_restores_preset FloatModel.ieee sampleMethods sampleView _ onlyO
      [(510, 390), (640.5, 200.25), (10, 700)] onlyP rfl rfl rfl⟩

end ViewManager

/-! ## Pointer deltas and rounding -/

namespace ViewManager

/-- C16 as stated fails: on the freshly constructed manager (Perspective mode, first-mouse
flag set) the pointer event at `x = 500 + 2⁻²⁰`, `y = 400` - `x` is a `double` that is not a
`float` - stores `gLastX = 500`, not `x`, and forwards the delta `(2⁻²⁰, 0)`, not `(0, 0)`. -/
theorem first_mouse_move_forwards_residue :
    FloatModel.ieee.toDouble (500 + 1 / 1048576) = 500 + 1 / 1048576 ∧
    sampleView.bOrthographicProjection = false ∧ sampleView.gFirstMouse = true ∧
    (sampleView.Mouse_Position_Callback FloatModel.ieee sampleMethods
        (500 + 1 / 1048576) 400).map (fun s => (s.trace, s.gLastX, s.gLastY, s.gFirstMouse)) =
      .ok ([.ProcessMouseMovement (1 / 1048576) 0], 500, 400, false) ∧
    ((1 : ℚ) / 1048576, (0 : ℚ)) ≠ (0, 0) ∧ (500 : ℚ) ≠ 500 + 1 / 1048576 := by
  refine ⟨?_, rfl, rfl, ?_, ?_, ?_⟩
  · with_unfolding_all rfl
  · with_unfolding_all rfl
  · norm_num
  · norm_num

/-- C16, amended: in Perspective mode with a camera, the first pointer-move event (first-mouse
flag set) stores `x` and `y` converted to `float` as `gLastX` and `gLastY`, clears the flag,
and forwards to the camera the differences between the incoming and the stored coordinates;
when `x` and `y` are representable as `float` the stored values are `x` and `y` and the
forwarded delta is exactly `(0, 0)`. -/
theorem first_pointer_event (F : FloatModel) (cam : CameraMethods) (s : ViewManager)
    (c : Camera) (x y : ℚ) (h : s.bOrthographicProjection = false)
    (hf : s.gFirstMouse = true) (hc : s.g_pCamera = some c) :
    s.Mouse_Position_Callback F cam x y =
      .ok { s with
            gLastX := F.toFloat x
            gLastY := F.toFloat y
            gFirstMouse := false
            g_pCamera := some (cam.ProcessMouseMovement c
              (F.toFloat (F.toDouble (x - F.toFloat x)))
              (F.toFloat (F.toDouble (F.toFloat y - y))))
            trace := s.trace ++
              [.ProcessMouseMovement (F.toFloat (F.toDouble (x - F.toFloat x)))
                (F.toFloat (F.toDouble (F.toFloat y - y)))] } ∧
    (F.toFloat 0 = 0 → F.toDouble 0 = 0 → F.toFloat x = x → F.toFloat y = y →
      s.Mouse_Position_Callback F cam x y =
        .ok { s with
              gLastX := x
              gLastY := y
              gFirstMouse := false
              g_pCamera := some (cam.ProcessMouseMovement c 0 0)
              trace := s.trace ++ [.ProcessMouseMovement 0 0] }) := by
  have key := mouse_perspective_eq F cam s c x y h hc
  simp only [hf, if_true] at key
  refine ⟨key, ?_⟩
  intro h0 h0' hx hy
  simp only [key, hx, hy, sub_self, h0', h0]

/-- C16, amended, on the freshly constructed manager under IEEE rounding: the first event at
`(512.5, 300.25)` forwards `(0, 0)`. -/
theorem first_pointer_event_witness :
    sampleView.bOrthographicProjection = false ∧ sampleView.gFirstMouse = true ∧
    FloatModel.ieee.toFloat 0 = 0 ∧ FloatModel.ieee.toDouble 0 = 0 ∧
    FloatModel.ieee.toFloat 512.5 = 512.5 ∧ FloatModel.ieee.toFloat 300.25 = 300.25 ∧
    (sampleView.Mouse_Position_Callback FloatModel.ieee sampleMethods 512.5 300.25).map
        (fun s => (s.trace, s.gLastX, s.gLastY, s.gFirstMouse)) =
      .ok ([.ProcessMouseMovement 0 0], 512.5, 300.25, false) := by
  have h0 : FloatModel.ieee.toFloat 0 = 0 := by with_unfolding_all rfl
  have h0' : FloatModel.ieee.toDouble 0 = 0 := by with_unfolding_all rfl
  have hx : FloatModel.ieee.toFloat 512.5 = 512.5 := by with_unfolding_all rfl
  have hy : FloatModel.ieee.toFloat 300.25 = 300.25 := by with_unfolding_all rfl
  refine ⟨rfl, rfl, h0, h0', hx, hy, ?_⟩
  rw [(first_pointer_event FloatModel.ieee sampleMethods sampleView _ 512.5 300.25 rfl rfl
    rfl).2 h0 h0' hx hy]
  rfl

end ViewManager

namespace ViewManager

/-- C17 as stated fails: after a first event at `(500, 400)`, two consecutive events at the
same position `x = 500 + 2⁻²⁰`, `y = 400` both forward the delta `(2⁻²⁰, 0)` - the second one
too, where the claim promises `(0, 0)` - and `gLastX` is `500` after each, not `x`. -/
theorem repeated_position_not_zero :
    FloatModel.ieee.toDouble (500 + 1 / 1048576) = 500 + 1 / 1048576 ∧
    (runMoves FloatModel.ieee sampleMethods sampleView [(500, 400)]).map
        (fun s => (s.bOrthographicProjection, s.gFirstMouse, s.gLastX, s.gLastY)) =
      .ok (false, false, 500, 400) ∧
    (runMoves FloatModel.ieee sampleMethods sampleView
        [(500, 400), (500 + 1 / 1048576, 400), (500 + 1 / 1048576, 400)]).map
        (fun s => (s.trace, s.gLastX, s.gLastY)) =
      .ok ([.ProcessMouseMovement 0 0, .ProcessMouseMovement (1 / 1048576) 0,
            .ProcessMouseMovement (1 / 1048576) 0], 500, 400) ∧
    ((1 : ℚ) / 1048576, (0 : ℚ)) ≠ (0, 0) ∧ (500 : ℚ) ≠ 500 + 1 / 1048576 := by
  refine ⟨?_, ?_, ?_, ?_, ?_⟩
  · with_unfolding_all rfl
  · with_unfolding_all rfl
  · with_unfolding_all rfl
  · norm_num
  · norm_num

/-- C17, amended: in Perspective mode with a camera and the first-mouse flag clear, a pointer
event forwards to the camera the delta `(x - gLastX, gLastY - y)`, each difference taken in
`double` and converted to `float` (vertical axis inverted), and then stores `x` and `y`
converted to `float` as `gLastX` and `gLastY`; when `x` and `y` are representable as `float`,
two consecutive events at `(x, y)` forward `(0, 0)` on the second and leave
`gLastX = x`, `gLastY = y`. -/
theorem later_pointer_event (F : FloatModel) (cam : CameraMethods) (s : ViewManager)
    (c : Camera) (x y : ℚ) (h : s.bOrthographicProjection = false)
    (hf : s.gFirstMouse = false) (hc : s.g_pCamera = some c) :
    s.Mouse_Position_Callback F cam x y =
      .ok { s with
            gLastX := F.toFloat x
            gLastY := F.toFloat y
            g_pCamera := some (cam.ProcessMouseMovement c
              (F.toFloat (F.toDouble (x - s.gLastX)))
              (F.toFloat (F.toDouble (s.gLastY - y))))
            trace := s.trace ++
              [.ProcessMouseMovement (F.toFloat (F.toDouble (x - s.gLastX)))
                (F.toFloat (F.toDouble (s.gLastY - y)))] } ∧
    (F.toFloat 0 = 0 → F.toDouble 0 = 0 → F.toFloat x = x → F.toFloat y = y →
      ∃ s1 s2, s.Mouse_Position_Callback F cam x y = .ok s1 ∧
        s1.Mouse_Position_Callback F cam x y = .ok s2 ∧
        s2.trace = s1.trace ++ [.ProcessMouseMovement 0 0] ∧
        s2.gLastX = x ∧ s2.gLastY = y) := by
  have key := mouse_perspective_eq F cam s c x y h hc
  simp only [hf, Bool.false_eq_true, if_false] at key
  constructor
  · rw [key]
    obtain ⟨p, cm, lx, ly, fm, dt, lf, bo, tr⟩ := s
    simp only at hf
    subst hf
    rfl
  · intro h0 h0' hx hy
    refine ⟨_, _, key, mouse_perspective_eq F cam _ _ x y h rfl, ?_, hx, hy⟩
    simp only [Bool.false_eq_true, if_false, hx, hy, sub_self, h0', h0]

/-- C17, amended, on the manager after a first event at `(500, 400)`, under IEEE rounding: an
event at `(512.5, 300.25)` forwards `(12.5, 99.75)`, and a second one at the same position
forwards `(0, 0)`. -/
theorem later_pointer_event_witness :
    FloatModel.ieee.toFloat 0 = 0 ∧ FloatModel.ieee.toDouble 0 = 0 ∧
    FloatModel.ieee.toFloat 512.5 = 512.5 ∧ FloatModel.ieee.toFloat 300.25 = 300.25 ∧
    (∃ s, runMoves FloatModel.ieee sampleMethods sampleView [(500, 400)] = .ok s ∧
      s.bOrthographicProjection = false ∧ s.gFirstMouse = false ∧
      ∃ s1 s2, s.Mouse_Position_Callback FloatModel.ieee sampleMethods 512.5 300.25 = .ok s1 ∧
        s1.Mouse_Position_Callback FloatModel.ieee sampleMethods 512.5 300.25 = .ok s2 ∧
        s2.trace = s1.trace ++ [.ProcessMouseMovement 0 0] ∧
        s2.gLastX = 512.5 ∧ s2.gLastY = 300.25) ∧
    (runMoves FloatModel.ieee sampleMethods sampleView
        [(500, 400), (512.5, 300.25), (512.5, 300.25)]).map (fun s => s.trace) =
      .ok [.ProcessMouseMovement 0 0, .ProcessMouseMovement 12.5 99.75,
           .ProcessMouseMovement 0 0] := by
  have h0 : FloatModel.ieee.toFloat 0 = 0 := by with_unfolding_all rfl
  have h0' : FloatModel.ieee.toDouble 0 = 0 := by with_unfolding_all rfl
  have hx : FloatModel.ieee.toFloat 512.5 = 512.5 := by with_unfolding_all rfl
  have hy : FloatModel.ieee.toFloat 300.25 = 300.25 := by with_unfolding_all rfl
  obtain ⟨s, c, hs, hcam⟩ := runMoves_some FloatModel.ieee sampleMethods [(500, 400)]
    sampleView _ rfl
  have hmode : (runMoves FloatModel.ieee sampleMethods sampleView [(500, 400)]).map
      (fun s => (s.bOrthographicProjection, s.gFirstMouse)) = .ok (false, false) := by
    with_unfolding_all rfl
  rw [hs] at hmode
  have hb : s.bOrthographicProjection = false := congrArg Prod.fst (Except.ok.inj hmode)
  have hfm : s.gFirstMouse = false := congrArg Prod.snd (Except.ok.inj hmode)
  refine ⟨h0, h0', hx, hy, ⟨s, hs, hb, hfm, ?_⟩, ?_⟩
  · exact (later_pointer_event FloatModel.ieee sampleMethods s c 512.5 300.25 hb hfm hcam).2
      h0 h0' hx hy
  · with_unfolding_all rfl

end ViewManager

/-! ## The orthographic projection -/

namespace ViewManager

end ViewManager

namespace ViewManager

end ViewManager

namespace ViewManager

end ViewManager

namespace ViewManager

end ViewManager

namespace ViewManager

end ViewManager

/-! ## Both toggle keys in one poll -/

namespace ViewManager

/-- C23: with a camera, a poll in which the O and P keys are both down ends in Perspective
mode, never in Orthographic mode, with the camera at position `(-1.5, 3.5, 8)`, front
`(0, -0.5, -2)`, up `(0, 1, 0)` and zoom `80`, whatever the state before and whichever other
keys are down: the P block runs after the O block and overwrites what it set. -/
theorem perspective_wins_when_both_down (cam : CameraMethods) (keys : KeyState)
    (s : ViewManager) (c : Camera) (hc : s.g_pCamera = some c)
    (hO : keys.GLFW_KEY_O = true) (hP : keys.GLFW_KEY_P = true) :
    (s.ProcessKeyboardEvents cam keys).bOrthographicProjection = false ∧
    (s.ProcessKeyboardEvents cam keys).bOrthographicProjection ≠ true ∧
    ∃ c', (s.ProcessKeyboardEvents cam keys).g_pCamera = some c' ∧
      c'.Position = ⟨-1.5, 3.5, 8⟩ ∧ c'.Front = ⟨0, -0.5, -2⟩ ∧ c'.Up = ⟨0, 1, 0⟩ ∧
      c'.Zoom = 80 := by
  obtain ⟨m, hu, hm⟩ := processKeyboardEvents_some cam keys s c hc
  have hsome : m.g_pCamera.isSome = true := by
    rw [hu.2.2.2.2.2.2.2, hc]
    rfl
  obtain ⟨c1, hc1⟩ := Option.isSome_iff_exists.mp hsome
  rw [hm, hO, hP]
  norm_num [ProcessKeyboardEvents.perspective, ProcessKeyboardEvents.orthographic, hc1]

/-- C23, on the manager left in Orthographic mode by a poll with only O down: a poll with O
and P both down brings it back to Perspective mode and the perspective preset. -/
theorem perspective_wins_when_both_down_witness :
    (sampleView.ProcessKeyboardEvents sampleMethods onlyO).bOrthographicProjection = true ∧
    ((sampleView.ProcessKeyboardEvents sampleMethods onlyO).ProcessKeyboardEvents
        sampleMethods { noKeys with GLFW_KEY_O := true, GLFW_KEY_P := true }
      ).bOrthographicProjection = false ∧
    ((sampleView.ProcessKeyboardEvents sampleMethods onlyO).ProcessKeyboardEvents
        sampleMethods { noKeys with GLFW_KEY_O := true, GLFW_KEY_P := true }
      ).bOrthographicProjection ≠ true ∧
    ∃ c', ((sampleView.ProcessKeyboardEvents sampleMethods onlyO).ProcessKeyboardEvents
        sampleMethods { noKeys with GLFW_KEY_O := true, GLFW_KEY_P := true }
      ).g_pCamera = some c' ∧
      c'.Position = ⟨-1.5, 3.5, 8⟩ ∧ c'.Front = ⟨0, -0.5, -2⟩ ∧ c'.Up = ⟨0, 1, 0⟩ ∧
      c'.Zoom = 80 :=
  ⟨rfl,
    perspective_wins_when_both_down sampleMethods
      { noKeys with GLFW_KEY_O := true, GLFW_KEY_P := true }
      (sampleView.ProcessKeyboardEvents sampleMethods onlyO) _ rfl rfl rfl⟩

end ViewManager

/-! ## The pointer reference across a change of mode -/

namespace ViewManager

/-- A keyboard poll, whichever keys are down and with or without a camera, leaves `gLastX`,
`gLastY` and the first-mouse flag as they were. -/
theorem poll_keeps_pointer_reference (cam : CameraMethods) (keys : KeyState)
    (s : ViewManager) :
    (s.ProcessKeyboardEvents cam keys).gLastX = s.gLastX ∧
    (s.ProcessKeyboardEvents cam keys).gLastY = s.gLastY ∧
    (s.ProcessKeyboardEvents cam keys).gFirstMouse = s.gFirstMouse := by
  cases hc : s.g_pCamera with
  | none =>
    obtain ⟨_, h2, h3, h4, _⟩ := processKeyboardEvents_none cam keys s hc
    exact ⟨h2, h3, h4⟩
  | some c =>
    obtain ⟨m, ⟨_, h2, h3, h4, _⟩, hm⟩ := processKeyboardEvents_some cam keys s c hc
    rw [hm]
    cases keys.GLFW_KEY_O <;> cases keys.GLFW_KEY_P <;>
      simp [ProcessKeyboardEvents.perspective, ProcessKeyboardEvents.orthographic, h2, h3, h4]

/-- From a state with a camera and the first-mouse flag clear: a poll with O down and P up,
then any pointer events, then a poll with P down, then a pointer event at `(x, y)`.  The last
event forwards the offsets against the reference the state had before the first poll. -/
theorem pointer_after_round_trip (F : FloatModel) (cam : CameraMethods) (s : ViewManager)
    (c : Camera) (first last : KeyState) (moves : List (ℚ × ℚ)) (x y : ℚ)
    (hc : s.g_pCamera = some c) (hf : s.gFirstMouse = false)
    (hO : first.GLFW_KEY_O = true) (hP1 : first.GLFW_KEY_P = false)
    (hP : last.GLFW_KEY_P = true) :
    ∃ s2 s3, (s.ProcessKeyboardEvents cam first).bOrthographicProjection = true ∧
      runMoves F cam (s.ProcessKeyboardEvents cam first) moves = .ok s2 ∧
      (s2.ProcessKeyboardEvents cam last).bOrthographicProjection = false ∧
      (s2.ProcessKeyboardEvents cam last).Mouse_Position_Callback F cam x y = .ok s3 ∧
      s3.trace = (s2.ProcessKeyboardEvents cam last).trace ++
        [.ProcessMouseMovement (F.toFloat (F.toDouble (x - s.gLastX)))
          (F.toFloat (F.toDouble (s.gLastY - y)))] := by
  have hortho := (poll_orthographic_pose cam first s c hc hO hP1).1
  obtain ⟨c1, hc1⟩ := processKeyboardEvents_camera cam first s c hc
  obtain ⟨hx1, hy1, hf1⟩ := poll_keeps_pointer_reference cam first s
  obtain ⟨hmode, c3, hc3, _⟩ :=
    poll_perspective_pose cam last (s.ProcessKeyboardEvents cam first) c1 hc1 hP
  obtain ⟨hx3, hy3, hf3⟩ :=
    poll_keeps_pointer_reference cam last (s.ProcessKeyboardEvents cam first)
  refine ⟨_, _, hortho, runMoves_orthographic F cam _ hortho moves, hmode,
    mouse_perspective_eq F cam _ c3 x y hmode hc3, ?_⟩
  simp only [hf3, hf1, hf, hx3, hx1, hy3, hy1, Bool.false_eq_true, if_false]

/-- C24: a keyboard poll, whichever keys are down, leaves `gLastX`, `gLastY` and the
first-mouse flag unchanged; so from a state with a camera, the first-mouse flag clear and the
reference `(gLastX, gLastY)`, after a poll with O down and P up (which enters Orthographic
mode), any pointer events there, and a poll with P down (which returns to Perspective mode),
the next pointer event at `(x, y)` forwards the delta `(x - gLastX, gLastY - y)` against the
reference from before the Orthographic phase, each difference taken in `double` and converted
to `float`; without rounding the forwarded delta is `(x - gLastX, gLastY - y)` itself. -/
theorem toggles_keep_pointer_reference (F : FloatModel) (cam : CameraMethods)
    (s : ViewManager) (c : Camera) (first last : KeyState) (moves : List (ℚ × ℚ)) (x y : ℚ)
    (hc : s.g_pCamera = some c) (hf : s.gFirstMouse = false)
    (hO : first.GLFW_KEY_O = true) (hP1 : first.GLFW_KEY_P = false)
    (hP : last.GLFW_KEY_P = true) :
    (∀ (keys : KeyState) (t : ViewManager),
      (t.ProcessKeyboardEvents cam keys).gLastX = t.gLastX ∧
      (t.ProcessKeyboardEvents cam keys).gLastY = t.gLastY ∧
      (t.ProcessKeyboardEvents cam keys).gFirstMouse = t.gFirstMouse) ∧
    (∃ s2 s3, (s.ProcessKeyboardEvents cam first).bOrthographicProjection = true ∧
      runMoves F cam (s.ProcessKeyboardEvents cam first) moves = .ok s2 ∧
      (s2.ProcessKeyboardEvents cam last).bOrthographicProjection = false ∧
      (s2.ProcessKeyboardEvents cam last).Mouse_Position_Callback F cam x y = .ok s3 ∧
      s3.trace = (s2.ProcessKeyboardEvents cam last).trace ++
        [.ProcessMouseMovement (F.toFloat (F.toDouble (x - s.gLastX)))
          (F.toFloat (F.toDouble (s.gLastY - y)))]) ∧
    (∃ s2 s3, runMoves FloatModel.exact cam (s.ProcessKeyboardEvents cam first) moves = .ok s2 ∧
      (s2.ProcessKeyboardEvents cam last).Mouse_Position_Callback FloatModel.exact cam x y =
        .ok s3 ∧
      s3.trace = (s2.ProcessKeyboardEvents cam last).trace ++
        [.ProcessMouseMovement (x - s.gLastX) (s.gLastY - y)]) := by
  refine ⟨fun keys t => poll_keeps_pointer_reference cam keys t,
    pointer_after_round_trip F cam s c first last moves x y hc hf hO hP1 hP, ?_⟩
  obtain ⟨s2, s3, _, h2, _, h4, h5⟩ :=
    pointer_after_round_trip FloatModel.exact cam s c first last moves x y hc hf hO hP1 hP
  exact ⟨s2, s3, h2, h4, h5⟩

/-- C24, under IEEE rounding, on the manager after a first pointer event at `(500, 400)`: a
poll with O, three pointer events, a poll with P, and then an event at `(512.5, 300.25)`, which
forwards `(12.5, 99.75)`, the delta from `(500, 400)`. -/
theorem toggles_keep_pointer_reference_witness :
    (runMoves FloatModel.ieee sampleMethods
        (((sampleView.Mouse_Position_Callback FloatModel.ieee sampleMethods 500 400).toOption.getD
            sampleView).ProcessKeyboardEvents sampleMethods onlyO)
        [(510, 390), (640.5, 200.25), (10, 700)]).map
      (fun s2 => ((s2.ProcessKeyboardEvents sampleMethods onlyP).Mouse_Position_Callback
        FloatModel.ieee sampleMethods 512.5 300.25).map (fun s3 => s3.trace)) =
      .ok (.ok [.ProcessMouseMovement 0 0, .ProcessMouseMovement 12.5 99.75]) ∧
    (∃ s2 s3,
      (((sampleView.Mouse_Position_Callback FloatModel.ieee sampleMethods 500 400).toOption.getD
        sampleView).ProcessKeyboardEvents sampleMethods onlyO).bOrthographicProjection = true ∧
      runMoves FloatModel.ieee sampleMethods
        (((sampleView.Mouse_Position_Callback FloatModel.ieee sampleMethods 500 400).toOption.getD
            sampleView).ProcessKeyboardEvents sampleMethods onlyO)
        [(510, 390), (640.5, 200.25), (10, 700)] = .ok s2 ∧
      (s2.ProcessKeyboardEvents sampleMethods onlyP).bOrthographicProjection = false ∧
      (s2.ProcessKeyboardEvents sampleMethods onlyP).Mouse_Position_Callback FloatModel.ieee
        sampleMethods 512.5 300.25 = .ok s3 ∧
      s3.trace = (s2.ProcessKeyboardEvents sampleMethods onlyP).trace ++
        [.ProcessMouseMovement
          (FloatModel.ieee.toFloat (FloatModel.ieee.toDouble (512.5 -
            ((sampleView.Mouse_Position_Callback FloatModel.ieee sampleMethods 500
              400).toOption.getD sampleView).gLastX)))
          (FloatModel.ieee.toFloat (FloatModel.ieee.toDouble
            (((sampleView.Mouse_Position_Callback FloatModel.ieee sampleMethods 500
              400).toOption.getD sampleView).gLastY - 300.25)))]) := by
  refine ⟨by with_unfolding_all rfl, ?_⟩
  exact (toggles_keep_pointer_reference FloatModel.ieee sampleMethods
    ((sampleView.Mouse_Position_Callback FloatModel.ieee sampleMethods 500 400).toOption.getD
      sampleView) _ onlyO onlyP [(510, 390), (640.5, 200.25), (10, 700)] 512.5 300.25
    (by with_unfolding_all rfl) (by with_unfolding_all rfl) rfl rfl rfl).2.1

end ViewManager

/-! ## The destroy routine -/

namespace SceneManager

/-- From index `i` on, the loop of `DestroyGLTextures` asks for one new texture name per
remaining loaded slot, stores it in the slot, and changes nothing else. -/
theorem destroyGLTextures_loop_eq (newTextureIDs : Nat → Nat) :
    ∀ (fuel : Nat) (s : SceneManager) (i : Nat), s.m_loadedTextures ≤ 16 →
      i ≤ s.m_loadedTextures → s.m_loadedTextures - i < fuel →
      ∃ s', DestroyGLTextures.loop newTextureIDs fuel s i = .ok s' ∧
        s'.trace = s.trace ++
          (List.range' i (s.m_loadedTextures - i)).map
            (fun j => Effect.glGenTextures (newTextureIDs j)) ∧
        s'.m_loadedTextures = s.m_loadedTextures ∧
        s'.m_pShaderManager = s.m_pShaderManager ∧
        s'.m_objectMaterials = s.m_objectMaterials ∧
        ∀ k : Fin 16, s'.m_textureIDs k =
          if i ≤ k.val ∧ k.val < s.m_loadedTextures then
            { tag := (s.m_textureIDs k).tag, ID := newTextureIDs k.val }
          else s.m_textureIDs k := by
  intro fuel
  induction fuel with
  | zero => intro _ _ _ _ h; omega
  | succ fuel ih =>
    intro s i h16 hi hfuel
    unfold DestroyGLTextures.loop
    by_cases hlt : i < s.m_loadedTextures
    · have hi16 : i < 16 := by omega
      rw [if_pos hlt, readSlot_eq_of_lt s i hi16]
      simp only [writeSlot, emit, dif_pos hi16]
      obtain ⟨s', hrun, htrace, hcount, hp, hm, htable⟩ :=
        ih { s with
             m_textureIDs := Function.update s.m_textureIDs ⟨i, hi16⟩
               { tag := (s.m_textureIDs ⟨i, hi16⟩).tag, ID := newTextureIDs i }
             trace := s.trace ++ [.glGenTextures (newTextureIDs i)] } (i + 1) h16 hlt
          (by simp only; omega)
      refine ⟨s', hrun, ?_, hcount, hp, hm, ?_⟩
      · rw [htrace]
        obtain ⟨n, hn⟩ : ∃ n, s.m_loadedTextures - i = n + 1 :=
          ⟨s.m_loadedTextures - i - 1, by omega⟩
        have hn' : s.m_loadedTextures - (i + 1) = n := by omega
        simp only [hn, hn', List.range'_succ, List.map_cons, List.append_assoc,
          List.singleton_append]
      · intro k
        rw [htable k]
        by_cases hk : k = ⟨i, hi16⟩
        · subst hk
          simp [hlt]
        · have hne : k.val ≠ i := fun h => hk (Fin.ext h)
          simp only [Function.update_noteq hk]
          by_cases hr : i + 1 ≤ k.val ∧ k.val < s.m_loadedTextures
          · rw [if_pos hr, if_pos ⟨by omega, hr.2⟩]
          · rw [if_neg hr, if_neg (by omega)]
    · have h0 : s.m_loadedTextures - i = 0 := by omega
      rw [if_neg hlt, h0]
      refine ⟨s, rfl, by simp, rfl, rfl, rfl, ?_⟩
      intro k
      rw [if_neg (by omega)]

/-- C22 (the code departs from the claim): with the count inside the table,
`DestroyGLTextures` returns after exactly `m_loadedTextures` calls of `glGenTextures` and no
other call, so it creates one new texture name per loaded slot and deletes none; each loaded
slot keeps its tag and has its `ID` overwritten with the new name, so the name of the texture
that was loaded into the slot is lost, and the count stays as it was. -/
theorem destroyGLTextures_generates_names (s : SceneManager) (newTextureIDs : Nat → Nat)
    (h16 : s.m_loadedTextures ≤ 16) :
    ∃ s', s.DestroyGLTextures newTextureIDs = .ok s' ∧
      s'.trace = s.trace ++
        (List.range s.m_loadedTextures).map
          (fun i => Effect.glGenTextures (newTextureIDs i)) ∧
      s'.m_loadedTextures = s.m_loadedTextures ∧
      ∀ k : Fin 16, s'.m_textureIDs k =
        if k.val < s.m_loadedTextures then
          { tag := (s.m_textureIDs k).tag, ID := newTextureIDs k.val }
        else s.m_textureIDs k := by
  obtain ⟨s', hrun, htrace, hcount, _, _, htable⟩ :=
    destroyGLTextures_loop_eq newTextureIDs (s.m_loadedTextures + 1) s 0 h16 (Nat.zero_le _)
      (by omega)
  refine ⟨s', hrun, ?_, hcount, ?_⟩
  · rw [htrace, Nat.sub_zero, List.range_eq_range']
  · intro k
    rw [htable k]
    simp

/-- C22, on the sample scene, whose four loaded slots hold the texture names 1, 3, 4 and 5:
the call makes four `glGenTextures` calls and leaves the slots holding the new names 101 to
104. -/
theorem destroyGLTextures_generates_names_witness :
    sampleScene.m_loadedTextures ≤ 16 ∧
    (List.range 4).map (fun i => sampleScene.slotID i) = [1, 3, 4, 5] ∧
    (sampleScene.DestroyGLTextures (fun i => 101 + i)).map
        (fun s => (s.trace.drop sampleScene.trace.length, s.m_loadedTextures,
          (List.range 4).map (fun i => s.slotID i))) =
      .ok ([.glGenTextures 101, .glGenTextures 102, .glGenTextures 103, .glGenTextures 104],
        4, [101, 102, 103, 104]) ∧
    (∃ s', sampleScene.DestroyGLTextures (fun i => 101 + i) = .ok s' ∧
      s'.trace = sampleScene.trace ++
        (List.range sampleScene.m_loadedTextures).map
          (fun i => Effect.glGenTextures ((fun i => 101 + i) i)) ∧
      s'.m_loadedTextures = sampleScene.m_loadedTextures ∧
      ∀ k : Fin 16, s'.m_textureIDs k =
        if k.val < sampleScene.m_loadedTextures then
          { tag := (sampleScene.m_textureIDs k).tag, ID := (fun i => 101 + i) k.val }
        else sampleScene.m_textureIDs k) :=
  ⟨by decide, rfl, rfl,
    destroyGLTextures_generates_names sampleScene (fun i => 101 + i) (by decide)⟩

end SceneManager

/-! ## The resources of the fixed scene -/

namespace SceneManager

/-- When as many tags were registered as calls were made, every call registered its tag. -/
theorem successTags_eq_map (calls : List LoadCall) :
    ∀ results : List Bool, (successTags calls results).length = calls.length →
      successTags calls results = calls.map fun c => c.tag := by
  induction calls with
  | nil => intro results _; cases results <;> simp [successTags]
  | cons c cs ih =>
    intro results h
    cases results with
    | nil => simp [successTags] at h
    | cons b bs =>
      cases b with
      | false =>
        have := successTags_length_le cs bs
        simp only [successTags, List.length_cons] at h
        omega
      | true =>
        simp only [successTags, List.length_cons, Nat.add_right_cancel_iff] at h
        simp [successTags, ih bs h]

/-- A sequence of loads of decodable images with 3 or 4 channels that fits the table registers
the tag of every call, in call order. -/
theorem runLoads_all_registered (calls : List LoadCall) (s : SceneManager)
    (tags : List String) (hreg : Registered s tags) (hlen : tags.length + calls.length ≤ 16)
    (hall : ∀ c ∈ calls, ∃ img, c.image = some img ∧
      (img.colorChannels = 3 ∨ img.colorChannels = 4)) :
    ∃ results s', runLoads s calls = .ok (results, s') ∧
      Registered s' (tags ++ calls.map fun c => c.tag) ∧
      s'.m_pShaderManager = s.m_pShaderManager ∧
      s'.m_objectMaterials = s.m_objectMaterials := by
  obtain ⟨results, s', hrun, _, hreg', hp, hm⟩ := runLoads_registered calls s tags hreg hlen
  obtain ⟨results2, s2, hrun2, hcount⟩ := runLoads_count calls s
    (by rw [hreg.1]; exact hlen) hall
  rw [hrun] at hrun2
  obtain ⟨_, rfl⟩ := Prod.mk.inj (Except.ok.inj hrun2)
  have hst : (successTags calls results).length = calls.length := by
    have h1 := hreg'.1
    rw [hcount, hreg.1, List.length_append] at h1
    omega
  rw [successTags_eq_map calls results hst] at hreg'
  exact ⟨results, s', hrun, hreg', hp, hm⟩

/-- The method `DefineObjectMaterials` appends its nine records to the materials defined
before and changes nothing else. -/
theorem defineObjectMaterials_appends (s : SceneManager) :
    (DefineObjectMaterials s).m_objectMaterials =
      s.m_objectMaterials ++ (DefineObjectMaterials (new true)).m_objectMaterials ∧
    (DefineObjectMaterials s).m_textureIDs = s.m_textureIDs ∧
    (DefineObjectMaterials s).m_loadedTextures = s.m_loadedTextures := by
  refine ⟨?_, rfl, rfl⟩
  simp [DefineObjectMaterials, new]

/-- Every image of `LoadSceneTextures` decodes with 3 or 4 channels when the decoder answers
so in each of the sixteen calls. -/
theorem loadSceneTextures_calls_supported (image : Nat → Option StbImage)
    (newTextureID : Nat → Nat)
    (himage : ∀ k, k < 16 → ∃ img, image k = some img ∧
      (img.colorChannels = 3 ∨ img.colorChannels = 4)) :
    ∀ c ∈ LoadSceneTextures.calls image newTextureID, ∃ img, c.image = some img ∧
      (img.colorChannels = 3 ∨ img.colorChannels = 4) := by
  intro c hc
  simp only [LoadSceneTextures.calls, List.mem_cons, List.mem_singleton, List.not_mem_nil,
    or_false] at hc
  rcases hc with h | h | h | h | h | h | h | h | h | h | h | h | h | h | h | h <;> subst h
  · exact himage 0 (by decide)
  · exact himage 1 (by decide)
  · exact himage 2 (by decide)
  · exact himage 3 (by decide)
  · exact himage 4 (by decide)
  · exact himage 5 (by decide)
  · exact himage 6 (by decide)
  · exact himage 7 (by decide)
  · exact himage 8 (by decide)
  · exact himage 9 (by decide)
  · exact himage 10 (by decide)
  · exact himage 11 (by decide)
  · exact himage 12 (by decide)
  · exact himage 13 (by decide)
  · exact himage 14 (by decide)
  · exact himage 15 (by decide)

/-- On a fresh manager, with every decode succeeding with 3 or 4 channels, `LoadSceneTextures`
returns and leaves the sixteen tags of its calls registered, in call order. -/
theorem loadSceneTextures_registered (pShaderManager : Bool) (image : Nat → Option StbImage)
    (newTextureID : Nat → Nat)
    (himage : ∀ k, k < 16 → ∃ img, image k = some img ∧
      (img.colorChannels = 3 ∨ img.colorChannels = 4)) :
    ∃ s, (new pShaderManager).LoadSceneTextures image newTextureID = .ok s ∧
      Registered s LoadSceneTextures.tags := by
  obtain ⟨results, s1, hrun, hreg, _, _⟩ :=
    runLoads_all_registered (LoadSceneTextures.calls image newTextureID) (new pShaderManager)
      [] (registered_new pShaderManager) (by simp [LoadSceneTextures.calls])
      (loadSceneTextures_calls_supported image newTextureID himage)
  have htags : ([] ++ (LoadSceneTextures.calls image newTextureID).map fun c => c.tag) =
      LoadSceneTextures.tags := rfl
  rw [htags] at hreg
  have h16 : s1.m_loadedTextures ≤ 16 := by rw [hreg.1]; exact hreg.2.1
  have hbind := bindGLTextures_loop_eq (s1.m_loadedTextures + 1) s1 0 h16 (Nat.zero_le _)
    (by omega)
  refine ⟨{ s1 with trace := s1.trace ++ s1.bindingEvents 0 (s1.m_loadedTextures - 0) }, ?_,
    registered_of_unchanged s1 _ _ hreg rfl rfl⟩
  unfold LoadSceneTextures
  rw [hrun]
  exact hbind

/-- With tags registered that are pairwise distinct, the lookup of the tag at position `k`
returns `k`. -/
theorem findTextureSlot_of_registered_nodup (s : SceneManager) (tags : List String)
    (t : String) (k : Nat) (h : Registered s tags) (hnodup : tags.Nodup)
    (hk : tags[k]? = some t) : s.FindTextureSlot t = .ok (k : Int) := by
  apply findTextureSlot_of_registered_first s tags t k h hk
  intro j hj hjt
  have hklt : k < tags.length := (List.getElem?_eq_some.mp hk).1
  exact List.nodup_iff_getElem?_ne_getElem?.mp hnodup j k hj hklt (hjt.trans hk.symm)

end SceneManager

namespace SceneManager

/-- C25: the sixteen tags of `LoadSceneTextures` are pairwise distinct, and on a fresh manager,
with every decode succeeding with 3 or 4 channels, the method returns with exactly 16 textures
loaded, slot `k` holding the `k`-th tag and the lookup of the `k`-th tag returning `k`; every
tag that `RenderScene` passes to `SetShaderTexture` is then found in a slot `0..15` (never
`-1`), and every tag that `RenderScene` passes to `SetShaderMaterial` is the tag of a material
that `DefineObjectMaterials` defines. -/
theorem scene_tags_registered (pShaderManager : Bool) (image : Nat → Option StbImage)
    (newTextureID : Nat → Nat)
    (himage : ∀ k, k < 16 → ∃ img, image k = some img ∧
      (img.colorChannels = 3 ∨ img.colorChannels = 4)) :
    LoadSceneTextures.tags.length = 16 ∧ LoadSceneTextures.tags.Nodup ∧
    ∃ s, (new pShaderManager).LoadSceneTextures image newTextureID = .ok s ∧
      s.m_loadedTextures = 16 ∧
      (∀ k : Fin 16, ∃ tag, LoadSceneTextures.tags[k.val]? = some tag ∧
        (s.m_textureIDs k).tag = tag ∧ s.FindTextureSlot tag = .ok (k.val : Int)) ∧
      (∀ tag ∈ RenderScene.textureTags, ∃ k : Nat, k < 16 ∧
        s.FindTextureSlot tag = .ok (k : Int) ∧ s.FindTextureSlot tag ≠ .ok (-1) ∧
        (DefineObjectMaterials s).FindTextureSlot tag = .ok (k : Int)) ∧
      (∀ tag ∈ RenderScene.materialTags,
        ∃ m ∈ (DefineObjectMaterials s).m_objectMaterials, m.tag = tag) := by
  have hlen : LoadSceneTextures.tags.length = 16 := rfl
  have hnodup : LoadSceneTextures.tags.Nodup := by decide
  obtain ⟨s, hload, hreg⟩ := loadSceneTextures_registered pShaderManager image newTextureID
    himage
  refine ⟨hlen, hnodup, s, hload, hreg.1.trans hlen, ?_, ?_, ?_⟩
  · intro k
    have hk : k.val < LoadSceneTextures.tags.length := by rw [hlen]; exact k.isLt
    have hget : LoadSceneTextures.tags[k.val]? = some LoadSceneTextures.tags[k.val] :=
      List.getElem?_eq_getElem hk
    obtain ⟨slot, hslot, htag⟩ := hreg.2.2 k.val _ hget
    rw [readSlot_eq_of_lt s k.val k.isLt] at hslot
    refine ⟨_, hget, ?_, findTextureSlot_of_registered_nodup s _ _ k.val hreg hnodup hget⟩
    rw [← htag, ← Except.ok.inj hslot]
  · intro tag htag
    have hmem : tag ∈ LoadSceneTextures.tags := by
      have hsub : ∀ t ∈ RenderScene.textureTags, t ∈ LoadSceneTextures.tags := by decide
      exact hsub tag htag
    obtain ⟨k, hk, _⟩ := first_position_of_mem _ tag hmem
    have hklt : k < 16 := by
      rw [← hlen]
      exact (List.getElem?_eq_some.mp hk).1
    have hfind := findTextureSlot_of_registered_nodup s _ tag k hreg hnodup hk
    refine ⟨k, hklt, hfind, ?_, ?_⟩
    · rw [hfind]
      intro h
      have := Except.ok.inj h
      omega
    · rw [findTextureSlot_congr s (DefineObjectMaterials s) tag rfl rfl]
      exact hfind
  · intro tag htag
    have hdef : ∀ t ∈ RenderScene.materialTags,
        ∃ m ∈ (DefineObjectMaterials (new true)).m_objectMaterials, m.tag = t := by decide
    obtain ⟨m, hm, hmt⟩ := hdef tag htag
    refine ⟨m, ?_, hmt⟩
    rw [(defineObjectMaterials_appends s).1]
    exact List.mem_append_right _ hm

/-- C25, with every file decoded as a 64 by 64 RGB image and the texture names 1 to 16: the
tag `"claytop"`, loaded last, is found in slot 15, and `"wood"` in slot 2. -/
theorem scene_tags_registered_witness :
    (((new true).LoadSceneTextures (fun _ => some ⟨64, 64, 3⟩) (fun k => k + 1)).map
      fun s => (s.m_loadedTextures, s.FindTextureSlot "claytop", s.FindTextureSlot "wood",
        s.FindTextureSlot "glass")) = .ok (16, .ok 15, .ok 2, .ok (-1)) ∧
    (LoadSceneTextures.tags.length = 16 ∧ LoadSceneTextures.tags.Nodup ∧
    ∃ s, (new true).LoadSceneTextures (fun _ => some ⟨64, 64, 3⟩) (fun k => k + 1) = .ok s ∧
      s.m_loadedTextures = 16 ∧
      (∀ k : Fin 16, ∃ tag, LoadSceneTextures.tags[k.val]? = some tag ∧
        (s.m_textureIDs k).tag = tag ∧ s.FindTextureSlot tag = .ok (k.val : Int)) ∧
      (∀ tag ∈ RenderScene.textureTags, ∃ k : Nat, k < 16 ∧
        s.FindTextureSlot tag = .ok (k : Int) ∧ s.FindTextureSlot tag ≠ .ok (-1) ∧
        (DefineObjectMaterials s).FindTextureSlot tag = .ok (k : Int)) ∧
      (∀ tag ∈ RenderScene.materialTags,
        ∃ m ∈ (DefineObjectMaterials s).m_objectMaterials, m.tag = tag)) :=
  ⟨rfl, scene_tags_registered true (fun _ => some ⟨64, 64, 3⟩) (fun k => k + 1)
    (fun _ _ => ⟨⟨64, 64, 3⟩, rfl, Or.inl rfl⟩)⟩

end SceneManager

/-! ## The frame drawn by `RenderScene` -/

namespace SceneManager

/-- The material lookup depends on the material list only. -/
theorem findMaterial_congr (s t : SceneManager) (tag : String) (material : OBJECT_MATERIAL)
    (h : t.m_objectMaterials = s.m_objectMaterials) :
    t.FindMaterial tag material = s.FindMaterial tag material := by
  obtain ⟨p1, table1, n1, ms1, tr1⟩ := s
  obtain ⟨p2, table2, n2, ms2, tr2⟩ := t
  simp only at h
  subst h
  have hloop : ∀ (fuel index : Nat) (bFound : Bool) (material : OBJECT_MATERIAL),
      FindMaterial.loop ⟨p2, table2, n2, ms2, tr2⟩ tag fuel index bFound material =
        FindMaterial.loop ⟨p1, table1, n1, ms2, tr1⟩ tag fuel index bFound material := by
    intro fuel
    induction fuel with
    | zero => intro _ _ _; rfl
    | succ fuel ih =>
      intro index bFound material
      unfold FindMaterial.loop
      simp only [ih]
  unfold FindMaterial
  simp only [hloop]

theorem slotOf_congr (s t : SceneManager) (ht : t.m_textureIDs = s.m_textureIDs)
    (hn : t.m_loadedTextures = s.m_loadedTextures) : t.slotOf = s.slotOf := by
  funext tag
  unfold slotOf
  rw [findTextureSlot_congr s t tag ht hn]

theorem materialOf_congr (s t : SceneManager) (h : t.m_objectMaterials = s.m_objectMaterials)
    (tag : String) (material : OBJECT_MATERIAL) :
    t.materialOf tag material = s.materialOf tag material := by
  unfold materialOf
  rw [findMaterial_congr s t tag material h]

/-- With a shader manager, the count inside the table and at least one material defined, a
statement of `RenderScene` returns and adds its events to the trace, changing nothing else. -/
theorem renderScene_step_eq (T : Trig) (material : OBJECT_MATERIAL) (s : SceneManager)
    (c : SceneCall) (hp : s.m_pShaderManager = true) (h16 : s.m_loadedTextures ≤ 16)
    (hm : s.m_objectMaterials ≠ []) :
    RenderScene.step T material s c =
      .ok (s.emit (RenderScene.events T s.slotOf (fun tag => s.materialOf tag material) c)) := by
  cases c with
  | SetTransformations scaleXYZ X Y Z positionXYZ =>
    simp [RenderScene.step, RenderScene.events, SetTransformations, hp, emit]
  | SetShaderColor r g b a =>
    simp [RenderScene.step, RenderScene.events, SetShaderColor, hp, emit]
  | SetShaderTexture textureTag =>
    obtain ⟨r, hr, _⟩ := findTextureSlot_total s textureTag h16
    simp only [RenderScene.step, RenderScene.events, slotOf, hr,
      setShaderTexture_eq s textureTag r hp hr]
    rfl
  | SetTextureUVScale u v =>
    simp [RenderScene.step, RenderScene.events, SetTextureUVScale, hp, emit]
  | SetShaderMaterial materialTag =>
    obtain ⟨found, hfound⟩ := findMaterial_true_of_nonempty s materialTag material hm
    have hlen : s.m_objectMaterials.length > 0 := List.length_pos.mpr hm
    simp [RenderScene.step, RenderScene.events, SetShaderMaterial, materialOf, hfound, hp,
      hlen, emit]
  | DrawBoxMesh => simp [RenderScene.step, RenderScene.events, emit]
  | DrawPlaneMesh => simp [RenderScene.step, RenderScene.events, emit]
  | DrawCylinderMesh => simp [RenderScene.step, RenderScene.events, emit]
  | DrawConeMesh => simp [RenderScene.step, RenderScene.events, emit]

/-- Under the same conditions a sequence of statements returns, and the trace grows by the
events of the statements in order. -/
theorem renderScene_run_eq (T : Trig) (material : Nat → OBJECT_MATERIAL)
    (calls : List SceneCall) :
    ∀ (k : Nat) (s : SceneManager), s.m_pShaderManager = true → s.m_loadedTextures ≤ 16 →
      s.m_objectMaterials ≠ [] →
      RenderScene.run T material k s calls =
        .ok (s.emit (RenderScene.trace T s.slotOf
          (fun k tag => s.materialOf tag (material k)) k calls)) := by
  induction calls with
  | nil =>
    intro k s _ _ _
    simp [RenderScene.run, RenderScene.trace, emit]
  | cons c cs ih =>
    intro k s hp h16 hm
    simp only [RenderScene.run, renderScene_step_eq T (material k) s c hp h16 hm]
    rw [ih (k + 1) (s.emit _) hp h16 hm, slotOf_congr s (s.emit _) rfl rfl]
    have hmat : ∀ (es : List Effect), (fun (k : Nat) (tag : String) =>
        (s.emit es).materialOf tag (material k)) =
        fun k tag => s.materialOf tag (material k) := by
      intro es
      funext j tag
      exact materialOf_congr s (s.emit es) rfl tag (material j)
    rw [hmat]
    simp only [RenderScene.trace, emit, List.append_assoc]

end SceneManager

set_option maxRecDepth 100000

namespace SceneManager

/-- The groups of `drawGroups`, each followed by its draw, and then the events after the last
draw, make up the trace again. -/
theorem drawGroups_flatten (events : List Effect) :
    (drawGroups events).1.flatMap (fun g => g.1 ++ [g.2]) ++ (drawGroups events).2 =
      events := by
  induction events with
  | nil => rfl
  | cons e es ih =>
    unfold drawGroups
    by_cases h : isDraw e = true
    · rw [if_pos h]
      simp only [List.flatMap_cons, List.nil_append, List.singleton_append, List.cons_append]
      rw [ih]
    · rw [if_neg h]
      cases hg : (drawGroups es).1 with
      | nil =>
        rw [hg] at ih
        simp only [List.flatMap_nil, List.nil_append] at ih ⊢
        rw [ih]
      | cons g gs =>
        obtain ⟨before, draw⟩ := g
        rw [hg] at ih
        simp only [List.flatMap_cons, List.cons_append, List.append_assoc] at ih ⊢
        rw [ih]

/-- The events of the statements of `RenderScene`, whatever the values written: no event
follows the last draw, the draws are those of the 38 scene elements in source order, and the
events before each draw carry the state of one object. -/
theorem renderScene_trace_groups (T : Trig) (slot : String → Int)
    (found : Nat → String → OBJECT_MATERIAL) :
    (drawGroups (RenderScene.trace T slot found 0 RenderScene.calls)).2 = [] ∧
    (drawGroups (RenderScene.trace T slot found 0 RenderScene.calls)).1.map Prod.snd =
      [.DrawBoxMesh, .DrawBoxMesh, .DrawBoxMesh, .DrawBoxMesh, .DrawBoxMesh,
       .DrawPlaneMesh, .DrawPlaneMesh, .DrawBoxMesh,
       .DrawCylinderMesh, .DrawCylinderMesh, .DrawCylinderMesh, .DrawCylinderMesh,
       .DrawConeMesh, .DrawCylinderMesh, .DrawCylinderMesh,
       .DrawBoxMesh, .DrawBoxMesh, .DrawBoxMesh, .DrawBoxMesh, .DrawBoxMesh, .DrawBoxMesh,
       .DrawCylinderMesh, .DrawCylinderMesh,
       .DrawBoxMesh, .DrawBoxMesh, .DrawBoxMesh, .DrawBoxMesh, .DrawBoxMesh,
       .DrawCylinderMesh, .DrawCylinderMesh, .DrawCylinderMesh, .DrawCylinderMesh,
       .DrawCylinderMesh, .DrawCylinderMesh, .DrawCylinderMesh, .DrawCylinderMesh,
       .DrawCylinderMesh, .DrawCylinderMesh] ∧
    (drawGroups (RenderScene.trace T slot found 0 RenderScene.calls)).1.all
      (fun g => objectStateSet g.1) = true :=
  ⟨rfl, rfl, rfl⟩

end SceneManager

namespace SceneManager

/-- C21: with a shader manager, the count inside the table and at least one material defined,
`RenderScene` returns, and the events it adds to the trace are the events of its statements
in source order.  Cut at the draws, they fall into 38 groups, one per scene element and
nothing after the last draw: the draws are those of the elements in source order, and the
events between a draw and the draw before it (or the start of the frame) hold no draw,
exactly one write of the model matrix (one `SetTransformations` call), at least one write of
the use-texture flag (`SetShaderColor` or `SetShaderTexture`) and exactly one write of each of
the five material uniforms (one `SetShaderMaterial` call). -/
theorem renderScene_draws_after_object_state (T : Trig) (s : SceneManager)
    (material : Nat → OBJECT_MATERIAL) (hp : s.m_pShaderManager = true)
    (h16 : s.m_loadedTextures ≤ 16) (hm : s.m_objectMaterials ≠ []) :
    ∃ s' events, RenderScene T s material = .ok s' ∧ s'.trace = s.trace ++ events ∧
      events = RenderScene.trace T s.slotOf (fun k tag => s.materialOf tag (material k)) 0
        RenderScene.calls ∧
      events = (drawGroups events).1.flatMap (fun g => g.1 ++ [g.2]) ∧
      (drawGroups events).1.map Prod.snd =
        [.DrawBoxMesh, .DrawBoxMesh, .DrawBoxMesh, .DrawBoxMesh, .DrawBoxMesh,
         .DrawPlaneMesh, .DrawPlaneMesh, .DrawBoxMesh,
         .DrawCylinderMesh, .DrawCylinderMesh, .DrawCylinderMesh, .DrawCylinderMesh,
         .DrawConeMesh, .DrawCylinderMesh, .DrawCylinderMesh,
         .DrawBoxMesh, .DrawBoxMesh, .DrawBoxMesh, .DrawBoxMesh, .DrawBoxMesh, .DrawBoxMesh,
         .DrawCylinderMesh, .DrawCylinderMesh,
         .DrawBoxMesh, .DrawBoxMesh, .DrawBoxMesh, .DrawBoxMesh, .DrawBoxMesh,
         .DrawCylinderMesh, .DrawCylinderMesh, .DrawCylinderMesh, .DrawCylinderMesh,
         .DrawCylinderMesh, .DrawCylinderMesh, .DrawCylinderMesh, .DrawCylinderMesh,
         .DrawCylinderMesh, .DrawCylinderMesh] ∧
      ∀ g ∈ (drawGroups events).1,
        (∀ e ∈ g.1, isDraw e = false) ∧
        g.1.countP (writes "model") = 1 ∧
        1 ≤ g.1.countP (writes "bUseTexture") ∧
        g.1.countP (writes "material.ambientColor") = 1 ∧
        g.1.countP (writes "material.ambientStrength") = 1 ∧
        g.1.countP (writes "material.diffuseColor") = 1 ∧
        g.1.countP (writes "material.specularColor") = 1 ∧
        g.1.countP (writes "material.shininess") = 1 := by
  obtain ⟨hrest, hdraws, hstate⟩ :=
    renderScene_trace_groups T s.slotOf (fun k tag => s.materialOf tag (material k))
  refine ⟨_, _, renderScene_run_eq T material RenderScene.calls 0 s hp h16 hm, rfl, rfl, ?_,
    hdraws, ?_⟩
  · have hflat := drawGroups_flatten
      (RenderScene.trace T s.slotOf (fun k tag => s.materialOf tag (material k)) 0
        RenderScene.calls)
    rw [hrest, List.append_nil] at hflat
    exact hflat.symm
  · intro g hg
    have h := List.all_eq_true.mp hstate g hg
    simp only [objectStateSet, Bool.and_eq_true, decide_eq_true_eq, List.all_eq_true,
      Bool.not_eq_true', g_ModelName, g_UseTextureName] at h
    obtain ⟨⟨⟨⟨⟨⟨⟨h0, h1⟩, h2⟩, h3⟩, h4⟩, h5⟩, h6⟩, h7⟩ := h
    exact ⟨h0, h1, h2, h3, h4, h5, h6, h7⟩

end SceneManager

namespace SceneManager

/-- C21, on the prepared scene, with the stand-in cosine and sine and a blank local record:
the frame is 414 events, 38 of them draws, and the sampler values written are the slots of
the texture tags in source order. -/
theorem renderScene_draws_after_object_state_witness :
    preparedScene.m_pShaderManager = true ∧ preparedScene.m_loadedTextures ≤ 16 ∧
    preparedScene.m_objectMaterials ≠ [] ∧
    (RenderScene sampleTrig preparedScene (fun _ => blankMaterial)).map
        (fun s => ((s.trace.drop preparedScene.trace.length).length,
          (s.trace.filter isDraw).length,
          s.trace.filterMap fun e =>
            match e with
            | .setSampler2DValue _ value => some value
            | _ => none)) =
      .ok (414, 38, [2, 3, 0, 4, 15, 14, 9, 1, 9, 9, 9, 6, 8, 6, 8, 6, 8, 15, 14, 5, 7, 8, 6, 8,
        10, 12, 10, 12, 10, 12, 11, 13, 11, 13]) ∧
    (∃ s' events, RenderScene sampleTrig preparedScene (fun _ => blankMaterial) = .ok s' ∧
      s'.trace = preparedScene.trace ++ events ∧
      events = RenderScene.trace sampleTrig preparedScene.slotOf
        (fun _ tag => preparedScene.materialOf tag blankMaterial) 0 RenderScene.calls ∧
      events = (drawGroups events).1.flatMap (fun g => g.1 ++ [g.2]) ∧
      (drawGroups events).1.map Prod.snd =
        [.DrawBoxMesh, .DrawBoxMesh, .DrawBoxMesh, .DrawBoxMesh, .DrawBoxMesh,
         .DrawPlaneMesh, .DrawPlaneMesh, .DrawBoxMesh,
         .DrawCylinderMesh, .DrawCylinderMesh, .DrawCylinderMesh, .DrawCylinderMesh,
         .DrawConeMesh, .DrawCylinderMesh, .DrawCylinderMesh,
         .DrawBoxMesh, .DrawBoxMesh, .DrawBoxMesh, .DrawBoxMesh, .DrawBoxMesh, .DrawBoxMesh,
         .DrawCylinderMesh, .DrawCylinderMesh,
         .DrawBoxMesh, .DrawBoxMesh, .DrawBoxMesh, .DrawBoxMesh, .DrawBoxMesh,
         .DrawCylinderMesh, .DrawCylinderMesh, .DrawCylinderMesh, .DrawCylinderMesh,
         .DrawCylinderMesh, .DrawCylinderMesh, .DrawCylinderMesh, .DrawCylinderMesh,
         .DrawCylinderMesh, .DrawCylinderMesh] ∧
      ∀ g ∈ (drawGroups events).1,
        (∀ e ∈ g.1, isDraw e = false) ∧
        g.1.countP (writes "model") = 1 ∧
        1 ≤ g.1.countP (writes "bUseTexture") ∧
        g.1.countP (writes "material.ambientColor") = 1 ∧
        g.1.countP (writes "material.ambientStrength") = 1 ∧
        g.1.countP (writes "material.diffuseColor") = 1 ∧
        g.1.countP (writes "material.specularColor") = 1 ∧
        g.1.countP (writes "material.shininess") = 1) := by
  have hp : preparedScene.m_pShaderManager = true := rfl
  have h16 : preparedScene.m_loadedTextures ≤ 16 := by decide
  have hm : preparedScene.m_objectMaterials ≠ [] := by decide
  exact ⟨hp, h16, hm, rfl,
    renderScene_draws_after_object_state sampleTrig preparedScene (fun _ => blankMaterial)
      hp h16 hm⟩

end SceneManager
